import Mathlib

/-!
# three-js-playground: movement and collision core

A shallow embedding of `src/assets/services/UserMovementService.js` and of
`src/assets/services/ObjectGeneratorService.js`.

Conventions of the embedding

* JavaScript numbers are modelled by exact rationals (`ℚ`).  The only place
  where the source can produce `NaN` from well-typed inputs is the division
  `parameters.height / 2` for a geometry without a `height`; that value is
  modelled by `Option ℚ` (`none` is `NaN`), and every comparison with it is
  false, as in JavaScript.
* `this` is passed explicitly: a method `m(args)` becomes
  `m T args s`, returning the new service state.
* The three.js library is not part of the repository.  What the service calls
  from it and cannot be written with rational arithmetic (ray casting,
  normalisation, rotations) is collected in the record `THREE.Engine` and
  passed to every method as the parameter `T`.
* `performance.now()` and the optional `getGameStarted` callback are inputs of
  the methods that read them; `Math.cos`, `Math.sin` and `Math.random()` are
  collected in the record `JSMath`.
* A call that raises a `TypeError` in the source returns `none`.
* Where a property depends on a number leaving the range of a double, `update` is
  embedded a second time over numbers with the two infinities and `NaN`
  (section `Overflow`).
-/

namespace THREE

/-- Vector3 of three.js, with rational components. -/
structure Vector3 where
  x : ℚ
  y : ℚ
  z : ℚ
deriving DecidableEq

/-- Quaternion of three.js (the orientation of an Object3D). -/
structure Quaternion where
  x : ℚ
  y : ℚ
  z : ℚ
  w : ℚ
deriving DecidableEq

/-- Object3D of three.js: the fields the services read or write. -/
structure Object3D where
  position : Vector3
  rotation : Vector3
  quaternion : Quaternion
deriving DecidableEq

/-- The field `geometry.parameters` of a mesh, when the geometry has one.  A box or
cylinder geometry declares a `height`; a sphere geometry, for instance, does not. -/
structure GeometryParameters where
  height : Option ℚ
deriving DecidableEq

/-- The field `userData` of a mesh, as far as the collision code reads it. -/
structure UserData where
  isCrouchObstacle : Option Bool
  obstacleType : Option String
deriving DecidableEq

/-- Mesh of three.js: world position, `geometry.parameters`, `userData` and the Euler
angles `rotation` (zero for a new mesh). -/
structure Mesh where
  position : Vector3
  parameters : Option GeometryParameters
  userData : Option UserData
  rotation : Vector3 := ⟨0, 0, 0⟩
deriving DecidableEq

/-- One entry of the array returned by `Raycaster.intersectObjects`. -/
structure Intersection where
  distance : ℚ
  point : Vector3
  object : Mesh
deriving DecidableEq

/-- The three.js functions used by the services that are taken as given.

* `normalize v` is `v.normalize()`;
* `applyQuaternion v q` is `v.applyQuaternion(q)`;
* `applyAxisAngle v axis angle` is `v.applyAxisAngle(axis, angle)`;
* `setFromEuler e` is the quaternion three.js derives from the Euler angles `e`
  when a component of `rotation` is assigned;
* `intersectObjects origin direction objects recursive` is
  `raycaster.set(origin, direction)` followed by
  `raycaster.intersectObjects(objects, recursive)`; three.js returns the hits
  sorted by increasing distance, so the head of the list is the nearest hit. -/
structure Engine where
  normalize : Vector3 → Vector3
  applyQuaternion : Vector3 → Quaternion → Vector3
  applyAxisAngle : Vector3 → Vector3 → ℚ → Vector3
  setFromEuler : Vector3 → Quaternion
  intersectObjects : Vector3 → Vector3 → List Mesh → Bool → List Intersection

/-- The method `Vector3.add`. -/
def Vector3.add (a b : Vector3) : Vector3 :=
  ⟨a.x + b.x, a.y + b.y, a.z + b.z⟩

/-- The method `Vector3.multiplyScalar`. -/
def Vector3.multiplyScalar (a : Vector3) (k : ℚ) : Vector3 :=
  ⟨a.x * k, a.y * k, a.z * k⟩

/-- The method `Object3D.translateOnAxis(axis, distance)`: the axis is taken in the
object's local frame (rotated by its quaternion) and the position moves along it. -/
def Object3D.translateOnAxis (T : Engine) (o : Object3D) (axis : Vector3) (distance : ℚ) :
    Object3D :=
  { o with position := o.position.add ((T.applyQuaternion axis o.quaternion).multiplyScalar distance) }

/-- The method `Object3D.translateX(distance)`. -/
def Object3D.translateX (T : Engine) (o : Object3D) (distance : ℚ) : Object3D :=
  o.translateOnAxis T ⟨1, 0, 0⟩ distance

/-- The method `Object3D.translateZ(distance)`. -/
def Object3D.translateZ (T : Engine) (o : Object3D) (distance : ℚ) : Object3D :=
  o.translateOnAxis T ⟨0, 0, 1⟩ distance

/-- The constant `Math.PI`: the double nearest to pi, which is the rational
884279719003555 / 2^48. -/
def Math_PI : ℚ := 884279719003555 / 281474976710656

end THREE

open THREE

/-- The object `controls` handed to the service: the pointer-lock flag and the two
nested objects carrying yaw (the player body) and pitch (the eye). -/
structure Controls where
  enabled : Bool
  yawObject : Object3D
  pitchObject : Object3D
deriving DecidableEq

/-- The object `this.config`. -/
structure MovementConfig where
  GRAVITY : ℚ
  JUMP_VELOCITY : ℚ
  GROUND_HEIGHT : ℚ
  WALK_SPEED : ℚ
  RUN_SPEED : ℚ
  CROUCH_SPEED : ℚ
  PLAYER_RADIUS : ℚ
  PLAYER_HEIGHT : ℚ
  CROUCH_HEIGHT : ℚ
  VELOCITY_DAMPING : ℚ
  MOUSE_SENSITIVITY : ℚ
deriving DecidableEq

/-- The argument `options` of the constructor (and `newConfig` of `updateConfig`):
each field may be absent. -/
structure Options where
  GRAVITY : Option ℚ
  JUMP_VELOCITY : Option ℚ
  GROUND_HEIGHT : Option ℚ
  WALK_SPEED : Option ℚ
  RUN_SPEED : Option ℚ
  CROUCH_SPEED : Option ℚ
  PLAYER_RADIUS : Option ℚ
  PLAYER_HEIGHT : Option ℚ
  CROUCH_HEIGHT : Option ℚ
  VELOCITY_DAMPING : Option ℚ
  MOUSE_SENSITIVITY : Option ℚ
deriving DecidableEq

/-- The object `this.eye`: eye offsets for the two modes. -/
structure Eye where
  stand : ℚ
  crouch : ℚ
deriving DecidableEq

/-- The fields of a `UserMovementService` instance. -/
structure UserMovementService where
  controls : Controls
  collidableObjects : List Mesh
  landableObjects : List Mesh
  moveForward : Bool
  moveBackward : Bool
  moveLeft : Bool
  moveRight : Bool
  isRunning : Bool
  isCrouching : Bool
  canJump : Bool
  isJumping : Bool
  velocity : Vector3
  direction : Vector3
  config : MovementConfig
  prevTime : ℚ
  eye : Eye
deriving DecidableEq

namespace UserMovementService

/-- The expression `a || d` for an optional numeric option: the default is taken when
the option is absent or falsy (zero). -/
def orDefault (a : Option ℚ) (d : ℚ) : ℚ :=
  match a with
  | some v => if v = 0 then d else v
  | none => d

/-- The method `initEyeHeights`.  The pitch object of `Controls` always has a numeric
`position.y`, so the fallback `PLAYER_HEIGHT * 0.9` of the source is not reached. -/
def initEyeHeights (s : UserMovementService) : UserMovementService :=
  let current := s.controls.pitchObject.position.y
  let delta := s.config.PLAYER_HEIGHT - s.config.CROUCH_HEIGHT
  { s with eye := { stand := current, crouch := current - delta * 2.5 } }

/-- The constructor; `now` is the value of `performance.now()`. -/
def constructor (controls : Controls) (collidableObjects landableObjects : List Mesh)
    (options : Options) (now : ℚ) : UserMovementService :=
  let s : UserMovementService :=
    { controls := controls
      collidableObjects := collidableObjects
      landableObjects := landableObjects
      moveForward := false
      moveBackward := false
      moveLeft := false
      moveRight := false
      isRunning := false
      isCrouching := false
      canJump := false
      isJumping := false
      velocity := ⟨0, 0, 0⟩
      direction := ⟨0, 0, 0⟩
      config :=
        { GRAVITY := orDefault options.GRAVITY 8.0
          JUMP_VELOCITY := orDefault options.JUMP_VELOCITY 250
          GROUND_HEIGHT := orDefault options.GROUND_HEIGHT 10
          WALK_SPEED := orDefault options.WALK_SPEED 450.0
          RUN_SPEED := orDefault options.RUN_SPEED 1000.0
          CROUCH_SPEED := orDefault options.CROUCH_SPEED 200.0
          PLAYER_RADIUS := orDefault options.PLAYER_RADIUS 5
          PLAYER_HEIGHT := orDefault options.PLAYER_HEIGHT 8
          CROUCH_HEIGHT := orDefault options.CROUCH_HEIGHT 2
          VELOCITY_DAMPING := orDefault options.VELOCITY_DAMPING 10.0
          MOUSE_SENSITIVITY := orDefault options.MOUSE_SENSITIVITY 0.002 }
      prevTime := now
      eye := { stand := 0, crouch := 0 } }
  { initEyeHeights s with canJump := true }

/-- The method `getCurrentPlayerHeight`. -/
def getCurrentPlayerHeight (s : UserMovementService) : ℚ :=
  if s.isCrouching then s.config.CROUCH_HEIGHT else s.config.PLAYER_HEIGHT

/-- The method `hasHeadroomToStand`: a single upward ray from the player position
against the collidable objects (recursive). -/
def hasHeadroomToStand (T : Engine) (s : UserMovementService) : Bool :=
  if !s.isCrouching then true
  else
    let origin := s.controls.yawObject.position
    let up : Vector3 := ⟨0, 1, 0⟩
    let needed := s.config.PLAYER_HEIGHT - s.config.CROUCH_HEIGHT
    let hits := T.intersectObjects origin up s.collidableObjects true
    match hits.find? (fun h => decide (h.distance ≥ 0)) with
    | none => true
    | some first => decide (first.distance > needed + 0.1)

/-- The last three statements of `toggleCrouch`: the mode is stored and the eye is
moved to the offset of the new mode. -/
def setCrouchMode (s : UserMovementService) (goingToCrouch : Bool) : UserMovementService :=
  let s1 := { s with isCrouching := goingToCrouch }
  let targetY := if s1.isCrouching then s1.eye.crouch else s1.eye.stand
  { s1 with controls.pitchObject.position.y := targetY }

/-- The method `toggleCrouch`. -/
def toggleCrouch (T : Engine) (s : UserMovementService) : UserMovementService :=
  let goingToCrouch := !s.isCrouching
  if goingToCrouch then setCrouchMode { s with isRunning := false } goingToCrouch
  else if !hasHeadroomToStand T s then s
  else setCrouchMode s goingToCrouch

/-- The method `onKeyDown(event)`.  `gameStarted` is `none` when no `getGameStarted`
callback is attached to the service, and `some b` when one is attached and returns
`b`; `code` is `event.code`. -/
def onKeyDown (T : Engine) (gameStarted : Option Bool) (code : String)
    (s : UserMovementService) : UserMovementService :=
  if gameStarted = some false then s
  else
    match code with
    | "ArrowUp" | "KeyW" => { s with moveForward := true }
    | "ArrowLeft" | "KeyA" => { s with moveLeft := true }
    | "ArrowDown" | "KeyS" => { s with moveBackward := true }
    | "ArrowRight" | "KeyD" => { s with moveRight := true }
    | "Space" =>
      if s.canJump && !s.isCrouching then
        { s with velocity.y := s.config.JUMP_VELOCITY, canJump := false, isJumping := true }
      else s
    | "ShiftLeft" | "ShiftRight" => if !s.isCrouching then { s with isRunning := true } else s
    | "KeyC" => toggleCrouch T s
    | _ => s

/-- The method `onKeyUp(event)`. -/
def onKeyUp (gameStarted : Option Bool) (code : String)
    (s : UserMovementService) : UserMovementService :=
  if gameStarted = some false then s
  else
    match code with
    | "ArrowUp" | "KeyW" => { s with moveForward := false }
    | "ArrowLeft" | "KeyA" => { s with moveLeft := false }
    | "ArrowDown" | "KeyS" => { s with moveBackward := false }
    | "ArrowRight" | "KeyD" => { s with moveRight := false }
    | "ShiftLeft" | "ShiftRight" => { s with isRunning := false }
    | _ => s

/-- The method `checkOverheadCollision`: an upward ray from the top of the body. -/
def checkOverheadCollision (T : Engine) (s : UserMovementService) : Bool :=
  let playerPosition := s.controls.yawObject.position
  let currentPlayerHeight := getCurrentPlayerHeight s
  let headPosition : Vector3 := { playerPosition with y := playerPosition.y + currentPlayerHeight / 2 }
  let intersections := T.intersectObjects headPosition ⟨0, 1, 0⟩ s.collidableObjects false
  let requiredClearance : ℚ :=
    if s.isCrouching then s.config.PLAYER_HEIGHT - s.config.CROUCH_HEIGHT + 0.5 else 1
  match intersections with
  | [] => false
  | hit :: _ => decide (hit.distance < requiredClearance)

/-- The expression `hitObject.geometry.parameters ? hitObject.geometry.parameters.height / 2 : 3`.
When the parameters exist without a `height`, the quotient is `NaN` (`none`). -/
def halfExtent (hitObject : Mesh) : Option ℚ :=
  match hitObject.parameters with
  | some p =>
    match p.height with
    | some h => some (h / 2)
    | none => none
  | none => some 3

/-- The comparison `a > b` of JavaScript for a possibly-`NaN` left operand. -/
def gtNum (a : Option ℚ) (b : ℚ) : Bool :=
  match a with
  | some v => decide (v > b)
  | none => false

/-- The method `checkCrouchCollision(direction)`: a single ray from the player
position, and the clearance rule on its nearest hit. -/
def checkCrouchCollision (T : Engine) (s : UserMovementService) (direction : Vector3) : Bool :=
  let playerPosition := s.controls.yawObject.position
  let intersections :=
    T.intersectObjects playerPosition (T.normalize direction) s.collidableObjects false
  match intersections with
  | [] => false
  | hit :: _ =>
    let distance := hit.distance
    let hitObject := hit.object
    let collisionRadius := s.config.PLAYER_RADIUS * 0.6
    if distance < collisionRadius then
      let objectBottom := (halfExtent hitObject).map (fun e => hitObject.position.y - e)
      let playerCrouchTop := playerPosition.y + s.config.CROUCH_HEIGHT / 2
      let isCrouchObstacle : Bool :=
        match hitObject.userData with
        | some u => u.isCrouchObstacle.getD false
        | none => false
      let requiredClearance : ℚ := 0.3
      let actualClearance := objectBottom.map (fun b => b - playerCrouchTop)
      if isCrouchObstacle && gtNum actualClearance requiredClearance then false
      else if gtNum actualClearance requiredClearance then false
      else true
    else false

/-- The array `checkHeights` of `checkCollision`. -/
def checkHeights (s : UserMovementService) : List ℚ :=
  let currentPlayerHeight := getCurrentPlayerHeight s
  if s.isCrouching then [-currentPlayerHeight * 0.3, 0]
  else [-currentPlayerHeight * 0.3, 0, currentPlayerHeight * 0.3]

/-- The inner loop of `checkCollision` over the height offsets, for one ray direction.
`dir.normalize()` normalises `dir` in place, so the normalised vector is carried to
the next offset. -/
def checkCollisionRay (T : Engine) (s : UserMovementService) : Vector3 → List ℚ → Bool
  | _, [] => false
  | dir, heightOffset :: rest =>
    let playerPosition := s.controls.yawObject.position
    let currentPlayerHeight := getCurrentPlayerHeight s
    let effectiveRadius :=
      if s.isCrouching then s.config.PLAYER_RADIUS * 0.7 else s.config.PLAYER_RADIUS
    let checkPosition : Vector3 := { playerPosition with y := playerPosition.y + heightOffset }
    let dir1 := T.normalize dir
    let intersections := T.intersectObjects checkPosition dir1 s.collidableObjects false
    match intersections with
    | [] => checkCollisionRay T s dir1 rest
    | hit :: _ =>
      if hit.distance < effectiveRadius then
        let playerTop := playerPosition.y + currentPlayerHeight / 2
        if s.isCrouching = true ∧ hit.point.y > playerTop + 1 then checkCollisionRay T s dir1 rest
        else true
      else checkCollisionRay T s dir1 rest

/-- The array `directions` of `checkCollision`: the direction and its rotations by
plus and minus a quarter of pi about the vertical axis. -/
def probeDirections (T : Engine) (direction : Vector3) : List Vector3 :=
  [direction,
   T.applyAxisAngle direction ⟨0, 1, 0⟩ (Math_PI / 4),
   T.applyAxisAngle direction ⟨0, 1, 0⟩ (-Math_PI / 4)]

/-- The method `checkCollision(direction)`: it returns true at the first blocking ray. -/
def checkCollision (T : Engine) (s : UserMovementService) (direction : Vector3) : Bool :=
  (probeDirections T direction).any (fun dir => checkCollisionRay T s dir (checkHeights s))

/-- The method `checkTopCollision`: `none` is `null`. -/
def checkTopCollision (T : Engine) (s : UserMovementService) : Option ℚ :=
  let playerPosition := s.controls.yawObject.position
  let currentPlayerHeight := getCurrentPlayerHeight s
  let intersections := T.intersectObjects playerPosition ⟨0, -1, 0⟩ s.landableObjects false
  match intersections with
  | [] => none
  | intersection :: _ =>
    let objectTop := intersection.point.y
    let playerBottom := playerPosition.y - currentPlayerHeight / 2
    if |playerBottom - objectTop| < 2 ∧ s.velocity.y ≤ 0 then
      some (objectTop + currentPlayerHeight / 2)
    else none

/-- The method `getGroundHeight`. -/
def getGroundHeight (T : Engine) (s : UserMovementService) : ℚ :=
  let playerPosition := s.controls.yawObject.position
  let currentPlayerHeight := getCurrentPlayerHeight s
  let intersections := T.intersectObjects playerPosition ⟨0, -1, 0⟩ s.landableObjects false
  match intersections with
  | [] => s.config.GROUND_HEIGHT
  | intersection :: _ =>
    let surfaceHeight := intersection.point.y + currentPlayerHeight / 2
    if |playerPosition.y - surfaceHeight| < 3 then surfaceHeight
    else s.config.GROUND_HEIGHT

/-- The conversion `Number(b)` of a boolean. -/
def boolToNumber (b : Bool) : ℚ := if b then 1 else 0

/-- The timestep used by `update(delta)`: a falsy `delta` (zero, or an omitted argument,
passed here as zero) is replaced by the wall-clock difference in seconds. -/
def frameDelta (now delta : ℚ) (s : UserMovementService) : ℚ :=
  if delta = 0 then (now - s.prevTime) / 1000 else delta

/-- The first statement of `update`: when `delta` is falsy, `prevTime` is set to `now`. -/
def stampTime (now delta : ℚ) (s : UserMovementService) : UserMovementService :=
  if delta = 0 then { s with prevTime := now } else s

/-- Gravity step of `update` (source lines 420 to 427). -/
def applyGravity (T : Engine) (delta : ℚ) (s : UserMovementService) : UserMovementService :=
  let currentGroundHeight := getGroundHeight T s
  if s.isJumping = true ∨ s.controls.yawObject.position.y > currentGroundHeight then
    { s with velocity.y := s.velocity.y - s.config.GRAVITY * 100 * delta }
  else s

/-- Damping step of `update` (source lines 429 and 430). -/
def applyDamping (delta : ℚ) (s : UserMovementService) : UserMovementService :=
  let s1 := { s with velocity.x := s.velocity.x - s.velocity.x * s.config.VELOCITY_DAMPING * delta }
  { s1 with velocity.z := s1.velocity.z - s1.velocity.z * s1.config.VELOCITY_DAMPING * delta }

/-- The speed selected by `update` (source lines 436 to 440). -/
def currentSpeed (s : UserMovementService) : ℚ :=
  if s.isCrouching then s.config.CROUCH_SPEED
  else if s.isRunning then s.config.RUN_SPEED
  else s.config.WALK_SPEED

/-- Input step of `update` (source lines 432 to 445). -/
def applyInput (T : Engine) (delta : ℚ) (s : UserMovementService) : UserMovementService :=
  let s1 := { s with direction.z := boolToNumber s.moveForward - boolToNumber s.moveBackward }
  let s2 := { s1 with direction.x := boolToNumber s1.moveLeft - boolToNumber s1.moveRight }
  let s3 := { s2 with direction := T.normalize s2.direction }
  let s4 :=
    if s3.moveForward = true ∨ s3.moveBackward = true then
      { s3 with velocity.z := s3.velocity.z - s3.direction.z * currentSpeed s3 * delta }
    else s3
  if s4.moveLeft = true ∨ s4.moveRight = true then
    { s4 with velocity.x := s4.velocity.x - s4.direction.x * currentSpeed s4 * delta }
  else s4

/-- The vector `xDirection` of `update`: the signed unit x axis rotated by the yaw. -/
def xDirection (T : Engine) (s : UserMovementService) : Vector3 :=
  T.applyQuaternion ⟨if s.velocity.x > 0 then 1 else -1, 0, 0⟩ s.controls.yawObject.quaternion

/-- The vector `zDirection` of `update`: the signed unit z axis rotated by the yaw. -/
def zDirection (T : Engine) (s : UserMovementService) : Vector3 :=
  T.applyQuaternion ⟨0, 0, if s.velocity.z > 0 then 1 else -1⟩ s.controls.yawObject.quaternion

/-- The collision check `update` selects for a direction: the crouch-specific check
when crouching, the general check otherwise. -/
def isBlocked (T : Engine) (s : UserMovementService) (direction : Vector3) : Bool :=
  if s.isCrouching then checkCrouchCollision T s direction else checkCollision T s direction

/-- The variable `canMoveX` of `update` (source lines 447 to 456). -/
def canMoveX (T : Engine) (s : UserMovementService) : Bool :=
  if s.velocity.x ≠ 0 then !isBlocked T s (xDirection T s) else true

/-- The variable `canMoveZ` of `update` (source lines 448 to 464). -/
def canMoveZ (T : Engine) (s : UserMovementService) : Bool :=
  if s.velocity.z ≠ 0 then !isBlocked T s (zDirection T s) else true

/-- Horizontal step of `update` (source lines 447 to 469): both axes are checked at
the position before any translation, then each axis is translated or stopped. -/
def moveHorizontal (T : Engine) (delta : ℚ) (s : UserMovementService) : UserMovementService :=
  let moveX := canMoveX T s
  let moveZ := canMoveZ T s
  let s1 :=
    if moveX then
      { s with controls.yawObject := s.controls.yawObject.translateX T (s.velocity.x * delta) }
    else { s with velocity.x := 0 }
  if moveZ then
    { s1 with controls.yawObject := s1.controls.yawObject.translateZ T (s1.velocity.z * delta) }
  else { s1 with velocity.z := 0 }

/-- Ceiling step of `update` (source lines 471 to 474). -/
def stopAtCeiling (T : Engine) (s : UserMovementService) : UserMovementService :=
  if s.velocity.y > 0 ∧ checkOverheadCollision T s = true then { s with velocity.y := 0 }
  else s

/-- Vertical translation of `update` (source line 476). -/
def moveVertical (delta : ℚ) (s : UserMovementService) : UserMovementService :=
  { s with controls.yawObject.position.y := s.controls.yawObject.position.y + s.velocity.y * delta }

/-- The four assignments shared by the two branches of the landing resolution: the
player is put at height `y`, stops moving vertically and may jump again. -/
def landAt (s : UserMovementService) (y : ℚ) : UserMovementService :=
  { s with controls.yawObject.position.y := y, velocity.y := 0, canJump := true, isJumping := false }

/-- The branch `else if (position.y <= GROUND_HEIGHT)` of the landing resolution. -/
def clampToGround (s : UserMovementService) : UserMovementService :=
  if s.controls.yawObject.position.y ≤ s.config.GROUND_HEIGHT then landAt s s.config.GROUND_HEIGHT
  else s

/-- Landing resolution of `update` (source lines 478 to 491). -/
def resolveLanding (T : Engine) (s : UserMovementService) : UserMovementService :=
  match checkTopCollision T s with
  | some landingHeight => if s.velocity.y ≤ 0 then landAt s landingHeight else clampToGround s
  | none => clampToGround s

/-- The state of `update` after gravity, damping and input accumulation, at the point
where the horizontal collision checks are made. -/
def afterInput (T : Engine) (now delta : ℚ) (s : UserMovementService) : UserMovementService :=
  let dt := frameDelta now delta s
  applyInput T dt (applyDamping dt (applyGravity T dt (stampTime now delta s)))

/-- The state of `update` after the horizontal step, at the point where the overhead
check is made. -/
def afterHorizontal (T : Engine) (now delta : ℚ) (s : UserMovementService) :
    UserMovementService :=
  moveHorizontal T (frameDelta now delta s) (afterInput T now delta s)

/-- The state of `update` after the vertical translation, at the point where the
landing probe is made. -/
def beforeLanding (T : Engine) (now delta : ℚ) (s : UserMovementService) : UserMovementService :=
  moveVertical (frameDelta now delta s) (stopAtCeiling T (afterHorizontal T now delta s))

/-- The method `update(delta)`; `now` is the value `performance.now()` would return. -/
def update (T : Engine) (now delta : ℚ) (s : UserMovementService) : UserMovementService :=
  resolveLanding T (beforeLanding T now delta s)

/-- The method `setPosition(x, y, z)`. -/
def setPosition (x y z : ℚ) (s : UserMovementService) : UserMovementService :=
  { s with controls.yawObject.position := ⟨x, y, z⟩ }

/-- The method `getPosition`. -/
def getPosition (s : UserMovementService) : Vector3 :=
  s.controls.yawObject.position

/-- The method `resetVelocity`. -/
def resetVelocity (s : UserMovementService) : UserMovementService :=
  { s with velocity := ⟨0, 0, 0⟩ }

/-- The call `Object.assign(this.config, newConfig)`: present fields overwrite. -/
def assignConfig (c : MovementConfig) (n : Options) : MovementConfig :=
  { GRAVITY := n.GRAVITY.getD c.GRAVITY
    JUMP_VELOCITY := n.JUMP_VELOCITY.getD c.JUMP_VELOCITY
    GROUND_HEIGHT := n.GROUND_HEIGHT.getD c.GROUND_HEIGHT
    WALK_SPEED := n.WALK_SPEED.getD c.WALK_SPEED
    RUN_SPEED := n.RUN_SPEED.getD c.RUN_SPEED
    CROUCH_SPEED := n.CROUCH_SPEED.getD c.CROUCH_SPEED
    PLAYER_RADIUS := n.PLAYER_RADIUS.getD c.PLAYER_RADIUS
    PLAYER_HEIGHT := n.PLAYER_HEIGHT.getD c.PLAYER_HEIGHT
    CROUCH_HEIGHT := n.CROUCH_HEIGHT.getD c.CROUCH_HEIGHT
    VELOCITY_DAMPING := n.VELOCITY_DAMPING.getD c.VELOCITY_DAMPING
    MOUSE_SENSITIVITY := n.MOUSE_SENSITIVITY.getD c.MOUSE_SENSITIVITY }

/-- The method `updateConfig(newConfig)`. -/
def updateConfig (newConfig : Options) (s : UserMovementService) : UserMovementService :=
  let s1 := { s with config := assignConfig s.config newConfig }
  let s2 := initEyeHeights s1
  { s2 with controls.pitchObject.position.y := if s2.isCrouching then s2.eye.crouch else s2.eye.stand }

/-- The fields of a mouse event read by `onMouseMove`; each may be absent. -/
structure MouseEvent where
  movementX : Option ℚ
  mozMovementX : Option ℚ
  webkitMovementX : Option ℚ
  movementY : Option ℚ
  mozMovementY : Option ℚ
  webkitMovementY : Option ℚ
deriving DecidableEq

/-- The method `onMouseMove(event)`.  Assigning a component of `rotation` makes
three.js recompute the quaternion of the object from its Euler angles. -/
def onMouseMove (T : Engine) (gameStarted : Option Bool) (event : MouseEvent)
    (s : UserMovementService) : UserMovementService :=
  if !s.controls.enabled then s
  else if gameStarted = some false then s
  else
    let movementX :=
      orDefault event.movementX (orDefault event.mozMovementX (orDefault event.webkitMovementX 0))
    let movementY :=
      orDefault event.movementY (orDefault event.mozMovementY (orDefault event.webkitMovementY 0))
    let yaw := s.controls.yawObject
    let yawRotation : Vector3 :=
      { yaw.rotation with y := yaw.rotation.y - movementX * s.config.MOUSE_SENSITIVITY }
    let pitch := s.controls.pitchObject
    let pitchX := pitch.rotation.x - movementY * s.config.MOUSE_SENSITIVITY
    let pitchRotation : Vector3 :=
      { pitch.rotation with x := max (-Math_PI / 2) (min (Math_PI / 2) pitchX) }
    { s with
      controls.yawObject := { yaw with rotation := yawRotation, quaternion := T.setFromEuler yawRotation }
      controls.pitchObject :=
        { pitch with rotation := pitchRotation, quaternion := T.setFromEuler pitchRotation } }

/-- The states a service can be in: those produced by the constructor and closed under
`setPosition`, the key handlers, `toggleCrouch` and `update`, in a world `T`. -/
inductive Reachable (T : Engine) : UserMovementService → Prop
  | init (controls : Controls) (collidableObjects landableObjects : List Mesh)
      (options : Options) (now : ℚ) :
      Reachable T (constructor controls collidableObjects landableObjects options now)
  | setPosition (x y z : ℚ) {s : UserMovementService} :
      Reachable T s → Reachable T (setPosition x y z s)
  | keyDown (gameStarted : Option Bool) (code : String) {s : UserMovementService} :
      Reachable T s → Reachable T (onKeyDown T gameStarted code s)
  | keyUp (gameStarted : Option Bool) (code : String) {s : UserMovementService} :
      Reachable T s → Reachable T (onKeyUp gameStarted code s)
  | toggleCrouch {s : UserMovementService} :
      Reachable T s → Reachable T (toggleCrouch T s)
  | update (now delta : ℚ) {s : UserMovementService} :
      Reachable T s → Reachable T (update T now delta s)

/-- The states a service can be in when `updateConfig` may be called as well: those
produced by the constructor and closed under the key handlers, `toggleCrouch`,
`update`, `setPosition` and `updateConfig`, in a world `T`. -/
inductive ReachableWithConfig (T : Engine) : UserMovementService → Prop
  | init (controls : Controls) (collidableObjects landableObjects : List Mesh)
      (options : Options) (now : ℚ) :
      ReachableWithConfig T (constructor controls collidableObjects landableObjects options now)
  | keyDown (gameStarted : Option Bool) (code : String) {s : UserMovementService} :
      ReachableWithConfig T s → ReachableWithConfig T (onKeyDown T gameStarted code s)
  | keyUp (gameStarted : Option Bool) (code : String) {s : UserMovementService} :
      ReachableWithConfig T s → ReachableWithConfig T (onKeyUp gameStarted code s)
  | toggleCrouch {s : UserMovementService} :
      ReachableWithConfig T s → ReachableWithConfig T (toggleCrouch T s)
  | update (now delta : ℚ) {s : UserMovementService} :
      ReachableWithConfig T s → ReachableWithConfig T (update T now delta s)
  | setPosition (x y z : ℚ) {s : UserMovementService} :
      ReachableWithConfig T s → ReachableWithConfig T (setPosition x y z s)
  | updateConfig (newConfig : Options) {s : UserMovementService} :
      ReachableWithConfig T s → ReachableWithConfig T (updateConfig newConfig s)


/-- The test `checkCollision` applies to the ray cast from the player's position raised
by `heightOffset` along the (normalised) direction `dir`: the nearest hit is closer
than the effective radius and, while crouching, not above `playerTop + 1`. -/
def rayBlocks (T : Engine) (s : UserMovementService) (heightOffset : ℚ) (dir : Vector3) : Bool :=
  let playerPosition := s.controls.yawObject.position
  let currentPlayerHeight := getCurrentPlayerHeight s
  let effectiveRadius :=
    if s.isCrouching then s.config.PLAYER_RADIUS * 0.7 else s.config.PLAYER_RADIUS
  let checkPosition : Vector3 := { playerPosition with y := playerPosition.y + heightOffset }
  match T.intersectObjects checkPosition dir s.collidableObjects false with
  | [] => false
  | hit :: _ =>
    decide (hit.distance < effectiveRadius
      ∧ ¬ (s.isCrouching = true ∧ hit.point.y > playerPosition.y + currentPlayerHeight / 2 + 1))


end UserMovementService

/-! ## Obstacle generator

A shallow embedding of `src/assets/services/ObjectGeneratorService.js`.  The two
arrays `collidableObjects` and `landableObjects` are the ones the movement service
reads.  A mesh is held by value: the two assignments `createCrouchObstacle` makes
to the mesh after it was pushed are applied to the copies at the end of the
arrays.  Materials, shadows and logging are left out. -/

/-- The functions of the JavaScript `Math` object the generator calls, taken as given;
`random n` is the value returned by call number `n` of `Math.random()`. -/
structure JSMath where
  cos : ℚ → ℚ
  sin : ℚ → ℚ
  random : ℕ → ℚ

/-- The object `this.crouchConfig`. -/
structure CrouchConfig where
  PLAYER_CROUCH_HEIGHT : ℚ
  MIN_CROUCH_CLEARANCE : ℚ
  BARRIER_HEIGHT : ℚ
  TUNNEL_HEIGHT : ℚ
deriving DecidableEq

/-- The argument `area` of `scatterObjects`. -/
structure Area where
  width : ℚ
  depth : ℚ
deriving DecidableEq

/-- The argument `heightRange` of `scatterObjects`. -/
structure HeightRange where
  min : ℚ
  max : ℚ
deriving DecidableEq

/-- The fields of an `ObjectGeneratorService` instance.  `scene` is the list of meshes
added to the three.js scene; `geometries` gives the `parameters.height` of the
geometry stored under each key of `this.geometries`; `randomCalls` counts the calls
of `Math.random()` made so far. -/
structure ObjectGeneratorService where
  scene : List Mesh
  collidableObjects : List Mesh
  landableObjects : List Mesh
  GROUND_HEIGHT : ℚ
  crouchConfig : CrouchConfig
  geometries : List (String × ℚ)
  randomCalls : ℕ
deriving DecidableEq

namespace ObjectGeneratorService

/-- The constructor: box 20x20x20, cylinder of height 40, platform 30x5x30, tall box
15x60x15, low barrier and tunnel with the heights of `crouchConfig`. -/
def constructor (scene collidableObjects landableObjects : List Mesh) (GROUND_HEIGHT : ℚ) :
    ObjectGeneratorService :=
  let crouchConfig : CrouchConfig :=
    { PLAYER_CROUCH_HEIGHT := 2
      MIN_CROUCH_CLEARANCE := 0.5
      BARRIER_HEIGHT := 6
      TUNNEL_HEIGHT := 8 }
  { scene := scene
    collidableObjects := collidableObjects
    landableObjects := landableObjects
    GROUND_HEIGHT := GROUND_HEIGHT
    crouchConfig := crouchConfig
    geometries :=
      [("box", 20), ("cylinder", 40), ("platform", 5), ("tallBox", 60),
       ("lowBarrier", crouchConfig.BARRIER_HEIGHT), ("tunnel", crouchConfig.TUNNEL_HEIGHT)]
    randomCalls := 0 }

/-- The method `calculateCrouchBarrierY(barrierType)`; `none` is the `TypeError` raised
when `this.geometries[barrierType]` is undefined. -/
def calculateCrouchBarrierY (g : ObjectGeneratorService) (barrierType : String) : Option ℚ :=
  match g.geometries.lookup barrierType with
  | none => none
  | some barrierHeight =>
    let requiredBottom :=
      g.GROUND_HEIGHT + g.crouchConfig.PLAYER_CROUCH_HEIGHT + g.crouchConfig.MIN_CROUCH_CLEARANCE
    some (requiredBottom + barrierHeight / 2)

/-- The method `createObject(type, position, isLandable)`; it returns the new state and
the mesh.  A type without geometry gives a mesh with the default geometry of
three.js, which has no `parameters`. -/
def createObject (g : ObjectGeneratorService) (type : String) (position : Vector3)
    (isLandable : Bool) : ObjectGeneratorService × Mesh :=
  let mesh : Mesh :=
    { position := position
      parameters := (g.geometries.lookup type).map (fun height => ⟨some height⟩)
      userData := some ⟨none, none⟩
      rotation := ⟨0, 0, 0⟩ }
  let g1 := { g with scene := g.scene ++ [mesh], collidableObjects := g.collidableObjects ++ [mesh] }
  let g2 := if isLandable then { g1 with landableObjects := g1.landableObjects ++ [mesh] } else g1
  (g2, mesh)

/-- The last element of an array replaced: the effect, on an array that holds a mesh by
reference as its last element, of assigning to that mesh. -/
def replaceLast (meshes : List Mesh) (mesh : Mesh) : List Mesh :=
  meshes.dropLast ++ [mesh]

/-- The method `createCrouchObstacle(type, x, z, rotation, isLandable)`; `none` is the
`TypeError` of `calculateCrouchBarrierY`, raised before anything is created. -/
def createCrouchObstacle (g : ObjectGeneratorService) (type : String) (x z rotation : ℚ)
    (isLandable : Bool) : Option (ObjectGeneratorService × Mesh) :=
  match calculateCrouchBarrierY g type with
  | none => none
  | some y =>
    let created := createObject g type ⟨x, y, z⟩ isLandable
    let g1 := created.1
    let mesh : Mesh :=
      { created.2 with
        rotation := { created.2.rotation with y := rotation }
        userData := some ⟨some true, some type⟩ }
    some
      ({ g1 with
          scene := replaceLast g1.scene mesh
          collidableObjects := replaceLast g1.collidableObjects mesh
          landableObjects :=
            if isLandable then replaceLast g1.landableObjects mesh else g1.landableObjects },
        mesh)

/-- The method `createPlatformTower(baseX, baseZ, levels)`. -/
def createPlatformTower (M : JSMath) (g : ObjectGeneratorService) (baseX baseZ : ℚ)
    (levels : ℕ) : ObjectGeneratorService :=
  let heightIncrement : ℚ := 30
  (List.range levels).foldl
    (fun g (i : ℕ) =>
      let angle := ((i : ℚ) * Math_PI * 2) / (levels : ℚ)
      let radius : ℚ := if i = 0 then 0 else 40
      let x := baseX + M.cos angle * radius
      let z := baseZ + M.sin angle * radius
      let y := g.GROUND_HEIGHT + (i : ℚ) * heightIncrement
      (createObject g "platform" ⟨x, y, z⟩ true).1)
    g

/-- The method `createStaircase(startX, startZ, direction, steps)`. -/
def createStaircase (g : ObjectGeneratorService) (startX startZ : ℚ) (direction : Vector3)
    (steps : ℕ) : ObjectGeneratorService :=
  let stepHeight : ℚ := 15
  let stepDepth : ℚ := 25
  (List.range steps).foldl
    (fun g (i : ℕ) =>
      let x := startX + direction.x * (i : ℚ) * stepDepth
      let z := startZ + direction.z * (i : ℚ) * stepDepth
      let y := g.GROUND_HEIGHT + (i : ℚ) * stepHeight
      (createObject g "box" ⟨x, y, z⟩ true).1)
    g

/-- The expression `types[Math.floor(r * types.length)]`; an index outside the array
gives `undefined`, which as a key of `this.geometries` is the string "undefined". -/
def pickType (types : List String) (r : ℚ) : String :=
  let index := Int.floor (r * (types.length : ℚ))
  if index < 0 then "undefined" else types.getD index.toNat "undefined"

/-- The method `scatterObjects(area, count, types, heightRange)`: four calls of
`Math.random()` for each object. -/
def scatterObjects (M : JSMath) (g : ObjectGeneratorService) (area : Area) (count : ℕ)
    (types : List String) (heightRange : HeightRange) : ObjectGeneratorService :=
  (List.range count).foldl
    (fun g _ =>
      let x := (M.random g.randomCalls - 0.5) * area.width
      let z := (M.random (g.randomCalls + 1) - 0.5) * area.depth
      let y :=
        heightRange.min + M.random (g.randomCalls + 2) * (heightRange.max - heightRange.min)
      let type := pickType types (M.random (g.randomCalls + 3))
      (createObject { g with randomCalls := g.randomCalls + 4 } type ⟨x, y, z⟩ true).1)
    g

/-- The values of the loop variable of `for (let x = -size; x <= size; x += 2)`, for a
size that is a natural number. -/
def pyramidRange (size : ℕ) : List ℚ :=
  (List.range (size + 1)).map (fun j => -(size : ℚ) + 2 * (j : ℚ))

/-- The method `createJumpingChallenges`: stepping stones, a jumping course and a
pyramid of boxes. -/
def createJumpingChallenges (M : JSMath) (g : ObjectGeneratorService) : ObjectGeneratorService :=
  let heights : List ℚ := [15, 25, 35, 45, 35, 25, 40, 55]
  let g1 :=
    (List.range heights.length).foldl
      (fun g (i : ℕ) =>
        let angle := ((i : ℚ) / (heights.length : ℚ)) * Math_PI * 2
        let radius : ℚ := 30 + (i : ℚ) * 10
        let x := 600 + M.cos angle * radius
        let z := 600 + M.sin angle * radius
        let y := g.GROUND_HEIGHT + heights.getD i 0
        (createObject g "platform" ⟨x, y, z⟩ true).1)
      g
  let g2 :=
    (List.range 8).foldl
      (fun g (i : ℕ) =>
        let x : ℚ := -600 + (i : ℚ) * 40
        let z := 600 + M.sin ((i : ℚ) * 0.5) * 30
        let y := g.GROUND_HEIGHT + 20 + M.sin ((i : ℚ) * 0.8) * 15
        (createObject g "platform" ⟨x, y, z⟩ true).1)
      g1
  (List.range 4).foldl
    (fun g (level : ℕ) =>
      let y := g.GROUND_HEIGHT + (level : ℚ) * 20
      let size : ℕ := (4 - level) * 2
      (pyramidRange size).foldl
        (fun g x =>
          (pyramidRange size).foldl
            (fun g z =>
              if |x| = (size : ℚ) ∨ |z| = (size : ℚ) then
                (createObject g "box" ⟨0 + x * 15, y, -600 + z * 15⟩ true).1
              else g)
            g)
        g)
    g2

/-- The array `barriers` of `createCrouchObstacles`: x, z and rotation of each. -/
def crouchBarriers : List (ℚ × ℚ × ℚ) :=
  [(-150, 0, 0), (100, -100, Math_PI / 2), (-50, 200, 0), (250, 150, Math_PI / 4),
   (-300, -50, Math_PI / 2), (0, -250, 0)]

/-- The array `tunnelObstacles` of `createCrouchObstacles`: x, z and type of each. -/
def tunnelObstacles : List (ℚ × ℚ × String) :=
  [(-400, -200, "tunnel"), (300, -400, "lowBarrier"), (-100, 300, "tunnel")]

/-- The callback of `barriers.forEach`: a landable low barrier. -/
def placeBarrier (g : ObjectGeneratorService) (barrier : ℚ × ℚ × ℚ) :
    Option ObjectGeneratorService :=
  (createCrouchObstacle g "lowBarrier" barrier.1 barrier.2.1 barrier.2.2 true).map Prod.fst

/-- The body of the corridor loop of `createCrouchObstacles`: two low barriers, not
landable, on either side of the line z = -400. -/
def placeCorridorPair (g : ObjectGeneratorService) (i : ℕ) : Option ObjectGeneratorService :=
  let x : ℚ := 400 + (i : ℚ) * 15
  let z : ℚ := -400
  match createCrouchObstacle g "lowBarrier" x (z - 10) (Math_PI / 2) false with
  | none => none
  | some first =>
    (createCrouchObstacle first.1 "lowBarrier" x (z + 10) (Math_PI / 2) false).map Prod.fst

/-- The callback of `tunnelObstacles.forEach`: an obstacle of the given type, not
landable. -/
def placeTunnelObstacle (g : ObjectGeneratorService) (obstacle : ℚ × ℚ × String) :
    Option ObjectGeneratorService :=
  (createCrouchObstacle g obstacle.2.2 obstacle.1 obstacle.2.1 0 false).map Prod.fst

/-- The method `createCrouchObstacles`: six landable low barriers, a corridor of ten low
barriers and three more obstacles; `none` is a `TypeError` raised on the way. -/
def createCrouchObstacles (g : ObjectGeneratorService) : Option ObjectGeneratorService :=
  match crouchBarriers.foldlM placeBarrier g with
  | none => none
  | some g1 =>
    match (List.range 5).foldlM placeCorridorPair g1 with
    | none => none
    | some g2 => tunnelObstacles.foldlM placeTunnelObstacle g2

/-- The method `generateWorldObjects`. -/
def generateWorldObjects (T : Engine) (M : JSMath) (g : ObjectGeneratorService) :
    Option ObjectGeneratorService :=
  let mapSize : Area := { width := 1800, depth := 1800 }
  let g1 := scatterObjects M g mapSize 35 ["box", "cylinder"]
    { min := g.GROUND_HEIGHT, max := g.GROUND_HEIGHT + 10 }
  let g2 := createPlatformTower M g1 (-200) (-200) 8
  let g3 := createPlatformTower M g2 300 300 7
  let g4 := createPlatformTower M g3 (-400) 400 9
  let g5 := createPlatformTower M g4 500 (-300) 7
  let g6 := createStaircase g5 (-100) 100 ⟨1, 0, 0⟩ 6
  let g7 := createStaircase g6 200 (-200) ⟨0, 0, 1⟩ 5
  let g8 := createStaircase g7 (-300) (-100) (T.normalize ⟨-1, 0, 1⟩) 4
  let g9 := scatterObjects M g8 mapSize 15 ["tallBox"]
    { min := g8.GROUND_HEIGHT + 30, max := g8.GROUND_HEIGHT + 30 }
  let g10 := createJumpingChallenges M g9
  createCrouchObstacles g10

end ObjectGeneratorService


namespace ObjectGeneratorService

/-- The property kept by every generator operation: each landable entry is a collidable
entry, and the table of geometries is `table`. -/
def Consistent (table : List (String × ℚ)) (g : ObjectGeneratorService) : Prop :=
  g.landableObjects ⊆ g.collidableObjects ∧ g.geometries = table

end ObjectGeneratorService


/-! ## Concrete scenes

Small worlds on which the definitions are evaluated.  The player is not rotated,
and every ray of a scene is answered by the function `hits` of the scene. -/

namespace Scene

open UserMovementService

/-- The quaternion of an object that is not rotated. -/
def identity : Quaternion := ⟨0, 0, 0, 1⟩

/-- The method `Vector3.applyQuaternion` of three.js. -/
def applyQuaternion (v : Vector3) (q : Quaternion) : Vector3 :=
  let tx := 2 * (q.y * v.z - q.z * v.y)
  let ty := 2 * (q.z * v.x - q.x * v.z)
  let tz := 2 * (q.x * v.y - q.y * v.x)
  ⟨v.x + q.w * tx + q.y * tz - q.z * ty,
   v.y + q.w * ty + q.z * tx - q.x * tz,
   v.z + q.w * tz + q.x * ty - q.y * tx⟩

/-- Rotation about the vertical axis by plus or minus a quarter of pi, with the double
0.7071067811865476 for the sine and the cosine; other angles leave the vector as
it is (the scenes use no other angle). -/
def applyAxisAngle (v : Vector3) (_axis : Vector3) (angle : ℚ) : Vector3 :=
  let c : ℚ := 0.7071067811865476
  if angle = Math_PI / 4 then ⟨v.x * c + v.z * c, v.y, v.z * c - v.x * c⟩
  else if angle = -Math_PI / 4 then ⟨v.x * c - v.z * c, v.y, v.z * c + v.x * c⟩
  else v

/-- A world whose rays are answered by `hits origin direction objects`.  Vectors are
returned as they are by `normalize`: the scenes cast rays along an axis, or along
an axis turned by a quarter of pi (of length 1 up to the rounding of the double
0.7071067811865476), and normalise no other vector than the zero input direction. -/
def engine (hits : Vector3 → Vector3 → List Mesh → List Intersection) : Engine :=
  { normalize := fun v => v
    applyQuaternion := applyQuaternion
    applyAxisAngle := applyAxisAngle
    setFromEuler := fun _ => identity
    intersectObjects := fun origin direction objects _ => hits origin direction objects }

/-- The world without any object. -/
def emptyWorld : Engine := engine (fun _ _ _ => [])

/-- Controls of a player at `position`, not rotated, with eye offset `eyeY`. -/
def controlsAt (position : Vector3) (eyeY : ℚ) : Controls :=
  { enabled := true
    yawObject := { position := position, rotation := ⟨0, 0, 0⟩, quaternion := identity }
    pitchObject := { position := ⟨0, eyeY, 0⟩, rotation := ⟨0, 0, 0⟩, quaternion := identity } }

/-- The empty `options` object: every parameter takes its default. -/
def noOptions : Options :=
  ⟨none, none, none, none, none, none, none, none, none, none, none⟩

/-- A freshly constructed service with the default configuration, standing at
`position`, over the given object collections. -/
def freshAt (position : Vector3) (collidableObjects landableObjects : List Mesh) :
    UserMovementService :=
  constructor (controlsAt position 7) collidableObjects landableObjects noOptions 0

/-- A freshly constructed player that `setPosition` has put at height 100, in a world
without any object: nothing is under it and it is above the ground height 10. -/
def placedInAir : UserMovementService :=
  setPosition 0 100 0 (freshAt ⟨0, 10, 0⟩ [] [])

/-- A freshly constructed player at ground height that has just received Space. -/
def justJumped : UserMovementService :=
  onKeyDown emptyWorld none "Space" (freshAt ⟨0, 10, 0⟩ [] [])

/-- A collidable slab, two units thick, whose underside is at height `bottom`; it is
used as a ceiling. -/
def slabAt (bottom : ℚ) : Mesh :=
  { position := ⟨0, bottom + 1, 0⟩, parameters := some ⟨some 2⟩, userData := none }

/-- A world with a ceiling: every upward ray that starts at or below height `bottom`
hits the underside of `slabAt bottom` there; no other ray hits anything. -/
def ceilingWorld (bottom : ℚ) : Engine :=
  engine (fun origin direction _ =>
    if direction = ⟨0, 1, 0⟩ ∧ origin.y ≤ bottom then
      [{ distance := bottom - origin.y, point := ⟨origin.x, bottom, origin.z⟩,
         object := slabAt bottom }]
    else [])

/-- A player at ground height that has crouched, under a slab whose underside is at
height 13. -/
def crouched : UserMovementService :=
  toggleCrouch emptyWorld (freshAt ⟨0, 10, 0⟩ [slabAt 13] [])

/-- A landable platform, five units thick, whose top is at height 40. -/
def platform : Mesh :=
  { position := ⟨0, 75 / 2, 0⟩, parameters := some ⟨some 5⟩, userData := none }

/-- A world with the platform: a downward ray that starts at or above height 40, cast
against a collection containing `platform`, hits its top; no other ray hits
anything. -/
def platformWorld : Engine :=
  engine (fun origin direction objects =>
    if direction = ⟨0, -1, 0⟩ ∧ 40 ≤ origin.y ∧ platform ∈ objects then
      [{ distance := origin.y - 40, point := ⟨origin.x, 40, origin.z⟩, object := platform }]
    else [])

/-- A standing player (body height 8) at height 50 above the platform, falling with
`velocity.y = -20`. -/
def falling : UserMovementService :=
  { freshAt ⟨0, 50, 0⟩ [platform] [platform] with velocity := ⟨0, -20, 0⟩ }

/-- A world with the platform below and a ceiling above: downward rays are answered as
in `platformWorld`; an upward ray that starts at or below height `bottom`, cast
against a collection containing `slabAt bottom`, hits the underside of that slab. -/
def roomWorld (bottom : ℚ) : Engine :=
  engine (fun origin direction objects =>
    if direction = ⟨0, -1, 0⟩ ∧ 40 ≤ origin.y ∧ platform ∈ objects then
      [{ distance := origin.y - 40, point := ⟨origin.x, 40, origin.z⟩, object := platform }]
    else if direction = ⟨0, 1, 0⟩ ∧ origin.y ≤ bottom ∧ slabAt bottom ∈ objects then
      [{ distance := bottom - origin.y, point := ⟨origin.x, bottom, origin.z⟩,
         object := slabAt bottom }]
    else [])

/-- A standing player that jumped from the platform (top 40) and is rising through
height 45 with `velocity.y = 250`, its head at 49, half a unit under a slab. -/
def rising : UserMovementService :=
  { freshAt ⟨0, 45, 0⟩ [platform, slabAt (99 / 2)] [platform] with
    velocity := ⟨0, 250, 0⟩, canJump := false, isJumping := true }

/-- A collidable pillar standing on the ground. -/
def pillar : Mesh :=
  { position := ⟨0, 10, 0⟩, parameters := some ⟨some 20⟩, userData := none }

/-- A world with a thin pillar straight ahead: a ray cast exactly along `ahead` against a
collection containing `pillar` hits it at distance 2; no other ray hits anything. -/
def pillarWorld (ahead : Vector3) : Engine :=
  engine (fun origin direction objects =>
    if direction = ahead ∧ pillar ∈ objects then
      [{ distance := 2, point := origin.add (ahead.multiplyScalar 2), object := pillar }]
    else [])

/-- A standing player at ground height moving diagonally with horizontal velocity
(16, 16), no movement key pressed. -/
def sliding : UserMovementService :=
  { freshAt ⟨0, 10, 0⟩ [pillar] [] with velocity := ⟨16, 0, 16⟩ }

/-- A standing player at ground height, in a world without objects, gliding with
horizontal velocity (16, 16), no movement key pressed. -/
def gliding : UserMovementService :=
  { freshAt ⟨0, 10, 0⟩ [] [] with velocity := ⟨16, 0, 16⟩ }

/-- A low barrier, six units high, flagged as a crouch obstacle; its bottom is at
height 14. -/
def barrier : Mesh :=
  { position := ⟨0, 17, 0⟩, parameters := some ⟨some 6⟩,
    userData := some ⟨some true, some "lowBarrier"⟩ }

/-- A world in which every ray cast along the x axis against a collection containing
`barrier` reports that barrier as its nearest hit, at distance 1; no other ray hits
anything. -/
def barrierWorld : Engine :=
  engine (fun origin direction objects =>
    if direction = ⟨1, 0, 0⟩ ∧ barrier ∈ objects then
      [{ distance := 1, point := origin.add ⟨1, 0, 0⟩, object := barrier }]
    else [])

/-- A crouched player (crouch height 2) at height 10: its top is at height 11, three
units under the bottom of `barrier`. -/
def crouchedAtBarrier : UserMovementService :=
  toggleCrouch emptyWorld (freshAt ⟨0, 10, 0⟩ [barrier] [])

/-- The `options` object with `GRAVITY: 0` and `GROUND_HEIGHT: 0` and nothing else. -/
def zeroOptions : Options :=
  { noOptions with GRAVITY := some 0, GROUND_HEIGHT := some 0 }


/-- A sphere of radius 20 centred at height 25: its geometry has parameters (a radius)
but no `height`. -/
def sphere : Mesh :=
  { position := ⟨14, 25, 0⟩, parameters := some ⟨none⟩, userData := none }

/-- A world in which every ray cast along the x axis against a collection containing
`sphere` reports that sphere as its nearest hit, at distance 1; no other ray hits
anything. -/
def sphereWorld : Engine :=
  engine (fun origin direction objects =>
    if direction = ⟨1, 0, 0⟩ ∧ sphere ∈ objects then
      [{ distance := 1, point := origin.add ⟨1, 0, 0⟩, object := sphere }]
    else [])

/-- A crouched player (crouch height 2) at height 10 next to the sphere: its top is at
height 11. -/
def crouchedAtSphere : UserMovementService :=
  toggleCrouch emptyWorld (freshAt ⟨0, 10, 0⟩ [sphere] [])

/-- The sphere as a mesh whose geometry has no `parameters` at all. -/
def bareSphere : Mesh :=
  { sphere with parameters := none }

/-- A mouse event that reports a movement of 100 to the right and 50 down. -/
def mouseSample : MouseEvent :=
  { movementX := some 100, mozMovementX := none, webkitMovementX := none
    movementY := some 50, mozMovementY := none, webkitMovementY := none }


/-- Stand-ins for `Math.cos`, `Math.sin` and `Math.random()` in the scenes: the values
at angle 0 and the middle of the unit interval. -/
def math : JSMath :=
  { cos := fun _ => 1, sin := fun _ => 0, random := fun _ => 1 / 2 }

/-- A generator constructed over two empty collections with ground height 10. -/
def freshGenerator : ObjectGeneratorService :=
  ObjectGeneratorService.constructor [] [] [] 10


/-- A world in which every ray cast along the x axis against a collection containing
`mesh` reports that mesh as its nearest hit, at distance `distance`; no other ray
hits anything. -/
def meshWorld (mesh : Mesh) (distance : ℚ) : Engine :=
  engine (fun origin direction objects =>
    if direction = ⟨1, 0, 0⟩ ∧ mesh ∈ objects then
      [{ distance := distance, point := origin.add ⟨distance, 0, 0⟩, object := mesh }]
    else [])

/-- The low barrier the generator creates at x = 2, z = 0 with ground height 10:
position.y 15.5, height 6, flagged as a crouch obstacle. -/
def generatedBarrier : Mesh :=
  { position := ⟨2, 31 / 2, 0⟩, parameters := some ⟨some 6⟩,
    userData := some ⟨some true, some "lowBarrier"⟩, rotation := ⟨0, 0, 0⟩ }

/-- A crouched player (crouch height 2) at the ground height 10, next to the generated
barrier. -/
def crouchedAtGenerated : UserMovementService :=
  toggleCrouch emptyWorld (freshAt ⟨0, 10, 0⟩ [generatedBarrier] [])


end Scene

/-! ## Overflow: `update` over numbers with infinities and NaN

The definitions above compute with exact rationals.  A JavaScript number can also
be `Infinity`, `-Infinity` or `NaN`, and `update` produces them from finite
inputs: a product beyond the range of a double is an infinity, and
`0 * Infinity` is `NaN`.  This section embeds `update` and the methods it calls
a second time, statement by statement, over the numbers `Overflow.Num`.

* A finite result is kept exact, as above; a result whose exact value is at least
  `2^1024 - 2^970` in magnitude is the infinity of its sign, as in a double.
* Arithmetic and comparisons on infinities and `NaN` follow IEEE 754: `NaN`
  propagates, every ordered comparison with `NaN` is false, `Infinity - Infinity`
  and `0 * Infinity` are `NaN`.
* Zero carries no sign; the source divides only by the positive constants 2 and
  1000, so the sign of a zero is never observed.
-/

namespace Overflow

/-- A JavaScript number: a finite value, `Infinity`, `-Infinity` or `NaN`. -/
inductive Num where
  | fin (q : ℚ)
  | posInf
  | negInf
  | nan
deriving DecidableEq

namespace Num

/-- The least magnitude that a double rounds to an infinity: half an ulp above
`Number.MAX_VALUE = 2^1024 - 2^971`. -/
def overflowBound : ℚ := 2 ^ 1024 - 2 ^ 970

/-- The number stored for a result whose exact value is `q`. -/
def ofExact (q : ℚ) : Num :=
  if overflowBound ≤ q then posInf
  else if q ≤ -overflowBound then negInf
  else fin q

/-- Unary minus. -/
def neg : Num → Num
  | fin a => fin (-a)
  | posInf => negInf
  | negInf => posInf
  | nan => nan

/-- The sum `a + b`. -/
def add : Num → Num → Num
  | fin a, fin b => ofExact (a + b)
  | fin _, posInf => posInf
  | fin _, negInf => negInf
  | fin _, nan => nan
  | posInf, fin _ => posInf
  | posInf, posInf => posInf
  | posInf, negInf => nan
  | posInf, nan => nan
  | negInf, fin _ => negInf
  | negInf, posInf => nan
  | negInf, negInf => negInf
  | negInf, nan => nan
  | nan, _ => nan

/-- The difference `a - b`. -/
def sub (a b : Num) : Num := add a (neg b)

/-- The product of a finite value `a` and an infinity whose sign is that of `positive`:
`NaN` when `a` is zero. -/
def timesInfinity (a : ℚ) (positive : Bool) : Num :=
  if a = 0 then nan
  else if (decide (0 < a)) = positive then posInf
  else negInf

/-- The product `a * b`. -/
def mul : Num → Num → Num
  | fin a, fin b => ofExact (a * b)
  | fin a, posInf => timesInfinity a true
  | fin a, negInf => timesInfinity a false
  | fin _, nan => nan
  | posInf, fin b => timesInfinity b true
  | posInf, posInf => posInf
  | posInf, negInf => negInf
  | posInf, nan => nan
  | negInf, fin b => timesInfinity b false
  | negInf, posInf => negInf
  | negInf, negInf => posInf
  | negInf, nan => nan
  | nan, _ => nan

/-- The quotient `a / k` by a positive finite constant `k`. -/
def divBy (a : Num) (k : ℚ) : Num :=
  match a with
  | fin q => ofExact (q / k)
  | posInf => posInf
  | negInf => negInf
  | nan => nan

/-- The function `Math.abs`. -/
def abs : Num → Num
  | fin a => fin |a|
  | posInf => posInf
  | negInf => posInf
  | nan => nan

/-- The comparison `a < b`. -/
def lt : Num → Num → Bool
  | fin a, fin b => decide (a < b)
  | fin _, posInf => true
  | fin _, negInf => false
  | fin _, nan => false
  | posInf, _ => false
  | negInf, fin _ => true
  | negInf, posInf => true
  | negInf, negInf => false
  | negInf, nan => false
  | nan, _ => false

/-- The comparison `a <= b`. -/
def le : Num → Num → Bool
  | fin a, fin b => decide (a ≤ b)
  | fin _, posInf => true
  | fin _, negInf => false
  | fin _, nan => false
  | posInf, fin _ => false
  | posInf, posInf => true
  | posInf, negInf => false
  | posInf, nan => false
  | negInf, fin _ => true
  | negInf, posInf => true
  | negInf, negInf => true
  | negInf, nan => false
  | nan, _ => false

/-- The comparison `a > b`. -/
def gt (a b : Num) : Bool := lt b a

/-- The comparison `a >= b`. -/
def ge (a b : Num) : Bool := le b a

/-- The comparison `a === b` of two numbers: `NaN` is equal to nothing. -/
def strictEq : Num → Num → Bool
  | fin a, fin b => decide (a = b)
  | posInf, posInf => true
  | negInf, negInf => true
  | _, _ => false

/-- The comparison `a !== b` of two numbers. -/
def strictNe (a b : Num) : Bool := !strictEq a b

/-- The test `!a`: a number is falsy when it is zero or `NaN`. -/
def falsy : Num → Bool
  | fin a => decide (a = 0)
  | posInf => false
  | negInf => false
  | nan => true

instance : Neg Num := ⟨neg⟩

instance : Add Num := ⟨add⟩

instance : Sub Num := ⟨sub⟩

instance : Mul Num := ⟨mul⟩

end Num

open Num

/-- Vector3 of three.js. -/
structure Vector3 where
  x : Num
  y : Num
  z : Num
deriving DecidableEq

/-- Quaternion of three.js. -/
structure Quaternion where
  x : Num
  y : Num
  z : Num
  w : Num
deriving DecidableEq

/-- Object3D of three.js: the fields `update` reads or writes. -/
structure Object3D where
  position : Vector3
  quaternion : Quaternion
deriving DecidableEq

/-- The field `geometry.parameters` of a mesh, when the geometry has one; `height` is
absent for a sphere geometry, for instance. -/
structure GeometryParameters where
  height : Option Num
deriving DecidableEq

/-- Mesh of three.js: world position, `geometry.parameters` and `userData`. -/
structure Mesh where
  position : Vector3
  parameters : Option GeometryParameters
  userData : Option THREE.UserData
deriving DecidableEq

/-- One entry of the array returned by `Raycaster.intersectObjects`. -/
structure Intersection where
  distance : Num
  point : Vector3
  object : Mesh
deriving DecidableEq

/-- The three.js functions called by `update` that are taken as given; the hits of
`intersectObjects` are sorted by increasing distance. -/
structure Engine where
  normalize : Vector3 → Vector3
  applyQuaternion : Vector3 → Quaternion → Vector3
  applyAxisAngle : Vector3 → Vector3 → Num → Vector3
  intersectObjects : Vector3 → Vector3 → List Mesh → Bool → List Intersection

/-- The method `Vector3.add`. -/
def Vector3.add (a b : Vector3) : Vector3 :=
  ⟨a.x + b.x, a.y + b.y, a.z + b.z⟩

/-- The method `Vector3.multiplyScalar`. -/
def Vector3.multiplyScalar (a : Vector3) (k : Num) : Vector3 :=
  ⟨a.x * k, a.y * k, a.z * k⟩

/-- The method `Object3D.translateOnAxis(axis, distance)`. -/
def Object3D.translateOnAxis (T : Engine) (o : Object3D) (axis : Vector3) (distance : Num) :
    Object3D :=
  { o with position := o.position.add ((T.applyQuaternion axis o.quaternion).multiplyScalar distance) }

/-- The method `Object3D.translateX(distance)`. -/
def Object3D.translateX (T : Engine) (o : Object3D) (distance : Num) : Object3D :=
  o.translateOnAxis T ⟨fin 1, fin 0, fin 0⟩ distance

/-- The method `Object3D.translateZ(distance)`. -/
def Object3D.translateZ (T : Engine) (o : Object3D) (distance : Num) : Object3D :=
  o.translateOnAxis T ⟨fin 0, fin 0, fin 1⟩ distance

/-- The object `controls`: the player body is `yawObject`. -/
structure Controls where
  yawObject : Object3D
deriving DecidableEq

/-- The object `this.config`. -/
structure MovementConfig where
  GRAVITY : Num
  JUMP_VELOCITY : Num
  GROUND_HEIGHT : Num
  WALK_SPEED : Num
  RUN_SPEED : Num
  CROUCH_SPEED : Num
  PLAYER_RADIUS : Num
  PLAYER_HEIGHT : Num
  CROUCH_HEIGHT : Num
  VELOCITY_DAMPING : Num
  MOUSE_SENSITIVITY : Num
deriving DecidableEq

/-- The fields of a `UserMovementService` instance that `update` reads or writes. -/
structure UserMovementService where
  controls : Controls
  collidableObjects : List Mesh
  landableObjects : List Mesh
  moveForward : Bool
  moveBackward : Bool
  moveLeft : Bool
  moveRight : Bool
  isRunning : Bool
  isCrouching : Bool
  canJump : Bool
  isJumping : Bool
  velocity : Vector3
  direction : Vector3
  config : MovementConfig
  prevTime : Num
deriving DecidableEq

/-- The method `getCurrentPlayerHeight`. -/
def getCurrentPlayerHeight (s : UserMovementService) : Num :=
  if s.isCrouching then s.config.CROUCH_HEIGHT else s.config.PLAYER_HEIGHT

/-- The method `checkOverheadCollision`. -/
def checkOverheadCollision (T : Engine) (s : UserMovementService) : Bool :=
  let playerPosition := s.controls.yawObject.position
  let currentPlayerHeight := getCurrentPlayerHeight s
  let headPosition : Vector3 :=
    { playerPosition with y := playerPosition.y + currentPlayerHeight.divBy 2 }
  let intersections :=
    T.intersectObjects headPosition ⟨fin 0, fin 1, fin 0⟩ s.collidableObjects false
  let requiredClearance : Num :=
    if s.isCrouching then s.config.PLAYER_HEIGHT - s.config.CROUCH_HEIGHT + fin 0.5 else fin 1
  match intersections with
  | [] => false
  | hit :: _ => hit.distance.lt requiredClearance

/-- The expression `hitObject.geometry.parameters ? hitObject.geometry.parameters.height / 2 : 3`;
an absent `height` is `undefined`, and `undefined / 2` is `NaN`. -/
def halfExtent (hitObject : Mesh) : Num :=
  match hitObject.parameters with
  | some p =>
    match p.height with
    | some h => h.divBy 2
    | none => nan
  | none => fin 3

/-- The method `checkCrouchCollision(direction)`. -/
def checkCrouchCollision (T : Engine) (s : UserMovementService) (direction : Vector3) : Bool :=
  let playerPosition := s.controls.yawObject.position
  let intersections :=
    T.intersectObjects playerPosition (T.normalize direction) s.collidableObjects false
  match intersections with
  | [] => false
  | hit :: _ =>
    let distance := hit.distance
    let hitObject := hit.object
    let collisionRadius := s.config.PLAYER_RADIUS * fin 0.6
    if distance.lt collisionRadius then
      let objectBottom := hitObject.position.y - halfExtent hitObject
      let playerCrouchTop := playerPosition.y + s.config.CROUCH_HEIGHT.divBy 2
      let isCrouchObstacle : Bool :=
        match hitObject.userData with
        | some u => u.isCrouchObstacle.getD false
        | none => false
      let requiredClearance : Num := fin 0.3
      let actualClearance := objectBottom - playerCrouchTop
      if isCrouchObstacle && actualClearance.gt requiredClearance then false
      else if actualClearance.gt requiredClearance then false
      else true
    else false

/-- The array `checkHeights` of `checkCollision`. -/
def checkHeights (s : UserMovementService) : List Num :=
  let currentPlayerHeight := getCurrentPlayerHeight s
  if s.isCrouching then [-currentPlayerHeight * fin 0.3, fin 0]
  else [-currentPlayerHeight * fin 0.3, fin 0, currentPlayerHeight * fin 0.3]

/-- The inner loop of `checkCollision` over the height offsets, for one ray direction;
`dir.normalize()` normalises `dir` in place. -/
def checkCollisionRay (T : Engine) (s : UserMovementService) : Vector3 → List Num → Bool
  | _, [] => false
  | dir, heightOffset :: rest =>
    let playerPosition := s.controls.yawObject.position
    let currentPlayerHeight := getCurrentPlayerHeight s
    let effectiveRadius :=
      if s.isCrouching then s.config.PLAYER_RADIUS * fin 0.7 else s.config.PLAYER_RADIUS
    let checkPosition : Vector3 := { playerPosition with y := playerPosition.y + heightOffset }
    let dir1 := T.normalize dir
    let intersections := T.intersectObjects checkPosition dir1 s.collidableObjects false
    match intersections with
    | [] => checkCollisionRay T s dir1 rest
    | hit :: _ =>
      if hit.distance.lt effectiveRadius then
        let playerTop := playerPosition.y + currentPlayerHeight.divBy 2
        if s.isCrouching && hit.point.y.gt (playerTop + fin 1) then checkCollisionRay T s dir1 rest
        else true
      else checkCollisionRay T s dir1 rest

/-- The array `directions` of `checkCollision`. -/
def probeDirections (T : Engine) (direction : Vector3) : List Vector3 :=
  [direction,
   T.applyAxisAngle direction ⟨fin 0, fin 1, fin 0⟩ (fin (THREE.Math_PI / 4)),
   T.applyAxisAngle direction ⟨fin 0, fin 1, fin 0⟩ (fin (-THREE.Math_PI / 4))]

/-- The method `checkCollision(direction)`. -/
def checkCollision (T : Engine) (s : UserMovementService) (direction : Vector3) : Bool :=
  (probeDirections T direction).any (fun dir => checkCollisionRay T s dir (checkHeights s))

/-- The method `checkTopCollision`: `none` is `null`. -/
def checkTopCollision (T : Engine) (s : UserMovementService) : Option Num :=
  let playerPosition := s.controls.yawObject.position
  let currentPlayerHeight := getCurrentPlayerHeight s
  let intersections :=
    T.intersectObjects playerPosition ⟨fin 0, fin (-1), fin 0⟩ s.landableObjects false
  match intersections with
  | [] => none
  | intersection :: _ =>
    let objectTop := intersection.point.y
    let playerBottom := playerPosition.y - currentPlayerHeight.divBy 2
    if (playerBottom - objectTop).abs.lt (fin 2) && s.velocity.y.le (fin 0) then
      some (objectTop + currentPlayerHeight.divBy 2)
    else none

/-- The method `getGroundHeight`. -/
def getGroundHeight (T : Engine) (s : UserMovementService) : Num :=
  let playerPosition := s.controls.yawObject.position
  let currentPlayerHeight := getCurrentPlayerHeight s
  let intersections :=
    T.intersectObjects playerPosition ⟨fin 0, fin (-1), fin 0⟩ s.landableObjects false
  match intersections with
  | [] => s.config.GROUND_HEIGHT
  | intersection :: _ =>
    let surfaceHeight := intersection.point.y + currentPlayerHeight.divBy 2
    if (playerPosition.y - surfaceHeight).abs.lt (fin 3) then surfaceHeight
    else s.config.GROUND_HEIGHT

/-- The conversion `Number(b)` of a boolean. -/
def boolToNumber (b : Bool) : Num := if b then fin 1 else fin 0

/-- The timestep used by `update(delta)`: a falsy `delta` (zero, `NaN`, or an omitted
argument, passed here as zero) is replaced by the wall-clock difference in seconds. -/
def frameDelta (now delta : Num) (s : UserMovementService) : Num :=
  if delta.falsy then (now - s.prevTime).divBy 1000 else delta

/-- The first statement of `update`: when `delta` is falsy, `prevTime` is set to `now`. -/
def stampTime (now delta : Num) (s : UserMovementService) : UserMovementService :=
  if delta.falsy then { s with prevTime := now } else s

/-- Gravity step of `update` (source lines 420 to 427). -/
def applyGravity (T : Engine) (delta : Num) (s : UserMovementService) : UserMovementService :=
  let currentGroundHeight := getGroundHeight T s
  if s.isJumping || s.controls.yawObject.position.y.gt currentGroundHeight then
    { s with velocity.y := s.velocity.y - s.config.GRAVITY * fin 100 * delta }
  else s

/-- Damping step of `update` (source lines 429 and 430). -/
def applyDamping (delta : Num) (s : UserMovementService) : UserMovementService :=
  let s1 := { s with velocity.x := s.velocity.x - s.velocity.x * s.config.VELOCITY_DAMPING * delta }
  { s1 with velocity.z := s1.velocity.z - s1.velocity.z * s1.config.VELOCITY_DAMPING * delta }

/-- The speed selected by `update` (source lines 436 to 440). -/
def currentSpeed (s : UserMovementService) : Num :=
  if s.isCrouching then s.config.CROUCH_SPEED
  else if s.isRunning then s.config.RUN_SPEED
  else s.config.WALK_SPEED

/-- Input step of `update` (source lines 432 to 445). -/
def applyInput (T : Engine) (delta : Num) (s : UserMovementService) : UserMovementService :=
  let s1 := { s with direction.z := boolToNumber s.moveForward - boolToNumber s.moveBackward }
  let s2 := { s1 with direction.x := boolToNumber s1.moveLeft - boolToNumber s1.moveRight }
  let s3 := { s2 with direction := T.normalize s2.direction }
  let s4 :=
    if s3.moveForward || s3.moveBackward then
      { s3 with velocity.z := s3.velocity.z - s3.direction.z * currentSpeed s3 * delta }
    else s3
  if s4.moveLeft || s4.moveRight then
    { s4 with velocity.x := s4.velocity.x - s4.direction.x * currentSpeed s4 * delta }
  else s4

/-- The vector `xDirection` of `update`. -/
def xDirection (T : Engine) (s : UserMovementService) : Vector3 :=
  T.applyQuaternion ⟨if s.velocity.x.gt (fin 0) then fin 1 else fin (-1), fin 0, fin 0⟩
    s.controls.yawObject.quaternion

/-- The vector `zDirection` of `update`. -/
def zDirection (T : Engine) (s : UserMovementService) : Vector3 :=
  T.applyQuaternion ⟨fin 0, fin 0, if s.velocity.z.gt (fin 0) then fin 1 else fin (-1)⟩
    s.controls.yawObject.quaternion

/-- The collision check `update` selects for a direction. -/
def isBlocked (T : Engine) (s : UserMovementService) (direction : Vector3) : Bool :=
  if s.isCrouching then checkCrouchCollision T s direction else checkCollision T s direction

/-- The variable `canMoveX` of `update` (source lines 447 to 456). -/
def canMoveX (T : Engine) (s : UserMovementService) : Bool :=
  if s.velocity.x.strictNe (fin 0) then !isBlocked T s (xDirection T s) else true

/-- The variable `canMoveZ` of `update` (source lines 448 to 464). -/
def canMoveZ (T : Engine) (s : UserMovementService) : Bool :=
  if s.velocity.z.strictNe (fin 0) then !isBlocked T s (zDirection T s) else true

/-- Horizontal step of `update` (source lines 447 to 469). -/
def moveHorizontal (T : Engine) (delta : Num) (s : UserMovementService) : UserMovementService :=
  let moveX := canMoveX T s
  let moveZ := canMoveZ T s
  let s1 :=
    if moveX then
      { s with controls.yawObject := s.controls.yawObject.translateX T (s.velocity.x * delta) }
    else { s with velocity.x := fin 0 }
  if moveZ then
    { s1 with controls.yawObject := s1.controls.yawObject.translateZ T (s1.velocity.z * delta) }
  else { s1 with velocity.z := fin 0 }

/-- Ceiling step of `update` (source lines 471 to 474). -/
def stopAtCeiling (T : Engine) (s : UserMovementService) : UserMovementService :=
  if s.velocity.y.gt (fin 0) && checkOverheadCollision T s then { s with velocity.y := fin 0 }
  else s

/-- Vertical translation of `update` (source line 476). -/
def moveVertical (delta : Num) (s : UserMovementService) : UserMovementService :=
  { s with controls.yawObject.position.y := s.controls.yawObject.position.y + s.velocity.y * delta }

/-- The four assignments shared by the two branches of the landing resolution. -/
def landAt (s : UserMovementService) (y : Num) : UserMovementService :=
  { s with
    controls.yawObject.position.y := y, velocity.y := fin 0, canJump := true, isJumping := false }

/-- The branch `else if (position.y <= GROUND_HEIGHT)` of the landing resolution. -/
def clampToGround (s : UserMovementService) : UserMovementService :=
  if s.controls.yawObject.position.y.le s.config.GROUND_HEIGHT then landAt s s.config.GROUND_HEIGHT
  else s

/-- Landing resolution of `update` (source lines 478 to 491). -/
def resolveLanding (T : Engine) (s : UserMovementService) : UserMovementService :=
  match checkTopCollision T s with
  | some landingHeight => if s.velocity.y.le (fin 0) then landAt s landingHeight else clampToGround s
  | none => clampToGround s

/-- The state of `update` at the point where the landing probe is made. -/
def beforeLanding (T : Engine) (now delta : Num) (s : UserMovementService) : UserMovementService :=
  let dt := frameDelta now delta s
  moveVertical dt
    (stopAtCeiling T
      (moveHorizontal T dt (applyInput T dt (applyDamping dt (applyGravity T dt (stampTime now delta s))))))

/-- The method `update(delta)`; `now` is the value `performance.now()` would return. -/
def update (T : Engine) (now delta : Num) (s : UserMovementService) : UserMovementService :=
  resolveLanding T (beforeLanding T now delta s)

/-- One call of `update`: the clock reading and the argument `delta`. -/
structure Frame where
  now : Num
  delta : Num
deriving DecidableEq

/-- The states after each call of a sequence of `update` calls, in order. -/
def updateTrace (T : Engine) : List Frame → UserMovementService → List UserMovementService
  | [], _ => []
  | f :: fs, s => update T f.now f.delta s :: updateTrace T fs (update T f.now f.delta s)

/-- The landing probe of `update` returns `null` in every call of the sequence. -/
def noLandingDuring (T : Engine) : List Frame → UserMovementService → Bool
  | [], _ => true
  | f :: fs, s =>
    (checkTopCollision T (beforeLanding T f.now f.delta s)).isNone &&
      noLandingDuring T fs (update T f.now f.delta s)

/-- The quaternion of an object that is not rotated. -/
def identity : Quaternion := ⟨fin 0, fin 0, fin 0, fin 1⟩

/-- The method `Vector3.applyQuaternion` of three.js. -/
def applyQuaternion (v : Vector3) (q : Quaternion) : Vector3 :=
  let tx := fin 2 * (q.y * v.z - q.z * v.y)
  let ty := fin 2 * (q.z * v.x - q.x * v.z)
  let tz := fin 2 * (q.x * v.y - q.y * v.x)
  ⟨v.x + q.w * tx + q.y * tz - q.z * ty,
   v.y + q.w * ty + q.z * tx - q.x * tz,
   v.z + q.w * tz + q.x * ty - q.y * tx⟩

/-- The world without any object: no ray hits anything.  Vectors are returned as they
are by `normalize` and `applyAxisAngle`; in this world their results are only
used as ray directions. -/
def emptyWorld : Engine :=
  { normalize := fun v => v
    applyQuaternion := applyQuaternion
    applyAxisAngle := fun v _ _ => v
    intersectObjects := fun _ _ _ _ => [] }

/-- The configuration the constructor builds from an empty `options` object. -/
def defaultConfig : MovementConfig :=
  { GRAVITY := fin 8.0
    JUMP_VELOCITY := fin 250
    GROUND_HEIGHT := fin 10
    WALK_SPEED := fin 450.0
    RUN_SPEED := fin 1000.0
    CROUCH_SPEED := fin 200.0
    PLAYER_RADIUS := fin 5
    PLAYER_HEIGHT := fin 8
    CROUCH_HEIGHT := fin 2
    VELOCITY_DAMPING := fin 10.0
    MOUSE_SENSITIVITY := fin 0.002 }

/-- A service as the constructor leaves it for an empty `options` object and no
objects, the player not rotated, put at `position` with horizontal velocity
component `vx`. -/
def standingAt (position : Vector3) (vx : Num) : UserMovementService :=
  { controls := { yawObject := { position := position, quaternion := identity } }
    collidableObjects := []
    landableObjects := []
    moveForward := false
    moveBackward := false
    moveLeft := false
    moveRight := false
    isRunning := false
    isCrouching := false
    canJump := true
    isJumping := false
    velocity := ⟨vx, fin 0, fin 0⟩
    direction := ⟨fin 0, fin 0, fin 0⟩
    config := defaultConfig
    prevTime := fin 0 }

end Overflow

open UserMovementService

/-! ## Frame lemmas: the fields each step of `update` leaves alone -/

@[simp]
theorem stampTime_canJump (now delta : ℚ) (s : UserMovementService) :
    (stampTime now delta s).canJump = s.canJump := by
  unfold stampTime
  split_ifs <;> rfl

@[simp]
theorem stampTime_isJumping (now delta : ℚ) (s : UserMovementService) :
    (stampTime now delta s).isJumping = s.isJumping := by
  unfold stampTime
  split_ifs <;> rfl

@[simp]
theorem stampTime_isCrouching (now delta : ℚ) (s : UserMovementService) :
    (stampTime now delta s).isCrouching = s.isCrouching := by
  unfold stampTime
  split_ifs <;> rfl

@[simp]
theorem stampTime_isRunning (now delta : ℚ) (s : UserMovementService) :
    (stampTime now delta s).isRunning = s.isRunning := by
  unfold stampTime
  split_ifs <;> rfl

@[simp]
theorem stampTime_moveForward (now delta : ℚ) (s : UserMovementService) :
    (stampTime now delta s).moveForward = s.moveForward := by
  unfold stampTime
  split_ifs <;> rfl

@[simp]
theorem stampTime_moveBackward (now delta : ℚ) (s : UserMovementService) :
    (stampTime now delta s).moveBackward = s.moveBackward := by
  unfold stampTime
  split_ifs <;> rfl

@[simp]
theorem stampTime_moveLeft (now delta : ℚ) (s : UserMovementService) :
    (stampTime now delta s).moveLeft = s.moveLeft := by
  unfold stampTime
  split_ifs <;> rfl

@[simp]
theorem stampTime_moveRight (now delta : ℚ) (s : UserMovementService) :
    (stampTime now delta s).moveRight = s.moveRight := by
  unfold stampTime
  split_ifs <;> rfl

@[simp]
theorem stampTime_config (now delta : ℚ) (s : UserMovementService) :
    (stampTime now delta s).config = s.config := by
  unfold stampTime
  split_ifs <;> rfl

@[simp]
theorem stampTime_eye (now delta : ℚ) (s : UserMovementService) :
    (stampTime now delta s).eye = s.eye := by
  unfold stampTime
  split_ifs <;> rfl

@[simp]
theorem stampTime_collidableObjects (now delta : ℚ) (s : UserMovementService) :
    (stampTime now delta s).collidableObjects = s.collidableObjects := by
  unfold stampTime
  split_ifs <;> rfl

@[simp]
theorem stampTime_landableObjects (now delta : ℚ) (s : UserMovementService) :
    (stampTime now delta s).landableObjects = s.landableObjects := by
  unfold stampTime
  split_ifs <;> rfl

@[simp]
theorem stampTime_velocity_x (now delta : ℚ) (s : UserMovementService) :
    (stampTime now delta s).velocity.x = s.velocity.x := by
  unfold stampTime
  split_ifs <;> rfl

@[simp]
theorem stampTime_velocity_y (now delta : ℚ) (s : UserMovementService) :
    (stampTime now delta s).velocity.y = s.velocity.y := by
  unfold stampTime
  split_ifs <;> rfl

@[simp]
theorem stampTime_velocity_z (now delta : ℚ) (s : UserMovementService) :
    (stampTime now delta s).velocity.z = s.velocity.z := by
  unfold stampTime
  split_ifs <;> rfl

@[simp]
theorem stampTime_position (now delta : ℚ) (s : UserMovementService) :
    (stampTime now delta s).controls.yawObject.position = s.controls.yawObject.position := by
  unfold stampTime
  split_ifs <;> rfl

@[simp]
theorem stampTime_quaternion (now delta : ℚ) (s : UserMovementService) :
    (stampTime now delta s).controls.yawObject.quaternion = s.controls.yawObject.quaternion := by
  unfold stampTime
  split_ifs <;> rfl

@[simp]
theorem applyGravity_canJump (T : Engine) (delta : ℚ) (s : UserMovementService) :
    (applyGravity T delta s).canJump = s.canJump := by
  unfold applyGravity
  dsimp only
  split_ifs <;> rfl

@[simp]
theorem applyGravity_isJumping (T : Engine) (delta : ℚ) (s : UserMovementService) :
    (applyGravity T delta s).isJumping = s.isJumping := by
  unfold applyGravity
  dsimp only
  split_ifs <;> rfl

@[simp]
theorem applyGravity_isCrouching (T : Engine) (delta : ℚ) (s : UserMovementService) :
    (applyGravity T delta s).isCrouching = s.isCrouching := by
  unfold applyGravity
  dsimp only
  split_ifs <;> rfl

@[simp]
theorem applyGravity_isRunning (T : Engine) (delta : ℚ) (s : UserMovementService) :
    (applyGravity T delta s).isRunning = s.isRunning := by
  unfold applyGravity
  dsimp only
  split_ifs <;> rfl

@[simp]
theorem applyGravity_moveForward (T : Engine) (delta : ℚ) (s : UserMovementService) :
    (applyGravity T delta s).moveForward = s.moveForward := by
  unfold applyGravity
  dsimp only
  split_ifs <;> rfl

@[simp]
theorem applyGravity_moveBackward (T : Engine) (delta : ℚ) (s : UserMovementService) :
    (applyGravity T delta s).moveBackward = s.moveBackward := by
  unfold applyGravity
  dsimp only
  split_ifs <;> rfl

@[simp]
theorem applyGravity_moveLeft (T : Engine) (delta : ℚ) (s : UserMovementService) :
    (applyGravity T delta s).moveLeft = s.moveLeft := by
  unfold applyGravity
  dsimp only
  split_ifs <;> rfl

@[simp]
theorem applyGravity_moveRight (T : Engine) (delta : ℚ) (s : UserMovementService) :
    (applyGravity T delta s).moveRight = s.moveRight := by
  unfold applyGravity
  dsimp only
  split_ifs <;> rfl

@[simp]
theorem applyGravity_config (T : Engine) (delta : ℚ) (s : UserMovementService) :
    (applyGravity T delta s).config = s.config := by
  unfold applyGravity
  dsimp only
  split_ifs <;> rfl

@[simp]
theorem applyGravity_eye (T : Engine) (delta : ℚ) (s : UserMovementService) :
    (applyGravity T delta s).eye = s.eye := by
  unfold applyGravity
  dsimp only
  split_ifs <;> rfl

@[simp]
theorem applyGravity_collidableObjects (T : Engine) (delta : ℚ) (s : UserMovementService) :
    (applyGravity T delta s).collidableObjects = s.collidableObjects := by
  unfold applyGravity
  dsimp only
  split_ifs <;> rfl

@[simp]
theorem applyGravity_landableObjects (T : Engine) (delta : ℚ) (s : UserMovementService) :
    (applyGravity T delta s).landableObjects = s.landableObjects := by
  unfold applyGravity
  dsimp only
  split_ifs <;> rfl

@[simp]
theorem applyGravity_velocity_x (T : Engine) (delta : ℚ) (s : UserMovementService) :
    (applyGravity T delta s).velocity.x = s.velocity.x := by
  unfold applyGravity
  dsimp only
  split_ifs <;> rfl

@[simp]
theorem applyGravity_velocity_z (T : Engine) (delta : ℚ) (s : UserMovementService) :
    (applyGravity T delta s).velocity.z = s.velocity.z := by
  unfold applyGravity
  dsimp only
  split_ifs <;> rfl

@[simp]
theorem applyGravity_position (T : Engine) (delta : ℚ) (s : UserMovementService) :
    (applyGravity T delta s).controls.yawObject.position = s.controls.yawObject.position := by
  unfold applyGravity
  dsimp only
  split_ifs <;> rfl

@[simp]
theorem applyGravity_quaternion (T : Engine) (delta : ℚ) (s : UserMovementService) :
    (applyGravity T delta s).controls.yawObject.quaternion = s.controls.yawObject.quaternion := by
  unfold applyGravity
  dsimp only
  split_ifs <;> rfl

@[simp]
theorem applyDamping_canJump (delta : ℚ) (s : UserMovementService) :
    (applyDamping delta s).canJump = s.canJump := by
  rfl

@[simp]
theorem applyDamping_isJumping (delta : ℚ) (s : UserMovementService) :
    (applyDamping delta s).isJumping = s.isJumping := by
  rfl

@[simp]
theorem applyDamping_isCrouching (delta : ℚ) (s : UserMovementService) :
    (applyDamping delta s).isCrouching = s.isCrouching := by
  rfl

@[simp]
theorem applyDamping_isRunning (delta : ℚ) (s : UserMovementService) :
    (applyDamping delta s).isRunning = s.isRunning := by
  rfl

@[simp]
theorem applyDamping_moveForward (delta : ℚ) (s : UserMovementService) :
    (applyDamping delta s).moveForward = s.moveForward := by
  rfl

@[simp]
theorem applyDamping_moveBackward (delta : ℚ) (s : UserMovementService) :
    (applyDamping delta s).moveBackward = s.moveBackward := by
  rfl

@[simp]
theorem applyDamping_moveLeft (delta : ℚ) (s : UserMovementService) :
    (applyDamping delta s).moveLeft = s.moveLeft := by
  rfl

@[simp]
theorem applyDamping_moveRight (delta : ℚ) (s : UserMovementService) :
    (applyDamping delta s).moveRight = s.moveRight := by
  rfl

@[simp]
theorem applyDamping_config (delta : ℚ) (s : UserMovementService) :
    (applyDamping delta s).config = s.config := by
  rfl

@[simp]
theorem applyDamping_eye (delta : ℚ) (s : UserMovementService) :
    (applyDamping delta s).eye = s.eye := by
  rfl

@[simp]
theorem applyDamping_collidableObjects (delta : ℚ) (s : UserMovementService) :
    (applyDamping delta s).collidableObjects = s.collidableObjects := by
  rfl

@[simp]
theorem applyDamping_landableObjects (delta : ℚ) (s : UserMovementService) :
    (applyDamping delta s).landableObjects = s.landableObjects := by
  rfl

@[simp]
theorem applyDamping_velocity_y (delta : ℚ) (s : UserMovementService) :
    (applyDamping delta s).velocity.y = s.velocity.y := by
  rfl

@[simp]
theorem applyDamping_position (delta : ℚ) (s : UserMovementService) :
    (applyDamping delta s).controls.yawObject.position = s.controls.yawObject.position := by
  rfl

@[simp]
theorem applyDamping_quaternion (delta : ℚ) (s : UserMovementService) :
    (applyDamping delta s).controls.yawObject.quaternion = s.controls.yawObject.quaternion := by
  rfl

@[simp]
theorem applyInput_canJump (T : Engine) (delta : ℚ) (s : UserMovementService) :
    (applyInput T delta s).canJump = s.canJump := by
  unfold applyInput
  dsimp only
  split_ifs <;> rfl

@[simp]
theorem applyInput_isJumping (T : Engine) (delta : ℚ) (s : UserMovementService) :
    (applyInput T delta s).isJumping = s.isJumping := by
  unfold applyInput
  dsimp only
  split_ifs <;> rfl

@[simp]
theorem applyInput_isCrouching (T : Engine) (delta : ℚ) (s : UserMovementService) :
    (applyInput T delta s).isCrouching = s.isCrouching := by
  unfold applyInput
  dsimp only
  split_ifs <;> rfl

@[simp]
theorem applyInput_isRunning (T : Engine) (delta : ℚ) (s : UserMovementService) :
    (applyInput T delta s).isRunning = s.isRunning := by
  unfold applyInput
  dsimp only
  split_ifs <;> rfl

@[simp]
theorem applyInput_moveForward (T : Engine) (delta : ℚ) (s : UserMovementService) :
    (applyInput T delta s).moveForward = s.moveForward := by
  unfold applyInput
  dsimp only
  split_ifs <;> rfl

@[simp]
theorem applyInput_moveBackward (T : Engine) (delta : ℚ) (s : UserMovementService) :
    (applyInput T delta s).moveBackward = s.moveBackward := by
  unfold applyInput
  dsimp only
  split_ifs <;> rfl

@[simp]
theorem applyInput_moveLeft (T : Engine) (delta : ℚ) (s : UserMovementService) :
    (applyInput T delta s).moveLeft = s.moveLeft := by
  unfold applyInput
  dsimp only
  split_ifs <;> rfl

@[simp]
theorem applyInput_moveRight (T : Engine) (delta : ℚ) (s : UserMovementService) :
    (applyInput T delta s).moveRight = s.moveRight := by
  unfold applyInput
  dsimp only
  split_ifs <;> rfl

@[simp]
theorem applyInput_config (T : Engine) (delta : ℚ) (s : UserMovementService) :
    (applyInput T delta s).config = s.config := by
  unfold applyInput
  dsimp only
  split_ifs <;> rfl

@[simp]
theorem applyInput_eye (T : Engine) (delta : ℚ) (s : UserMovementService) :
    (applyInput T delta s).eye = s.eye := by
  unfold applyInput
  dsimp only
  split_ifs <;> rfl

@[simp]
theorem applyInput_collidableObjects (T : Engine) (delta : ℚ) (s : UserMovementService) :
    (applyInput T delta s).collidableObjects = s.collidableObjects := by
  unfold applyInput
  dsimp only
  split_ifs <;> rfl

@[simp]
theorem applyInput_landableObjects (T : Engine) (delta : ℚ) (s : UserMovementService) :
    (applyInput T delta s).landableObjects = s.landableObjects := by
  unfold applyInput
  dsimp only
  split_ifs <;> rfl

@[simp]
theorem applyInput_velocity_y (T : Engine) (delta : ℚ) (s : UserMovementService) :
    (applyInput T delta s).velocity.y = s.velocity.y := by
  unfold applyInput
  dsimp only
  split_ifs <;> rfl

@[simp]
theorem applyInput_position (T : Engine) (delta : ℚ) (s : UserMovementService) :
    (applyInput T delta s).controls.yawObject.position = s.controls.yawObject.position := by
  unfold applyInput
  dsimp only
  split_ifs <;> rfl

@[simp]
theorem applyInput_quaternion (T : Engine) (delta : ℚ) (s : UserMovementService) :
    (applyInput T delta s).controls.yawObject.quaternion = s.controls.yawObject.quaternion := by
  unfold applyInput
  dsimp only
  split_ifs <;> rfl

@[simp]
theorem moveHorizontal_canJump (T : Engine) (delta : ℚ) (s : UserMovementService) :
    (moveHorizontal T delta s).canJump = s.canJump := by
  unfold moveHorizontal
  dsimp only
  split_ifs <;> rfl

@[simp]
theorem moveHorizontal_isJumping (T : Engine) (delta : ℚ) (s : UserMovementService) :
    (moveHorizontal T delta s).isJumping = s.isJumping := by
  unfold moveHorizontal
  dsimp only
  split_ifs <;> rfl

@[simp]
theorem moveHorizontal_isCrouching (T : Engine) (delta : ℚ) (s : UserMovementService) :
    (moveHorizontal T delta s).isCrouching = s.isCrouching := by
  unfold moveHorizontal
  dsimp only
  split_ifs <;> rfl

@[simp]
theorem moveHorizontal_isRunning (T : Engine) (delta : ℚ) (s : UserMovementService) :
    (moveHorizontal T delta s).isRunning = s.isRunning := by
  unfold moveHorizontal
  dsimp only
  split_ifs <;> rfl

@[simp]
theorem moveHorizontal_moveForward (T : Engine) (delta : ℚ) (s : UserMovementService) :
    (moveHorizontal T delta s).moveForward = s.moveForward := by
  unfold moveHorizontal
  dsimp only
  split_ifs <;> rfl

@[simp]
theorem moveHorizontal_moveBackward (T : Engine) (delta : ℚ) (s : UserMovementService) :
    (moveHorizontal T delta s).moveBackward = s.moveBackward := by
  unfold moveHorizontal
  dsimp only
  split_ifs <;> rfl

@[simp]
theorem moveHorizontal_moveLeft (T : Engine) (delta : ℚ) (s : UserMovementService) :
    (moveHorizontal T delta s).moveLeft = s.moveLeft := by
  unfold moveHorizontal
  dsimp only
  split_ifs <;> rfl

@[simp]
theorem moveHorizontal_moveRight (T : Engine) (delta : ℚ) (s : UserMovementService) :
    (moveHorizontal T delta s).moveRight = s.moveRight := by
  unfold moveHorizontal
  dsimp only
  split_ifs <;> rfl

@[simp]
theorem moveHorizontal_config (T : Engine) (delta : ℚ) (s : UserMovementService) :
    (moveHorizontal T delta s).config = s.config := by
  unfold moveHorizontal
  dsimp only
  split_ifs <;> rfl

@[simp]
theorem moveHorizontal_eye (T : Engine) (delta : ℚ) (s : UserMovementService) :
    (moveHorizontal T delta s).eye = s.eye := by
  unfold moveHorizontal
  dsimp only
  split_ifs <;> rfl

@[simp]
theorem moveHorizontal_collidableObjects (T : Engine) (delta : ℚ) (s : UserMovementService) :
    (moveHorizontal T delta s).collidableObjects = s.collidableObjects := by
  unfold moveHorizontal
  dsimp only
  split_ifs <;> rfl

@[simp]
theorem moveHorizontal_landableObjects (T : Engine) (delta : ℚ) (s : UserMovementService) :
    (moveHorizontal T delta s).landableObjects = s.landableObjects := by
  unfold moveHorizontal
  dsimp only
  split_ifs <;> rfl

@[simp]
theorem moveHorizontal_velocity_y (T : Engine) (delta : ℚ) (s : UserMovementService) :
    (moveHorizontal T delta s).velocity.y = s.velocity.y := by
  unfold moveHorizontal
  dsimp only
  split_ifs <;> rfl

@[simp]
theorem moveHorizontal_quaternion (T : Engine) (delta : ℚ) (s : UserMovementService) :
    (moveHorizontal T delta s).controls.yawObject.quaternion = s.controls.yawObject.quaternion := by
  unfold moveHorizontal
  dsimp only
  split_ifs <;> rfl

@[simp]
theorem stopAtCeiling_canJump (T : Engine) (s : UserMovementService) :
    (stopAtCeiling T s).canJump = s.canJump := by
  unfold stopAtCeiling
  split_ifs <;> rfl

@[simp]
theorem stopAtCeiling_isJumping (T : Engine) (s : UserMovementService) :
    (stopAtCeiling T s).isJumping = s.isJumping := by
  unfold stopAtCeiling
  split_ifs <;> rfl

@[simp]
theorem stopAtCeiling_isCrouching (T : Engine) (s : UserMovementService) :
    (stopAtCeiling T s).isCrouching = s.isCrouching := by
  unfold stopAtCeiling
  split_ifs <;> rfl

@[simp]
theorem stopAtCeiling_isRunning (T : Engine) (s : UserMovementService) :
    (stopAtCeiling T s).isRunning = s.isRunning := by
  unfold stopAtCeiling
  split_ifs <;> rfl

@[simp]
theorem stopAtCeiling_moveForward (T : Engine) (s : UserMovementService) :
    (stopAtCeiling T s).moveForward = s.moveForward := by
  unfold stopAtCeiling
  split_ifs <;> rfl

@[simp]
theorem stopAtCeiling_moveBackward (T : Engine) (s : UserMovementService) :
    (stopAtCeiling T s).moveBackward = s.moveBackward := by
  unfold stopAtCeiling
  split_ifs <;> rfl

@[simp]
theorem stopAtCeiling_moveLeft (T : Engine) (s : UserMovementService) :
    (stopAtCeiling T s).moveLeft = s.moveLeft := by
  unfold stopAtCeiling
  split_ifs <;> rfl

@[simp]
theorem stopAtCeiling_moveRight (T : Engine) (s : UserMovementService) :
    (stopAtCeiling T s).moveRight = s.moveRight := by
  unfold stopAtCeiling
  split_ifs <;> rfl

@[simp]
theorem stopAtCeiling_config (T : Engine) (s : UserMovementService) :
    (stopAtCeiling T s).config = s.config := by
  unfold stopAtCeiling
  split_ifs <;> rfl

@[simp]
theorem stopAtCeiling_eye (T : Engine) (s : UserMovementService) :
    (stopAtCeiling T s).eye = s.eye := by
  unfold stopAtCeiling
  split_ifs <;> rfl

@[simp]
theorem stopAtCeiling_collidableObjects (T : Engine) (s : UserMovementService) :
    (stopAtCeiling T s).collidableObjects = s.collidableObjects := by
  unfold stopAtCeiling
  split_ifs <;> rfl

@[simp]
theorem stopAtCeiling_landableObjects (T : Engine) (s : UserMovementService) :
    (stopAtCeiling T s).landableObjects = s.landableObjects := by
  unfold stopAtCeiling
  split_ifs <;> rfl

@[simp]
theorem stopAtCeiling_velocity_x (T : Engine) (s : UserMovementService) :
    (stopAtCeiling T s).velocity.x = s.velocity.x := by
  unfold stopAtCeiling
  split_ifs <;> rfl

@[simp]
theorem stopAtCeiling_velocity_z (T : Engine) (s : UserMovementService) :
    (stopAtCeiling T s).velocity.z = s.velocity.z := by
  unfold stopAtCeiling
  split_ifs <;> rfl

@[simp]
theorem stopAtCeiling_position (T : Engine) (s : UserMovementService) :
    (stopAtCeiling T s).controls.yawObject.position = s.controls.yawObject.position := by
  unfold stopAtCeiling
  split_ifs <;> rfl

@[simp]
theorem stopAtCeiling_quaternion (T : Engine) (s : UserMovementService) :
    (stopAtCeiling T s).controls.yawObject.quaternion = s.controls.yawObject.quaternion := by
  unfold stopAtCeiling
  split_ifs <;> rfl

@[simp]
theorem moveVertical_canJump (delta : ℚ) (s : UserMovementService) :
    (moveVertical delta s).canJump = s.canJump := by
  rfl

@[simp]
theorem moveVertical_isJumping (delta : ℚ) (s : UserMovementService) :
    (moveVertical delta s).isJumping = s.isJumping := by
  rfl

@[simp]
theorem moveVertical_isCrouching (delta : ℚ) (s : UserMovementService) :
    (moveVertical delta s).isCrouching = s.isCrouching := by
  rfl

@[simp]
theorem moveVertical_isRunning (delta : ℚ) (s : UserMovementService) :
    (moveVertical delta s).isRunning = s.isRunning := by
  rfl

@[simp]
theorem moveVertical_moveForward (delta : ℚ) (s : UserMovementService) :
    (moveVertical delta s).moveForward = s.moveForward := by
  rfl

@[simp]
theorem moveVertical_moveBackward (delta : ℚ) (s : UserMovementService) :
    (moveVertical delta s).moveBackward = s.moveBackward := by
  rfl

@[simp]
theorem moveVertical_moveLeft (delta : ℚ) (s : UserMovementService) :
    (moveVertical delta s).moveLeft = s.moveLeft := by
  rfl

@[simp]
theorem moveVertical_moveRight (delta : ℚ) (s : UserMovementService) :
    (moveVertical delta s).moveRight = s.moveRight := by
  rfl

@[simp]
theorem moveVertical_config (delta : ℚ) (s : UserMovementService) :
    (moveVertical delta s).config = s.config := by
  rfl

@[simp]
theorem moveVertical_eye (delta : ℚ) (s : UserMovementService) :
    (moveVertical delta s).eye = s.eye := by
  rfl

@[simp]
theorem moveVertical_collidableObjects (delta : ℚ) (s : UserMovementService) :
    (moveVertical delta s).collidableObjects = s.collidableObjects := by
  rfl

@[simp]
theorem moveVertical_landableObjects (delta : ℚ) (s : UserMovementService) :
    (moveVertical delta s).landableObjects = s.landableObjects := by
  rfl

@[simp]
theorem moveVertical_velocity_x (delta : ℚ) (s : UserMovementService) :
    (moveVertical delta s).velocity.x = s.velocity.x := by
  rfl

@[simp]
theorem moveVertical_velocity_y (delta : ℚ) (s : UserMovementService) :
    (moveVertical delta s).velocity.y = s.velocity.y := by
  rfl

@[simp]
theorem moveVertical_velocity_z (delta : ℚ) (s : UserMovementService) :
    (moveVertical delta s).velocity.z = s.velocity.z := by
  rfl

@[simp]
theorem moveVertical_quaternion (delta : ℚ) (s : UserMovementService) :
    (moveVertical delta s).controls.yawObject.quaternion = s.controls.yawObject.quaternion := by
  rfl

@[simp]
theorem moveVertical_position_x (delta : ℚ) (s : UserMovementService) :
    (moveVertical delta s).controls.yawObject.position.x = s.controls.yawObject.position.x := by
  rfl

@[simp]
theorem moveVertical_position_z (delta : ℚ) (s : UserMovementService) :
    (moveVertical delta s).controls.yawObject.position.z = s.controls.yawObject.position.z := by
  rfl

@[simp]
theorem resolveLanding_isCrouching (T : Engine) (s : UserMovementService) :
    (resolveLanding T s).isCrouching = s.isCrouching := by
  unfold resolveLanding clampToGround landAt
  split <;> first | rfl | (split_ifs <;> rfl)

@[simp]
theorem resolveLanding_isRunning (T : Engine) (s : UserMovementService) :
    (resolveLanding T s).isRunning = s.isRunning := by
  unfold resolveLanding clampToGround landAt
  split <;> first | rfl | (split_ifs <;> rfl)

@[simp]
theorem resolveLanding_moveForward (T : Engine) (s : UserMovementService) :
    (resolveLanding T s).moveForward = s.moveForward := by
  unfold resolveLanding clampToGround landAt
  split <;> first | rfl | (split_ifs <;> rfl)

@[simp]
theorem resolveLanding_moveBackward (T : Engine) (s : UserMovementService) :
    (resolveLanding T s).moveBackward = s.moveBackward := by
  unfold resolveLanding clampToGround landAt
  split <;> first | rfl | (split_ifs <;> rfl)

@[simp]
theorem resolveLanding_moveLeft (T : Engine) (s : UserMovementService) :
    (resolveLanding T s).moveLeft = s.moveLeft := by
  unfold resolveLanding clampToGround landAt
  split <;> first | rfl | (split_ifs <;> rfl)

@[simp]
theorem resolveLanding_moveRight (T : Engine) (s : UserMovementService) :
    (resolveLanding T s).moveRight = s.moveRight := by
  unfold resolveLanding clampToGround landAt
  split <;> first | rfl | (split_ifs <;> rfl)

@[simp]
theorem resolveLanding_config (T : Engine) (s : UserMovementService) :
    (resolveLanding T s).config = s.config := by
  unfold resolveLanding clampToGround landAt
  split <;> first | rfl | (split_ifs <;> rfl)

@[simp]
theorem resolveLanding_eye (T : Engine) (s : UserMovementService) :
    (resolveLanding T s).eye = s.eye := by
  unfold resolveLanding clampToGround landAt
  split <;> first | rfl | (split_ifs <;> rfl)

@[simp]
theorem resolveLanding_collidableObjects (T : Engine) (s : UserMovementService) :
    (resolveLanding T s).collidableObjects = s.collidableObjects := by
  unfold resolveLanding clampToGround landAt
  split <;> first | rfl | (split_ifs <;> rfl)

@[simp]
theorem resolveLanding_landableObjects (T : Engine) (s : UserMovementService) :
    (resolveLanding T s).landableObjects = s.landableObjects := by
  unfold resolveLanding clampToGround landAt
  split <;> first | rfl | (split_ifs <;> rfl)

@[simp]
theorem resolveLanding_velocity_x (T : Engine) (s : UserMovementService) :
    (resolveLanding T s).velocity.x = s.velocity.x := by
  unfold resolveLanding clampToGround landAt
  split <;> first | rfl | (split_ifs <;> rfl)

@[simp]
theorem resolveLanding_velocity_z (T : Engine) (s : UserMovementService) :
    (resolveLanding T s).velocity.z = s.velocity.z := by
  unfold resolveLanding clampToGround landAt
  split <;> first | rfl | (split_ifs <;> rfl)

@[simp]
theorem resolveLanding_quaternion (T : Engine) (s : UserMovementService) :
    (resolveLanding T s).controls.yawObject.quaternion = s.controls.yawObject.quaternion := by
  unfold resolveLanding clampToGround landAt
  split <;> first | rfl | (split_ifs <;> rfl)

@[simp]
theorem resolveLanding_position_x (T : Engine) (s : UserMovementService) :
    (resolveLanding T s).controls.yawObject.position.x = s.controls.yawObject.position.x := by
  unfold resolveLanding clampToGround landAt
  split <;> first | rfl | (split_ifs <;> rfl)

@[simp]
theorem resolveLanding_position_z (T : Engine) (s : UserMovementService) :
    (resolveLanding T s).controls.yawObject.position.z = s.controls.yawObject.position.z := by
  unfold resolveLanding clampToGround landAt
  split <;> first | rfl | (split_ifs <;> rfl)

/-! ## Case analysis of the handlers and preserved flags -/

/-- Every outcome of `onKeyDown` is one of eight states: a property that holds of
all of them holds of the result. -/
theorem onKeyDown_cases (P : UserMovementService → Prop) (T : Engine) (g : Option Bool)
    (code : String) (s : UserMovementService)
    (hSame : P s)
    (hForward : P { s with moveForward := true })
    (hLeft : P { s with moveLeft := true })
    (hBackward : P { s with moveBackward := true })
    (hRight : P { s with moveRight := true })
    (hJump : P { s with velocity.y := s.config.JUMP_VELOCITY, canJump := false, isJumping := true })
    (hRun : P { s with isRunning := true })
    (hCrouch : P (toggleCrouch T s)) :
    P (onKeyDown T g code s) := by
  unfold onKeyDown
  by_cases hg : g = some false
  · rw [if_pos hg]; exact hSame
  · rw [if_neg hg]
    split
    all_goals first
      | assumption
      | (split_ifs <;> assumption)

/-- Every outcome of `onKeyUp` is one of six states. -/
theorem onKeyUp_cases (P : UserMovementService → Prop) (g : Option Bool)
    (code : String) (s : UserMovementService)
    (hSame : P s)
    (hForward : P { s with moveForward := false })
    (hLeft : P { s with moveLeft := false })
    (hBackward : P { s with moveBackward := false })
    (hRight : P { s with moveRight := false })
    (hRun : P { s with isRunning := false }) :
    P (onKeyUp g code s) := by
  unfold onKeyUp
  by_cases hg : g = some false
  · rw [if_pos hg]; exact hSame
  · rw [if_neg hg]
    split <;> assumption

@[simp]
theorem toggleCrouch_canJump (T : Engine) (s : UserMovementService) :
    (toggleCrouch T s).canJump = s.canJump := by
  unfold toggleCrouch setCrouchMode
  dsimp only
  split_ifs <;> rfl

@[simp]
theorem toggleCrouch_isJumping (T : Engine) (s : UserMovementService) :
    (toggleCrouch T s).isJumping = s.isJumping := by
  unfold toggleCrouch setCrouchMode
  dsimp only
  split_ifs <;> rfl

@[simp]
theorem beforeLanding_canJump (T : Engine) (now delta : ℚ) (s : UserMovementService) :
    (beforeLanding T now delta s).canJump = s.canJump := by
  simp [beforeLanding, afterHorizontal, afterInput]

@[simp]
theorem beforeLanding_isJumping (T : Engine) (now delta : ℚ) (s : UserMovementService) :
    (beforeLanding T now delta s).isJumping = s.isJumping := by
  simp [beforeLanding, afterHorizontal, afterInput]

@[simp]
theorem beforeLanding_config (T : Engine) (now delta : ℚ) (s : UserMovementService) :
    (beforeLanding T now delta s).config = s.config := by
  simp [beforeLanding, afterHorizontal, afterInput]

/-- The landing resolution keeps `canJump` the negation of `isJumping`. -/
theorem resolveLanding_flags (T : Engine) (s : UserMovementService)
    (h : s.canJump = !s.isJumping) :
    (resolveLanding T s).canJump = !(resolveLanding T s).isJumping := by
  unfold resolveLanding clampToGround landAt
  split <;> split_ifs <;> first | exact h | rfl

/-- In every reachable state `canJump` is the negation of `isJumping`: the two flags
are written together, by the jump and by the landing resolution. -/
theorem reachable_canJump (T : Engine) (s : UserMovementService) (hR : Reachable T s) :
    s.canJump = !s.isJumping := by
  induction hR with
  | init controls c l o now => simp [constructor, initEyeHeights]
  | setPosition x y z _ ih => exact ih
  | keyDown g code _ ih =>
    apply onKeyDown_cases (fun s => s.canJump = !s.isJumping)
    all_goals first
      | exact ih
      | rfl
      | simpa using ih
  | keyUp g code _ ih =>
    apply onKeyUp_cases (fun s => s.canJump = !s.isJumping) <;> exact ih
  | toggleCrouch _ ih => simpa using ih
  | update now delta _ ih =>
    unfold update
    apply resolveLanding_flags
    simpa using ih

/-! ## Jumping -/

/-- C1: in a state with `canJump` true and `isCrouching` false, with the game-started
gate absent or open, handling a Space keydown sets `velocity.y` to `JUMP_VELOCITY`,
clears `canJump`, sets `isJumping`, and changes nothing else: `velocity.x`,
`velocity.z`, the position and the crouch and run flags are as before. -/
theorem jump_impulse (T : Engine) (gameStarted : Option Bool) (s : UserMovementService)
    (hJump : s.canJump = true) (hStand : s.isCrouching = false)
    (hGate : gameStarted ≠ some false) :
    (onKeyDown T gameStarted "Space" s).velocity.y = s.config.JUMP_VELOCITY ∧
    (onKeyDown T gameStarted "Space" s).canJump = false ∧
    (onKeyDown T gameStarted "Space" s).isJumping = true ∧
    (onKeyDown T gameStarted "Space" s).velocity.x = s.velocity.x ∧
    (onKeyDown T gameStarted "Space" s).velocity.z = s.velocity.z ∧
    (onKeyDown T gameStarted "Space" s).controls.yawObject.position
      = s.controls.yawObject.position ∧
    (onKeyDown T gameStarted "Space" s).isCrouching = s.isCrouching ∧
    (onKeyDown T gameStarted "Space" s).isRunning = s.isRunning ∧
    onKeyDown T gameStarted "Space" s
      = { s with velocity.y := s.config.JUMP_VELOCITY, canJump := false, isJumping := true } := by
  have h : onKeyDown T gameStarted "Space" s
      = { s with velocity.y := s.config.JUMP_VELOCITY, canJump := false, isJumping := true } := by
    simp [onKeyDown, hJump, hStand, hGate]
  rw [h]
  simp

/-- Witness of C1: a freshly constructed player at ground height receives Space. -/
theorem jump_impulse_witness :
    (onKeyDown Scene.emptyWorld none "Space" (Scene.freshAt ⟨0, 10, 0⟩ [] [])).velocity.y = 250 ∧
    (onKeyDown Scene.emptyWorld none "Space" (Scene.freshAt ⟨0, 10, 0⟩ [] [])).canJump = false ∧
    (onKeyDown Scene.emptyWorld none "Space" (Scene.freshAt ⟨0, 10, 0⟩ [] [])).isJumping = true := by
  have h := jump_impulse Scene.emptyWorld none (Scene.freshAt ⟨0, 10, 0⟩ [] [])
    (by simp [Scene.freshAt, constructor, initEyeHeights])
    (by simp [Scene.freshAt, constructor, initEyeHeights]) (by simp)
  refine ⟨?_, h.2.1, h.2.2.1⟩
  rw [h.1]
  simp [Scene.freshAt, Scene.noOptions, constructor, initEyeHeights, orDefault]

/-- C2, counterexample: a freshly constructed player moved by `setPosition` to height
100 in a world without objects is reachable and airborne (above the ground height,
no landing surface under it, the landing probe returns `null`), it is not
crouching, and a Space keydown is not ignored: `velocity.y` goes from 0 to 250,
`canJump` from true to false and `isJumping` from false to true. -/
theorem jump_airborne_counterexample :
    Reachable Scene.emptyWorld Scene.placedInAir ∧
    Scene.placedInAir.controls.yawObject.position.y > Scene.placedInAir.config.GROUND_HEIGHT ∧
    Scene.placedInAir.landableObjects = [] ∧
    checkTopCollision Scene.emptyWorld Scene.placedInAir = none ∧
    Scene.placedInAir.velocity.y = 0 ∧
    (onKeyDown Scene.emptyWorld none "Space" Scene.placedInAir).velocity.y = 250 ∧
    Scene.placedInAir.canJump = true ∧
    (onKeyDown Scene.emptyWorld none "Space" Scene.placedInAir).canJump = false ∧
    Scene.placedInAir.isJumping = false ∧
    (onKeyDown Scene.emptyWorld none "Space" Scene.placedInAir).isJumping = true := by
  refine ⟨Reachable.setPosition 0 100 0 (Reachable.init _ _ _ _ _), ?_, ?_, ?_, ?_, ?_, ?_, ?_, ?_⟩
  all_goals
    simp [Scene.placedInAir, Scene.freshAt, Scene.noOptions, Scene.controlsAt, Scene.emptyWorld,
      Scene.engine, setPosition, constructor, initEyeHeights, orDefault, onKeyDown,
      checkTopCollision]
  norm_num

/-- C2, as amended: in every reachable state in which the player is crouching or
already jumping, a Space keydown is ignored, whatever the game-started gate: the
state, and so the velocity, `canJump` and `isJumping`, is the same after the event
as before it. -/
theorem jump_ignored (T : Engine) (gameStarted : Option Bool) (s : UserMovementService)
    (hR : Reachable T s) (h : s.isCrouching = true ∨ s.isJumping = true) :
    onKeyDown T gameStarted "Space" s = s ∧
    (onKeyDown T gameStarted "Space" s).velocity = s.velocity ∧
    (onKeyDown T gameStarted "Space" s).canJump = s.canJump ∧
    (onKeyDown T gameStarted "Space" s).isJumping = s.isJumping := by
  have hEq : onKeyDown T gameStarted "Space" s = s := by
    have hInv := reachable_canJump T s hR
    rcases h with h | h
    · simp [onKeyDown, h]
    · simp [onKeyDown, hInv, h]
  rw [hEq]
  simp

/-- Witness of C2 as amended: the player that has just jumped is reachable and jumping,
and a second Space keydown leaves it as it is. -/
theorem jump_ignored_witness :
    Scene.justJumped.isJumping = true ∧
    onKeyDown Scene.emptyWorld none "Space" Scene.justJumped = Scene.justJumped :=
  have hJ : Scene.justJumped.isJumping = true := by
    simp [Scene.justJumped, Scene.freshAt, constructor, initEyeHeights, onKeyDown]
  ⟨hJ, (jump_ignored Scene.emptyWorld none Scene.justJumped
    (Reachable.keyDown none "Space" (Reachable.init _ _ _ _ _)) (Or.inr hJ)).1⟩

/-! ## Crouching -/

/-- C3: in a crouching state, when the first hit with distance at least 0 of the upward
headroom probe has distance at most `(PLAYER_HEIGHT - CROUCH_HEIGHT) + 0.1`,
`toggleCrouch` is a rejected no-op (the state is unchanged: `isCrouching` stays
true, and `isRunning`, the eye offset, the position and the velocity are as
before); when there is no such hit, or its distance is greater, `toggleCrouch`
sets `isCrouching` to false. -/
theorem stand_blocked_or_allowed (T : Engine) (s : UserMovementService)
    (hC : s.isCrouching = true) :
    (∀ first : Intersection,
      (T.intersectObjects s.controls.yawObject.position ⟨0, 1, 0⟩ s.collidableObjects true).find?
          (fun h => decide (h.distance ≥ 0)) = some first →
      first.distance ≤ (s.config.PLAYER_HEIGHT - s.config.CROUCH_HEIGHT) + 0.1 →
      toggleCrouch T s = s ∧
      (toggleCrouch T s).isCrouching = true ∧
      (toggleCrouch T s).isRunning = s.isRunning ∧
      (toggleCrouch T s).controls.pitchObject.position.y = s.controls.pitchObject.position.y ∧
      (toggleCrouch T s).controls.yawObject.position = s.controls.yawObject.position ∧
      (toggleCrouch T s).velocity = s.velocity) ∧
    (((T.intersectObjects s.controls.yawObject.position ⟨0, 1, 0⟩ s.collidableObjects true).find?
          (fun h => decide (h.distance ≥ 0)) = none ∨
      ∃ first : Intersection,
        (T.intersectObjects s.controls.yawObject.position ⟨0, 1, 0⟩ s.collidableObjects true).find?
          (fun h => decide (h.distance ≥ 0)) = some first ∧
        first.distance > (s.config.PLAYER_HEIGHT - s.config.CROUCH_HEIGHT) + 0.1) →
      (toggleCrouch T s).isCrouching = false) := by
  constructor
  · intro first hFind hNear
    have hNo : hasHeadroomToStand T s = false := by
      simp [hasHeadroomToStand, hC, hFind, hNear]
    have hEq : toggleCrouch T s = s := by
      simp [toggleCrouch, hC, hNo]
    rw [hEq]
    simp [hC]
  · intro h
    have hYes : hasHeadroomToStand T s = true := by
      rcases h with h | ⟨first, hFind, hFar⟩
      · simp [hasHeadroomToStand, hC, h]
      · simp [hasHeadroomToStand, hC, hFind, hFar]
    simp [toggleCrouch, setCrouchMode, hC, hYes]

/-- Witness of C3: the crouched player under a ceiling 3 units above it (needed: more
than 6.1) stays as it is, and the same player in the world without objects
stands up. -/
theorem stand_blocked_or_allowed_witness :
    Scene.crouched.isCrouching = true ∧
    toggleCrouch (Scene.ceilingWorld 13) Scene.crouched = Scene.crouched ∧
    (toggleCrouch Scene.emptyWorld Scene.crouched).isCrouching = false := by
  have hC : Scene.crouched.isCrouching = true := by
    simp [Scene.crouched, Scene.freshAt, toggleCrouch, setCrouchMode, constructor, initEyeHeights]
  refine ⟨hC, ?_, ?_⟩
  · refine ((stand_blocked_or_allowed (Scene.ceilingWorld 13) Scene.crouched hC).1
      ⟨3, ⟨0, 13, 0⟩, Scene.slabAt 13⟩ ?_ ?_).1
    · simp [Scene.crouched, Scene.freshAt, Scene.controlsAt, Scene.ceilingWorld, Scene.engine,
        toggleCrouch, setCrouchMode, constructor, initEyeHeights]
      norm_num
    · simp [Scene.crouched, Scene.freshAt, Scene.noOptions, toggleCrouch, setCrouchMode,
        constructor, initEyeHeights, orDefault]
      norm_num
  · refine (stand_blocked_or_allowed Scene.emptyWorld Scene.crouched hC).2 (Or.inl ?_)
    simp [Scene.emptyWorld, Scene.engine]

/-- From a standing state, `toggleCrouch` stops running and enters crouch mode. -/
theorem toggleCrouch_of_standing (T : Engine) (s : UserMovementService)
    (hC : s.isCrouching = false) :
    toggleCrouch T s = setCrouchMode { s with isRunning := false } true := by
  simp [toggleCrouch, hC]

/-- From a crouching state with headroom, `toggleCrouch` enters stand mode. -/
theorem toggleCrouch_of_headroom (T : Engine) (s : UserMovementService)
    (hC : s.isCrouching = true) (hRoom : hasHeadroomToStand T s = true) :
    toggleCrouch T s = setCrouchMode s false := by
  simp [toggleCrouch, hC, hRoom]


/-- C9: from a state whose eye offset is the one of its current mode (`eye.stand` when
standing, `eye.crouch` when crouching), two successive `toggleCrouch` calls during
which the headroom probe reports no obstruction flip the mode and flip it back:
`isCrouching` and the eye offset `pitchObject.position.y` return to their original
values. -/
theorem toggle_twice_restores (T : Engine) (s : UserMovementService)
    (hEye : s.controls.pitchObject.position.y
      = if s.isCrouching = true then s.eye.crouch else s.eye.stand)
    (hFirst : hasHeadroomToStand T s = true)
    (hSecond : hasHeadroomToStand T (toggleCrouch T s) = true) :
    (toggleCrouch T s).isCrouching = !s.isCrouching ∧
    (toggleCrouch T (toggleCrouch T s)).isCrouching = s.isCrouching ∧
    (toggleCrouch T (toggleCrouch T s)).controls.pitchObject.position.y
      = s.controls.pitchObject.position.y := by
  cases hC : s.isCrouching
  · rw [hC] at hEye
    simp only [Bool.false_eq_true, if_false] at hEye
    have hOne := toggleCrouch_of_standing T s hC
    have hC1 : (toggleCrouch T s).isCrouching = true := by rw [hOne]; rfl
    have hTwo := toggleCrouch_of_headroom T (toggleCrouch T s) hC1 hSecond
    refine ⟨hC1, by rw [hTwo]; rfl, ?_⟩
    rw [hTwo, hOne, hEye]
    rfl
  · rw [hC] at hEye
    simp only [if_true] at hEye
    have hOne := toggleCrouch_of_headroom T s hC hFirst
    have hC1 : (toggleCrouch T s).isCrouching = false := by rw [hOne]; rfl
    have hTwo := toggleCrouch_of_standing T (toggleCrouch T s) hC1
    refine ⟨hC1, by rw [hTwo]; rfl, ?_⟩
    rw [hTwo, hOne, hEye]
    rfl

/-- Witness of C9: a freshly constructed player in the world without objects crouches and
stands up again; its eye offset is 7 before and after. -/
theorem toggle_twice_restores_witness :
    (toggleCrouch Scene.emptyWorld
      (toggleCrouch Scene.emptyWorld (Scene.freshAt ⟨0, 10, 0⟩ [] []))).isCrouching = false ∧
    (toggleCrouch Scene.emptyWorld
      (toggleCrouch Scene.emptyWorld (Scene.freshAt ⟨0, 10, 0⟩ [] []))).controls.pitchObject.position.y
      = 7 := by
  have h := toggle_twice_restores Scene.emptyWorld (Scene.freshAt ⟨0, 10, 0⟩ [] [])
    (by simp [Scene.freshAt, Scene.controlsAt, constructor, initEyeHeights])
    (by simp [hasHeadroomToStand, Scene.freshAt, constructor, initEyeHeights])
    (by simp [hasHeadroomToStand, Scene.emptyWorld, Scene.engine])
  refine ⟨?_, ?_⟩
  · rw [h.2.1]; simp [Scene.freshAt, constructor, initEyeHeights]
  · rw [h.2.2]; simp [Scene.freshAt, Scene.controlsAt, constructor, initEyeHeights]

/-! ## Vertical motion: ground clamp and landing -/

/-- When the landing probe returns `null`, `update` ends with the ground clamp. -/
theorem update_of_no_landing (T : Engine) (now delta : ℚ) (s : UserMovementService)
    (h : checkTopCollision T (beforeLanding T now delta s) = none) :
    update T now delta s = clampToGround (beforeLanding T now delta s) := by
  unfold update resolveLanding
  rw [h]

/-! ### The ground clamp over numbers with infinities and NaN -/

/-- The operator `+` on `Overflow.Num` is `Overflow.Num.add`. -/
theorem num_add_def (a b : Overflow.Num) : a + b = Overflow.Num.add a b := rfl

/-- The operator `-` on `Overflow.Num` adds the negated operand. -/
theorem num_sub_def (a b : Overflow.Num) :
    a - b = Overflow.Num.add a (Overflow.Num.neg b) := rfl

/-- The operator `*` on `Overflow.Num` is `Overflow.Num.mul`. -/
theorem num_mul_def (a b : Overflow.Num) : a * b = Overflow.Num.mul a b := rfl

/-- Unary minus on `Overflow.Num` is `Overflow.Num.neg`. -/
theorem num_neg_def (a : Overflow.Num) : -a = Overflow.Num.neg a := rfl

/-- When `a <= b` is false, `a === b` and `a < b` are false too, and `a >= b` holds
unless one of the two is `NaN`. -/
theorem num_le_false (a b : Overflow.Num) (h : Overflow.Num.le a b = false) :
    Overflow.Num.strictEq a b = false ∧ Overflow.Num.lt a b = false ∧
    (Overflow.Num.ge a b = true ∨ a = Overflow.Num.nan ∨ b = Overflow.Num.nan) := by
  cases a <;> cases b <;>
    simp_all [Overflow.Num.le, Overflow.Num.lt, Overflow.Num.ge, Overflow.Num.strictEq]
  exact ⟨ne_of_gt h, le_of_lt h⟩

/-- When `a <= b` is true, `b` is not `NaN`: it is equal to itself and not below itself. -/
theorem num_le_true (a b : Overflow.Num) (h : Overflow.Num.le a b = true) :
    Overflow.Num.strictEq b b = true ∧ Overflow.Num.lt b b = false ∧
    Overflow.Num.ge b b = true := by
  cases a <;> cases b <;>
    simp_all [Overflow.Num.le, Overflow.Num.lt, Overflow.Num.ge, Overflow.Num.strictEq]

@[simp]
theorem overflow_stampTime_config (now delta : Overflow.Num) (s : Overflow.UserMovementService) :
    (Overflow.stampTime now delta s).config = s.config := by
  unfold Overflow.stampTime
  split_ifs <;> rfl

@[simp]
theorem overflow_applyGravity_config (T : Overflow.Engine) (delta : Overflow.Num)
    (s : Overflow.UserMovementService) :
    (Overflow.applyGravity T delta s).config = s.config := by
  unfold Overflow.applyGravity
  dsimp only
  split_ifs <;> rfl

@[simp]
theorem overflow_applyDamping_config (delta : Overflow.Num) (s : Overflow.UserMovementService) :
    (Overflow.applyDamping delta s).config = s.config := rfl

@[simp]
theorem overflow_applyInput_config (T : Overflow.Engine) (delta : Overflow.Num)
    (s : Overflow.UserMovementService) :
    (Overflow.applyInput T delta s).config = s.config := by
  unfold Overflow.applyInput
  dsimp only
  split_ifs <;> rfl

@[simp]
theorem overflow_moveHorizontal_config (T : Overflow.Engine) (delta : Overflow.Num)
    (s : Overflow.UserMovementService) :
    (Overflow.moveHorizontal T delta s).config = s.config := by
  unfold Overflow.moveHorizontal
  dsimp only
  split_ifs <;> rfl

@[simp]
theorem overflow_stopAtCeiling_config (T : Overflow.Engine) (s : Overflow.UserMovementService) :
    (Overflow.stopAtCeiling T s).config = s.config := by
  unfold Overflow.stopAtCeiling
  split_ifs <;> rfl

/-- The configuration is the same at the landing probe as at the start of `update`. -/
theorem overflow_beforeLanding_config (T : Overflow.Engine) (now delta : Overflow.Num)
    (s : Overflow.UserMovementService) :
    (Overflow.beforeLanding T now delta s).config = s.config := by
  simp [Overflow.beforeLanding, Overflow.moveVertical]

/-- When the landing probe returns `null`, `update` ends with the ground clamp. -/
theorem overflow_update_of_no_landing (T : Overflow.Engine) (now delta : Overflow.Num)
    (s : Overflow.UserMovementService)
    (h : Overflow.checkTopCollision T (Overflow.beforeLanding T now delta s) = none) :
    Overflow.update T now delta s = Overflow.clampToGround (Overflow.beforeLanding T now delta s) := by
  unfold Overflow.update Overflow.resolveLanding
  rw [h]

/-- After the ground clamp the height is not below the ground height: it is at least
the ground height unless one of the two is `NaN`; it is equal to the ground height
only through the clamp, which also resets the vertical velocity and the jump flags. -/
theorem overflow_clampToGround_spec (s : Overflow.UserMovementService) :
    (Overflow.clampToGround s).config = s.config ∧
    Overflow.Num.lt (Overflow.clampToGround s).controls.yawObject.position.y
      s.config.GROUND_HEIGHT = false ∧
    (Overflow.Num.ge (Overflow.clampToGround s).controls.yawObject.position.y
        s.config.GROUND_HEIGHT = true ∨
      (Overflow.clampToGround s).controls.yawObject.position.y = Overflow.Num.nan ∨
      s.config.GROUND_HEIGHT = Overflow.Num.nan) ∧
    (Overflow.Num.strictEq (Overflow.clampToGround s).controls.yawObject.position.y
        s.config.GROUND_HEIGHT = true →
      (Overflow.clampToGround s).velocity.y = Overflow.Num.fin 0 ∧
      (Overflow.clampToGround s).canJump = true ∧
      (Overflow.clampToGround s).isJumping = false) := by
  unfold Overflow.clampToGround Overflow.landAt
  split_ifs with h
  · obtain ⟨_, h2, h3⟩ := num_le_true _ _ h
    exact ⟨rfl, h2, Or.inl h3, fun _ => ⟨rfl, rfl, rfl⟩⟩
  · have h0 : Overflow.Num.le s.controls.yawObject.position.y s.config.GROUND_HEIGHT = false := by
      simpa using h
    obtain ⟨h1, h2, h3⟩ := num_le_false _ _ h0
    exact ⟨rfl, h2, h3, fun hEq => absurd hEq (by rw [h1]; simp)⟩

/-- In the world without objects the landing probe finds nothing. -/
theorem overflow_emptyWorld_no_landing (s : Overflow.UserMovementService) :
    Overflow.checkTopCollision Overflow.emptyWorld s = none := by
  simp [Overflow.checkTopCollision, Overflow.emptyWorld]

/-- In the world without objects the ground height is the configured one. -/
theorem overflow_emptyWorld_ground (s : Overflow.UserMovementService) :
    Overflow.getGroundHeight Overflow.emptyWorld s = s.config.GROUND_HEIGHT := by
  simp [Overflow.getGroundHeight, Overflow.emptyWorld]

/-- In the world without objects no ray of the general check is blocking. -/
theorem overflow_emptyWorld_ray_clear (s : Overflow.UserMovementService)
    (heights : List Overflow.Num) (dir : Overflow.Vector3) :
    Overflow.checkCollisionRay Overflow.emptyWorld s dir heights = false := by
  induction heights generalizing dir with
  | nil => rfl
  | cons h rest ih =>
    unfold Overflow.checkCollisionRay
    simpa [Overflow.emptyWorld] using ih dir

/-- In the world without objects both horizontal axes are free. -/
theorem overflow_emptyWorld_canMove (s : Overflow.UserMovementService) :
    Overflow.canMoveX Overflow.emptyWorld s = true ∧
    Overflow.canMoveZ Overflow.emptyWorld s = true := by
  have h : ∀ dir, Overflow.isBlocked Overflow.emptyWorld s dir = false := by
    intro dir
    unfold Overflow.isBlocked
    split_ifs
    · simp [Overflow.checkCrouchCollision, Overflow.emptyWorld]
    · simp [Overflow.checkCollision, Overflow.probeDirections, overflow_emptyWorld_ray_clear]
  simp [Overflow.canMoveX, Overflow.canMoveZ, h]

/-- A result of magnitude below a million is stored as it is. -/
theorem num_ofExact_small (q : ℚ) (h1 : -1000000 < q) (h2 : q < 1000000) :
    Overflow.Num.ofExact q = Overflow.Num.fin q := by
  have hB : (1000000 : ℚ) < Overflow.Num.overflowBound := by
    unfold Overflow.Num.overflowBound
    norm_num
  unfold Overflow.Num.ofExact
  rw [if_neg (by linarith), if_neg (by linarith)]

/-- A result of at least `2^1024` is stored as `Infinity`. -/
theorem num_ofExact_large (q : ℚ) (h : 2 ^ 1024 ≤ q) :
    Overflow.Num.ofExact q = Overflow.Num.posInf := by
  have hB : Overflow.Num.overflowBound ≤ (2 : ℚ) ^ 1024 := by
    unfold Overflow.Num.overflowBound
    norm_num
  unfold Overflow.Num.ofExact
  rw [if_pos (le_trans hB h)]

/-- The damping of the velocity component `2^1023` with the default damping 10 and
`delta = 1`: the product `2^1023 * 10` is `Infinity`, and the component becomes
`2^1023 - Infinity = -Infinity`. -/
theorem overflow_damping_step :
    Overflow.applyDamping (Overflow.Num.fin 1)
      (Overflow.standingAt ⟨Overflow.Num.fin 0, Overflow.Num.fin 10, Overflow.Num.fin 0⟩
        (Overflow.Num.fin (2 ^ 1023)))
      = Overflow.standingAt ⟨Overflow.Num.fin 0, Overflow.Num.fin 10, Overflow.Num.fin 0⟩
          Overflow.Num.negInf := by
  norm_num [Overflow.applyDamping, Overflow.standingAt, Overflow.defaultConfig,
    num_sub_def, num_mul_def, Overflow.Num.add, Overflow.Num.mul, Overflow.Num.neg,
    Overflow.Num.timesInfinity, num_ofExact_small, num_ofExact_large]

/-- The horizontal step with velocity component `-Infinity` in the world without
objects: the translation along the local x axis `(1, 0, 0)` adds
`(1 * -Infinity, 0 * -Infinity, 0 * -Infinity) = (-Infinity, NaN, NaN)` to the
position. -/
theorem overflow_horizontal_step :
    Overflow.moveHorizontal Overflow.emptyWorld (Overflow.Num.fin 1)
      (Overflow.standingAt ⟨Overflow.Num.fin 0, Overflow.Num.fin 10, Overflow.Num.fin 0⟩
        Overflow.Num.negInf)
      = Overflow.standingAt ⟨Overflow.Num.negInf, Overflow.Num.nan, Overflow.Num.nan⟩
          Overflow.Num.negInf := by
  unfold Overflow.moveHorizontal
  rw [(overflow_emptyWorld_canMove _).1, (overflow_emptyWorld_canMove _).2]
  norm_num [Overflow.Object3D.translateX, Overflow.Object3D.translateZ,
    Overflow.Object3D.translateOnAxis, Overflow.Vector3.add, Overflow.Vector3.multiplyScalar,
    Overflow.emptyWorld, Overflow.applyQuaternion, Overflow.identity, Overflow.standingAt,
    num_add_def, num_sub_def, num_mul_def, Overflow.Num.add, Overflow.Num.mul, Overflow.Num.neg,
    Overflow.Num.timesInfinity, num_ofExact_small]

/-- One update of the player standing on the ground with velocity component `2^1023`,
with `delta = 1`, in the world without objects. -/
theorem overflow_update_speeding :
    Overflow.update Overflow.emptyWorld (Overflow.Num.fin 0) (Overflow.Num.fin 1)
      (Overflow.standingAt ⟨Overflow.Num.fin 0, Overflow.Num.fin 10, Overflow.Num.fin 0⟩
        (Overflow.Num.fin (2 ^ 1023)))
      = Overflow.standingAt ⟨Overflow.Num.negInf, Overflow.Num.nan, Overflow.Num.nan⟩
          Overflow.Num.negInf := by
  have hDelta : ∀ s, Overflow.frameDelta (Overflow.Num.fin 0) (Overflow.Num.fin 1) s
      = Overflow.Num.fin 1 := by
    intro s
    simp [Overflow.frameDelta, Overflow.Num.falsy]
  have hStamp : ∀ s, Overflow.stampTime (Overflow.Num.fin 0) (Overflow.Num.fin 1) s = s := by
    intro s
    simp [Overflow.stampTime, Overflow.Num.falsy]
  have hGravity : Overflow.applyGravity Overflow.emptyWorld (Overflow.Num.fin 1)
      (Overflow.standingAt ⟨Overflow.Num.fin 0, Overflow.Num.fin 10, Overflow.Num.fin 0⟩
        (Overflow.Num.fin (2 ^ 1023)))
      = Overflow.standingAt ⟨Overflow.Num.fin 0, Overflow.Num.fin 10, Overflow.Num.fin 0⟩
        (Overflow.Num.fin (2 ^ 1023)) := by
    unfold Overflow.applyGravity
    rw [overflow_emptyWorld_ground]
    simp [Overflow.standingAt, Overflow.defaultConfig, Overflow.Num.gt, Overflow.Num.lt]
  have hInput : Overflow.applyInput Overflow.emptyWorld (Overflow.Num.fin 1)
      (Overflow.standingAt ⟨Overflow.Num.fin 0, Overflow.Num.fin 10, Overflow.Num.fin 0⟩
        Overflow.Num.negInf)
      = Overflow.standingAt ⟨Overflow.Num.fin 0, Overflow.Num.fin 10, Overflow.Num.fin 0⟩
        Overflow.Num.negInf := by
    norm_num [Overflow.applyInput, Overflow.standingAt, Overflow.boolToNumber,
      Overflow.emptyWorld, num_sub_def, Overflow.Num.add, Overflow.Num.neg, num_ofExact_small]
  have hCeiling : Overflow.stopAtCeiling Overflow.emptyWorld
      (Overflow.standingAt ⟨Overflow.Num.negInf, Overflow.Num.nan, Overflow.Num.nan⟩
        Overflow.Num.negInf)
      = Overflow.standingAt ⟨Overflow.Num.negInf, Overflow.Num.nan, Overflow.Num.nan⟩
        Overflow.Num.negInf := by
    simp [Overflow.stopAtCeiling, Overflow.standingAt, Overflow.Num.gt, Overflow.Num.lt]
  have hVertical : Overflow.moveVertical (Overflow.Num.fin 1)
      (Overflow.standingAt ⟨Overflow.Num.negInf, Overflow.Num.nan, Overflow.Num.nan⟩
        Overflow.Num.negInf)
      = Overflow.standingAt ⟨Overflow.Num.negInf, Overflow.Num.nan, Overflow.Num.nan⟩
        Overflow.Num.negInf := by
    simp [Overflow.moveVertical, Overflow.standingAt, num_add_def, Overflow.Num.add]
  have hClamp : Overflow.clampToGround
      (Overflow.standingAt ⟨Overflow.Num.negInf, Overflow.Num.nan, Overflow.Num.nan⟩
        Overflow.Num.negInf)
      = Overflow.standingAt ⟨Overflow.Num.negInf, Overflow.Num.nan, Overflow.Num.nan⟩
        Overflow.Num.negInf := by
    simp [Overflow.clampToGround, Overflow.standingAt, Overflow.Num.le]
  unfold Overflow.update Overflow.resolveLanding
  rw [overflow_emptyWorld_no_landing]
  unfold Overflow.beforeLanding
  dsimp only
  rw [hDelta, hStamp, hGravity, overflow_damping_step, hInput, overflow_horizontal_step,
    hCeiling, hVertical, hClamp]

/-- C4, counterexample: a player as the constructor leaves it (default configuration,
`GROUND_HEIGHT = 10`, not rotated, `canJump` true), standing on the ground at
(0, 10, 0) in the world without objects, with the finite velocity component
`velocity.x = 2^1023`, is updated once with `delta = 1 > 0`.  The landing probe
finds nothing.  The damping product `2^1023 * 10` is `Infinity`, so `velocity.x`
becomes `-Infinity`; `translateX(-Infinity)` adds `0 * -Infinity = NaN` to
`position.y`; `NaN <= 10` is false, so the clamp does not fire.  After the
update `position.y` is `NaN` and `position.y >= GROUND_HEIGHT` is false. -/
theorem ground_clamp_counterexample :
    Overflow.Num.gt (Overflow.Num.fin 1) (Overflow.Num.fin 0) = true ∧
    (Overflow.standingAt ⟨Overflow.Num.fin 0, Overflow.Num.fin 10, Overflow.Num.fin 0⟩
      (Overflow.Num.fin (2 ^ 1023))).config.GROUND_HEIGHT = Overflow.Num.fin 10 ∧
    Overflow.noLandingDuring Overflow.emptyWorld [⟨Overflow.Num.fin 0, Overflow.Num.fin 1⟩]
      (Overflow.standingAt ⟨Overflow.Num.fin 0, Overflow.Num.fin 10, Overflow.Num.fin 0⟩
        (Overflow.Num.fin (2 ^ 1023))) = true ∧
    (Overflow.update Overflow.emptyWorld (Overflow.Num.fin 0) (Overflow.Num.fin 1)
      (Overflow.standingAt ⟨Overflow.Num.fin 0, Overflow.Num.fin 10, Overflow.Num.fin 0⟩
        (Overflow.Num.fin (2 ^ 1023)))).velocity.x = Overflow.Num.negInf ∧
    (Overflow.update Overflow.emptyWorld (Overflow.Num.fin 0) (Overflow.Num.fin 1)
      (Overflow.standingAt ⟨Overflow.Num.fin 0, Overflow.Num.fin 10, Overflow.Num.fin 0⟩
        (Overflow.Num.fin (2 ^ 1023)))).controls.yawObject.position.y = Overflow.Num.nan ∧
    Overflow.Num.ge
      (Overflow.update Overflow.emptyWorld (Overflow.Num.fin 0) (Overflow.Num.fin 1)
        (Overflow.standingAt ⟨Overflow.Num.fin 0, Overflow.Num.fin 10, Overflow.Num.fin 0⟩
          (Overflow.Num.fin (2 ^ 1023)))).controls.yawObject.position.y
      (Overflow.standingAt ⟨Overflow.Num.fin 0, Overflow.Num.fin 10, Overflow.Num.fin 0⟩
        (Overflow.Num.fin (2 ^ 1023))).config.GROUND_HEIGHT = false := by
  refine ⟨?_, rfl, ?_, ?_, ?_, ?_⟩
  · simp [Overflow.Num.gt, Overflow.Num.lt]
  · simp [Overflow.noLandingDuring, overflow_emptyWorld_no_landing]
  · rw [overflow_update_speeding]; rfl
  · rw [overflow_update_speeding]; rfl
  · rw [overflow_update_speeding]; rfl

/-- C4, as amended: from any initial state, along any finite sequence of `update`
calls (of any `delta`, in particular `delta > 0`) in each of which the landing
probe `checkTopCollision` finds no landable surface, after each update
`position.y < GROUND_HEIGHT` is false: `position.y` is at least `GROUND_HEIGHT`
unless it is `NaN` (or `GROUND_HEIGHT` is); the configuration is not changed.
After each update that ends with `position.y` equal to `GROUND_HEIGHT`,
`velocity.y` is 0, `canJump` is true and `isJumping` is false. -/
theorem never_below_ground (T : Overflow.Engine) (frames : List Overflow.Frame)
    (s : Overflow.UserMovementService)
    (hNo : Overflow.noLandingDuring T frames s = true) :
    ∀ s1 ∈ Overflow.updateTrace T frames s,
      s1.config = s.config ∧
      Overflow.Num.lt s1.controls.yawObject.position.y s.config.GROUND_HEIGHT = false ∧
      (Overflow.Num.ge s1.controls.yawObject.position.y s.config.GROUND_HEIGHT = true ∨
        s1.controls.yawObject.position.y = Overflow.Num.nan ∨
        s.config.GROUND_HEIGHT = Overflow.Num.nan) ∧
      (Overflow.Num.strictEq s1.controls.yawObject.position.y s.config.GROUND_HEIGHT = true →
        s1.velocity.y = Overflow.Num.fin 0 ∧ s1.canJump = true ∧ s1.isJumping = false) := by
  induction frames generalizing s with
  | nil => intro s1 h; simp [Overflow.updateTrace] at h
  | cons f fs ih =>
    simp only [Overflow.noLandingDuring, Bool.and_eq_true, Option.isNone_iff_eq_none] at hNo
    have hStep := overflow_update_of_no_landing T f.now f.delta s hNo.1
    have hSpec := overflow_clampToGround_spec (Overflow.beforeLanding T f.now f.delta s)
    rw [← hStep, overflow_beforeLanding_config] at hSpec
    intro s1 h
    simp only [Overflow.updateTrace, List.mem_cons] at h
    rcases h with h | h
    · rw [h]; exact hSpec
    · have hRest := ih (Overflow.update T f.now f.delta s) hNo.2 s1 h
      rw [hSpec.1] at hRest
      exact hRest

/-- Witness of C4 as amended: a player one unit above the ground height 10, in the
world without objects, is updated twice with `delta = 1/8`; after neither update
is `position.y < 10`. -/
theorem never_below_ground_witness :
    Overflow.noLandingDuring Overflow.emptyWorld
      [⟨Overflow.Num.fin 0, Overflow.Num.fin (1 / 8)⟩, ⟨Overflow.Num.fin 0, Overflow.Num.fin (1 / 8)⟩]
      (Overflow.standingAt ⟨Overflow.Num.fin 0, Overflow.Num.fin 11, Overflow.Num.fin 0⟩
        (Overflow.Num.fin 0)) = true ∧
    ∀ s1 ∈ Overflow.updateTrace Overflow.emptyWorld
      [⟨Overflow.Num.fin 0, Overflow.Num.fin (1 / 8)⟩, ⟨Overflow.Num.fin 0, Overflow.Num.fin (1 / 8)⟩]
      (Overflow.standingAt ⟨Overflow.Num.fin 0, Overflow.Num.fin 11, Overflow.Num.fin 0⟩
        (Overflow.Num.fin 0)),
      Overflow.Num.lt s1.controls.yawObject.position.y (Overflow.Num.fin 10) = false := by
  have hNo : Overflow.noLandingDuring Overflow.emptyWorld
      [⟨Overflow.Num.fin 0, Overflow.Num.fin (1 / 8)⟩, ⟨Overflow.Num.fin 0, Overflow.Num.fin (1 / 8)⟩]
      (Overflow.standingAt ⟨Overflow.Num.fin 0, Overflow.Num.fin 11, Overflow.Num.fin 0⟩
        (Overflow.Num.fin 0)) = true := by
    simp [Overflow.noLandingDuring, overflow_emptyWorld_no_landing]
  exact ⟨hNo, fun s1 h => (never_below_ground Overflow.emptyWorld _ _ hNo s1 h).2.1⟩

@[simp]
theorem beforeLanding_isCrouching (T : Engine) (now delta : ℚ) (s : UserMovementService) :
    (beforeLanding T now delta s).isCrouching = s.isCrouching := by
  simp [beforeLanding, afterHorizontal, afterInput]


/-- The landing probe when the downward ray hits something: the nearest hit decides. -/
theorem checkTopCollision_cons (T : Engine) (p : UserMovementService) (hit : Intersection)
    (rest : List Intersection)
    (h : T.intersectObjects p.controls.yawObject.position ⟨0, -1, 0⟩ p.landableObjects false
      = hit :: rest) :
    checkTopCollision T p
      = if |p.controls.yawObject.position.y - getCurrentPlayerHeight p / 2 - hit.point.y| < 2
            ∧ p.velocity.y ≤ 0 then
          some (hit.point.y + getCurrentPlayerHeight p / 2)
        else none := by
  simp [checkTopCollision, h]

/-- The landing probe when the downward ray hits nothing. -/
theorem checkTopCollision_nil (T : Engine) (p : UserMovementService)
    (h : T.intersectObjects p.controls.yawObject.position ⟨0, -1, 0⟩ p.landableObjects false = []) :
    checkTopCollision T p = none := by
  simp [checkTopCollision, h]

/-- C5: let `p` be the state of an update after the vertical translation and
`currentHeight` be `CROUCH_HEIGHT` when crouching, else `PLAYER_HEIGHT`.  If the
downward probe against the landable collection has a nearest hit with surface
height `s` such that `|(p.position.y - currentHeight/2) - s| < 2`, and
`p.velocity.y ≤ 0`, the update ends with `position.y = s + currentHeight/2`,
`velocity.y = 0`, `canJump = true` and `isJumping = false`.  When the nearest hit
is 2 or more units from the player's bottom, or there is no hit, or
`p.velocity.y > 0`, the probe `checkTopCollision` returns `null`. -/
theorem landing_snap (T : Engine) (now delta : ℚ) (s : UserMovementService) :
    (∀ (hit : Intersection) (rest : List Intersection),
      T.intersectObjects (beforeLanding T now delta s).controls.yawObject.position ⟨0, -1, 0⟩
          (beforeLanding T now delta s).landableObjects false = hit :: rest →
      |((beforeLanding T now delta s).controls.yawObject.position.y
          - (if s.isCrouching = true then s.config.CROUCH_HEIGHT else s.config.PLAYER_HEIGHT) / 2)
        - hit.point.y| < 2 →
      (beforeLanding T now delta s).velocity.y ≤ 0 →
      (update T now delta s).controls.yawObject.position.y
        = hit.point.y
          + (if s.isCrouching = true then s.config.CROUCH_HEIGHT else s.config.PLAYER_HEIGHT) / 2 ∧
      (update T now delta s).velocity.y = 0 ∧
      (update T now delta s).canJump = true ∧
      (update T now delta s).isJumping = false) ∧
    (∀ (hit : Intersection) (rest : List Intersection),
      T.intersectObjects (beforeLanding T now delta s).controls.yawObject.position ⟨0, -1, 0⟩
          (beforeLanding T now delta s).landableObjects false = hit :: rest →
      2 ≤ |((beforeLanding T now delta s).controls.yawObject.position.y
          - (if s.isCrouching = true then s.config.CROUCH_HEIGHT else s.config.PLAYER_HEIGHT) / 2)
        - hit.point.y| →
      checkTopCollision T (beforeLanding T now delta s) = none) ∧
    (T.intersectObjects (beforeLanding T now delta s).controls.yawObject.position ⟨0, -1, 0⟩
          (beforeLanding T now delta s).landableObjects false = [] →
      checkTopCollision T (beforeLanding T now delta s) = none) ∧
    ((beforeLanding T now delta s).velocity.y > 0 →
      checkTopCollision T (beforeLanding T now delta s) = none) := by
  have hH : getCurrentPlayerHeight (beforeLanding T now delta s)
      = if s.isCrouching = true then s.config.CROUCH_HEIGHT else s.config.PLAYER_HEIGHT := by
    simp [getCurrentPlayerHeight]
  refine ⟨?_, ?_, ?_, ?_⟩
  · intro hit rest hHits hNear hFall
    have hProbe := checkTopCollision_cons T _ hit rest hHits
    rw [hH, if_pos ⟨hNear, hFall⟩] at hProbe
    unfold update resolveLanding
    rw [hProbe]
    simp only [if_pos hFall]
    exact ⟨rfl, rfl, rfl, rfl⟩
  · intro hit rest hHits hFar
    rw [checkTopCollision_cons T _ hit rest hHits, hH, if_neg]
    exact fun h => absurd h.1 (not_lt.mpr hFar)
  · exact checkTopCollision_nil T _
  · intro hUp
    cases hHits : T.intersectObjects (beforeLanding T now delta s).controls.yawObject.position
        ⟨0, -1, 0⟩ (beforeLanding T now delta s).landableObjects false with
    | nil => exact checkTopCollision_nil T _ hHits
    | cons hit rest =>
      rw [checkTopCollision_cons T _ hit rest hHits, if_neg]
      exact fun h => absurd h.2 (not_le.mpr hUp)

/-- Witness of C5: body height 8, surface top 40, a player at height 50 falling with
`velocity.y = -20`, one update with `delta = 1/16`: after the vertical translation
the player is at height 45.625 with `velocity.y = -70`, its bottom is 1.625 above
the surface, and the update ends with `position.y = 44`, `velocity.y = 0`,
`canJump = true` and `isJumping = false`. -/
theorem landing_snap_witness :
    (beforeLanding Scene.platformWorld 0 (1 / 16) Scene.falling).controls.yawObject.position
      = ⟨0, 365 / 8, 0⟩ ∧
    (beforeLanding Scene.platformWorld 0 (1 / 16) Scene.falling).velocity.y = -70 ∧
    (update Scene.platformWorld 0 (1 / 16) Scene.falling).controls.yawObject.position.y = 44 ∧
    (update Scene.platformWorld 0 (1 / 16) Scene.falling).velocity.y = 0 ∧
    (update Scene.platformWorld 0 (1 / 16) Scene.falling).canJump = true ∧
    (update Scene.platformWorld 0 (1 / 16) Scene.falling).isJumping = false := by
  have hPos : (beforeLanding Scene.platformWorld 0 (1 / 16) Scene.falling).controls.yawObject.position
      = ⟨0, 365 / 8, 0⟩ := by
    simp [beforeLanding, afterHorizontal, moveVertical, stopAtCeiling, moveHorizontal, canMoveX, canMoveZ,
      afterInput, applyInput, applyDamping, applyGravity, getGroundHeight, getCurrentPlayerHeight,
      stampTime, frameDelta, Scene.platformWorld, Scene.engine, Scene.falling, Scene.freshAt,
      Scene.noOptions, Scene.controlsAt, constructor, initEyeHeights, orDefault, boolToNumber,
      Object3D.translateX, Object3D.translateZ, Object3D.translateOnAxis, Vector3.add,
      Vector3.multiplyScalar, Scene.applyQuaternion, Scene.identity]
    norm_num
  have hVel : (beforeLanding Scene.platformWorld 0 (1 / 16) Scene.falling).velocity.y = -70 := by
    simp [beforeLanding, afterHorizontal, moveVertical, stopAtCeiling, moveHorizontal, canMoveX, canMoveZ,
      afterInput, applyInput, applyDamping, applyGravity, getGroundHeight, getCurrentPlayerHeight,
      stampTime, frameDelta, Scene.platformWorld, Scene.engine, Scene.falling, Scene.freshAt,
      Scene.noOptions, Scene.controlsAt, constructor, initEyeHeights, orDefault, boolToNumber,
      Object3D.translateX, Object3D.translateZ, Object3D.translateOnAxis, Vector3.add,
      Vector3.multiplyScalar, Scene.applyQuaternion, Scene.identity]
    norm_num
  have hLand : (beforeLanding Scene.platformWorld 0 (1 / 16) Scene.falling).landableObjects
      = [Scene.platform] := by
    simp [beforeLanding, afterHorizontal, afterInput, Scene.falling, Scene.freshAt, constructor, initEyeHeights]
  have hStand : Scene.falling.isCrouching = false := by
    simp [Scene.falling, Scene.freshAt, constructor, initEyeHeights]
  have hHeight : Scene.falling.config.PLAYER_HEIGHT = 8 := by
    simp [Scene.falling, Scene.freshAt, Scene.noOptions, constructor, initEyeHeights, orDefault]
  have h := (landing_snap Scene.platformWorld 0 (1 / 16) Scene.falling).1
    ⟨365 / 8 - 40, ⟨0, 40, 0⟩, Scene.platform⟩ []
    (by rw [hPos, hLand]; simp [Scene.platformWorld, Scene.engine]; norm_num)
    (by rw [hPos, hStand, hHeight]; norm_num [abs_lt])
    (by rw [hVel]; norm_num)
  rw [hStand, hHeight] at h
  refine ⟨hPos, hVel, ?_, h.2.1, h.2.2.1, h.2.2.2⟩
  rw [h.1]
  norm_num

/-- In the room scene the rising player has `velocity.y = 200` after the gravity step of
an update with `delta = 1/16`, and the overhead check of that update reports
blocked. -/
theorem rising_is_blocked :
    (applyGravity (Scene.roomWorld (99 / 2)) (frameDelta 0 (1 / 16) Scene.rising)
      (stampTime 0 (1 / 16) Scene.rising)).velocity.y = 200 ∧
    checkOverheadCollision (Scene.roomWorld (99 / 2))
      (afterHorizontal (Scene.roomWorld (99 / 2)) 0 (1 / 16) Scene.rising) = true := by
  refine ⟨?_, ?_⟩
  all_goals
    simp [afterHorizontal, checkOverheadCollision, moveHorizontal,
      canMoveX, canMoveZ, afterInput, applyInput, applyDamping, applyGravity, getGroundHeight,
      getCurrentPlayerHeight, stampTime, frameDelta, Scene.roomWorld, Scene.engine, Scene.rising,
      Scene.freshAt, Scene.noOptions, Scene.controlsAt, Scene.platform, Scene.slabAt, constructor,
      initEyeHeights, orDefault, boolToNumber, Object3D.translateX, Object3D.translateZ,
      Object3D.translateOnAxis, Vector3.add, Vector3.multiplyScalar, Scene.applyQuaternion,
      Scene.identity]
  all_goals norm_num

/-! ## Ceiling -/

/-- The horizontal step keeps the height of a player whose local x and z axes are
horizontal. -/
theorem moveHorizontal_position_y (T : Engine) (delta : ℚ) (s : UserMovementService)
    (hX : (T.applyQuaternion ⟨1, 0, 0⟩ s.controls.yawObject.quaternion).y = 0)
    (hZ : (T.applyQuaternion ⟨0, 0, 1⟩ s.controls.yawObject.quaternion).y = 0) :
    (moveHorizontal T delta s).controls.yawObject.position.y = s.controls.yawObject.position.y := by
  unfold moveHorizontal
  dsimp only
  split_ifs <;>
    simp [Object3D.translateX, Object3D.translateZ, Object3D.translateOnAxis, Vector3.add,
      Vector3.multiplyScalar, hX, hZ]

/-- The vertical velocity at the overhead check is the one left by the gravity step. -/
theorem afterHorizontal_velocity_y (T : Engine) (now delta : ℚ) (s : UserMovementService) :
    (afterHorizontal T now delta s).velocity.y
      = (applyGravity T (frameDelta now delta s) (stampTime now delta s)).velocity.y := by
  simp [afterHorizontal, afterInput]

/-- C10, counterexample: the player rising from the platform (top 40) through height
45, half a unit under a slab, is updated with `delta = 1/16`.  After the gravity
step `velocity.y` is 200, the overhead check reports blocked, and the update ends
with `position.y = 44`, not with the value 45 it had before the update: the
landing resolution of the same frame snaps the stopped player onto the platform. -/
theorem ceiling_keeps_height_counterexample :
    (applyGravity (Scene.roomWorld (99 / 2)) (frameDelta 0 (1 / 16) Scene.rising)
      (stampTime 0 (1 / 16) Scene.rising)).velocity.y = 200 ∧
    checkOverheadCollision (Scene.roomWorld (99 / 2))
      (afterHorizontal (Scene.roomWorld (99 / 2)) 0 (1 / 16) Scene.rising) = true ∧
    Scene.rising.controls.yawObject.position.y = 45 ∧
    (update (Scene.roomWorld (99 / 2)) 0 (1 / 16) Scene.rising).controls.yawObject.position.y = 44 ∧
    (update (Scene.roomWorld (99 / 2)) 0 (1 / 16) Scene.rising).velocity.y = 0 := by
  refine ⟨?_, ?_, ?_, ?_, ?_⟩
  all_goals
    simp [update, resolveLanding, checkTopCollision, clampToGround, landAt, beforeLanding,
      afterHorizontal, moveVertical, stopAtCeiling, checkOverheadCollision, moveHorizontal,
      canMoveX, canMoveZ, afterInput, applyInput, applyDamping, applyGravity, getGroundHeight,
      getCurrentPlayerHeight, stampTime, frameDelta, Scene.roomWorld, Scene.engine, Scene.rising,
      Scene.freshAt, Scene.noOptions, Scene.controlsAt, Scene.platform, Scene.slabAt, constructor,
      initEyeHeights, orDefault, boolToNumber, Object3D.translateX, Object3D.translateZ,
      Object3D.translateOnAxis, Vector3.add, Vector3.multiplyScalar, Scene.applyQuaternion,
      Scene.identity]
  all_goals norm_num

/-- C10, as amended: in an update in which the vertical velocity is positive after the
gravity step and the overhead check reports blocked, the update ends with
`velocity.y = 0` and the vertical translation of the frame displaces the player by
nothing.  The landing resolution of the same frame then decides `position.y`: it
is the landing height when the landing probe returns one, `GROUND_HEIGHT` when
the probe returns `null` and the player is at or below `GROUND_HEIGHT`, and
otherwise the height after the horizontal step; that height is the one before the
update when the player's local x and z axes are horizontal. -/
theorem ceiling_stops_ascent (T : Engine) (now delta : ℚ) (s : UserMovementService)
    (hUp : (applyGravity T (frameDelta now delta s) (stampTime now delta s)).velocity.y > 0)
    (hBlocked : checkOverheadCollision T (afterHorizontal T now delta s) = true) :
    (update T now delta s).velocity.y = 0 ∧
    (beforeLanding T now delta s).controls.yawObject.position
      = (afterHorizontal T now delta s).controls.yawObject.position ∧
    (update T now delta s).controls.yawObject.position.y
      = (match checkTopCollision T (beforeLanding T now delta s) with
        | some landingHeight => landingHeight
        | none =>
          if (afterHorizontal T now delta s).controls.yawObject.position.y ≤ s.config.GROUND_HEIGHT
          then s.config.GROUND_HEIGHT
          else (afterHorizontal T now delta s).controls.yawObject.position.y) ∧
    ((T.applyQuaternion ⟨1, 0, 0⟩ s.controls.yawObject.quaternion).y = 0 →
      (T.applyQuaternion ⟨0, 0, 1⟩ s.controls.yawObject.quaternion).y = 0 →
      checkTopCollision T (beforeLanding T now delta s) = none →
      s.controls.yawObject.position.y > s.config.GROUND_HEIGHT →
      (update T now delta s).controls.yawObject.position.y = s.controls.yawObject.position.y) := by
  have hStop : stopAtCeiling T (afterHorizontal T now delta s)
      = { afterHorizontal T now delta s with velocity.y := 0 } := by
    unfold stopAtCeiling
    rw [if_pos ⟨by rw [afterHorizontal_velocity_y]; exact hUp, hBlocked⟩]
  have hVel : (beforeLanding T now delta s).velocity.y = 0 := by
    unfold beforeLanding
    rw [hStop]
    rfl
  have hPos : (beforeLanding T now delta s).controls.yawObject.position
      = (afterHorizontal T now delta s).controls.yawObject.position := by
    unfold beforeLanding
    rw [hStop]
    simp [moveVertical]
  have hCfg : (beforeLanding T now delta s).config = s.config := beforeLanding_config T now delta s
  have hY : (update T now delta s).controls.yawObject.position.y
      = (match checkTopCollision T (beforeLanding T now delta s) with
        | some landingHeight => landingHeight
        | none =>
          if (afterHorizontal T now delta s).controls.yawObject.position.y ≤ s.config.GROUND_HEIGHT
          then s.config.GROUND_HEIGHT
          else (afterHorizontal T now delta s).controls.yawObject.position.y) := by
    unfold update resolveLanding
    cases checkTopCollision T (beforeLanding T now delta s) with
    | some landingHeight =>
      simp only [hVel, le_refl, if_true]
      rfl
    | none =>
      simp only [clampToGround, hPos, hCfg]
      split_ifs <;> simp [landAt, hPos]
  refine ⟨?_, hPos, hY, ?_⟩
  · unfold update resolveLanding clampToGround landAt
    split <;> split_ifs <;> first | rfl | exact hVel
  · intro hX hZ hNone hAbove
    have hLevel : (afterHorizontal T now delta s).controls.yawObject.position.y
        = s.controls.yawObject.position.y := by
      unfold afterHorizontal
      rw [moveHorizontal_position_y T _ _ (by simpa [afterInput] using hX)
        (by simpa [afterInput] using hZ)]
      simp [afterInput]
    rw [hY, hNone]
    simp only [hLevel]
    rw [if_neg (not_le.mpr hAbove)]

/-- Witness of C10 as amended: the rising player of the room scene, updated with
`delta = 1/16`, ends the update with `velocity.y = 0`, and the vertical
translation of that frame does not move it. -/
theorem ceiling_stops_ascent_witness :
    (update (Scene.roomWorld (99 / 2)) 0 (1 / 16) Scene.rising).velocity.y = 0 ∧
    (beforeLanding (Scene.roomWorld (99 / 2)) 0 (1 / 16) Scene.rising).controls.yawObject.position
      = (afterHorizontal (Scene.roomWorld (99 / 2)) 0 (1 / 16)
          Scene.rising).controls.yawObject.position :=
  have h := ceiling_stops_ascent (Scene.roomWorld (99 / 2)) 0 (1 / 16) Scene.rising
    (by rw [rising_is_blocked.1]; norm_num) rising_is_blocked.2
  ⟨h.1, h.2.1⟩

/-! ## Horizontal motion -/

/-- The steps of `update` before the horizontal step do not move or turn the player. -/
theorem afterInput_yawObject (T : Engine) (now delta : ℚ) (s : UserMovementService) :
    (afterInput T now delta s).controls.yawObject.position = s.controls.yawObject.position ∧
    (afterInput T now delta s).controls.yawObject.quaternion
      = s.controls.yawObject.quaternion := by
  simp [afterInput]

/-- The steps of `update` after the horizontal step keep the horizontal velocity and the
x and z coordinates of the position. -/
theorem update_after_horizontal (T : Engine) (now delta : ℚ) (s : UserMovementService) :
    (update T now delta s).velocity.x = (afterHorizontal T now delta s).velocity.x ∧
    (update T now delta s).velocity.z = (afterHorizontal T now delta s).velocity.z ∧
    (update T now delta s).controls.yawObject.position.x
      = (afterHorizontal T now delta s).controls.yawObject.position.x ∧
    (update T now delta s).controls.yawObject.position.z
      = (afterHorizontal T now delta s).controls.yawObject.position.z := by
  simp [update, beforeLanding]

/-- C6: let `s1` be the state of `update(delta)` after damping and input accumulation,
with `velocity.x` and `velocity.z` both nonzero.  If the collision check for the x
direction reports blocked and the check for the z direction reports clear, then
after the update `velocity.x` is 0, `velocity.z` is the one of `s1`, and the
horizontal step has moved the player from its position before the update by
exactly `s1.velocity.z * delta` along its local z axis and not along its local
x axis.  The same holds with x and z exchanged. -/
theorem axis_independence (T : Engine) (now delta : ℚ) (s : UserMovementService)
    (hX : (afterInput T now delta s).velocity.x ≠ 0)
    (hZ : (afterInput T now delta s).velocity.z ≠ 0) :
    (isBlocked T (afterInput T now delta s) (xDirection T (afterInput T now delta s)) = true →
      isBlocked T (afterInput T now delta s) (zDirection T (afterInput T now delta s)) = false →
      (update T now delta s).velocity.x = 0 ∧
      (update T now delta s).velocity.z = (afterInput T now delta s).velocity.z ∧
      (afterHorizontal T now delta s).controls.yawObject.position
        = s.controls.yawObject.position.add
            ((T.applyQuaternion ⟨0, 0, 1⟩ s.controls.yawObject.quaternion).multiplyScalar
              ((afterInput T now delta s).velocity.z * frameDelta now delta s)) ∧
      (update T now delta s).controls.yawObject.position.x
        = s.controls.yawObject.position.x
          + (T.applyQuaternion ⟨0, 0, 1⟩ s.controls.yawObject.quaternion).x
            * ((afterInput T now delta s).velocity.z * frameDelta now delta s) ∧
      (update T now delta s).controls.yawObject.position.z
        = s.controls.yawObject.position.z
          + (T.applyQuaternion ⟨0, 0, 1⟩ s.controls.yawObject.quaternion).z
            * ((afterInput T now delta s).velocity.z * frameDelta now delta s)) ∧
    (isBlocked T (afterInput T now delta s) (zDirection T (afterInput T now delta s)) = true →
      isBlocked T (afterInput T now delta s) (xDirection T (afterInput T now delta s)) = false →
      (update T now delta s).velocity.z = 0 ∧
      (update T now delta s).velocity.x = (afterInput T now delta s).velocity.x ∧
      (afterHorizontal T now delta s).controls.yawObject.position
        = s.controls.yawObject.position.add
            ((T.applyQuaternion ⟨1, 0, 0⟩ s.controls.yawObject.quaternion).multiplyScalar
              ((afterInput T now delta s).velocity.x * frameDelta now delta s)) ∧
      (update T now delta s).controls.yawObject.position.x
        = s.controls.yawObject.position.x
          + (T.applyQuaternion ⟨1, 0, 0⟩ s.controls.yawObject.quaternion).x
            * ((afterInput T now delta s).velocity.x * frameDelta now delta s) ∧
      (update T now delta s).controls.yawObject.position.z
        = s.controls.yawObject.position.z
          + (T.applyQuaternion ⟨1, 0, 0⟩ s.controls.yawObject.quaternion).z
            * ((afterInput T now delta s).velocity.x * frameDelta now delta s)) := by
  obtain ⟨hP, hQ⟩ := afterInput_yawObject T now delta s
  obtain ⟨hUx, hUz, hUpx, hUpz⟩ := update_after_horizontal T now delta s
  constructor
  · intro hBX hCZ
    have hStep : afterHorizontal T now delta s
        = { afterInput T now delta s with
            velocity.x := 0
            controls.yawObject := (afterInput T now delta s).controls.yawObject.translateZ T
              ((afterInput T now delta s).velocity.z * frameDelta now delta s) } := by
      simp [afterHorizontal, moveHorizontal, canMoveX, canMoveZ, hX, hZ, hBX, hCZ]
    have hPos : (afterHorizontal T now delta s).controls.yawObject.position
        = s.controls.yawObject.position.add
            ((T.applyQuaternion ⟨0, 0, 1⟩ s.controls.yawObject.quaternion).multiplyScalar
              ((afterInput T now delta s).velocity.z * frameDelta now delta s)) := by
      rw [hStep]
      simp [Object3D.translateZ, Object3D.translateOnAxis, hP, hQ]
    refine ⟨?_, ?_, hPos, ?_, ?_⟩
    · rw [hUx, hStep]
    · rw [hUz, hStep]
    · rw [hUpx, hPos]; rfl
    · rw [hUpz, hPos]; rfl
  · intro hBZ hCX
    have hStep : afterHorizontal T now delta s
        = { afterInput T now delta s with
            velocity.z := 0
            controls.yawObject := (afterInput T now delta s).controls.yawObject.translateX T
              ((afterInput T now delta s).velocity.x * frameDelta now delta s) } := by
      simp [afterHorizontal, moveHorizontal, canMoveX, canMoveZ, hX, hZ, hBZ, hCX]
    have hPos : (afterHorizontal T now delta s).controls.yawObject.position
        = s.controls.yawObject.position.add
            ((T.applyQuaternion ⟨1, 0, 0⟩ s.controls.yawObject.quaternion).multiplyScalar
              ((afterInput T now delta s).velocity.x * frameDelta now delta s)) := by
      rw [hStep]
      simp [Object3D.translateX, Object3D.translateOnAxis, hP, hQ]
    refine ⟨?_, ?_, hPos, ?_, ?_⟩
    · rw [hUz, hStep]
    · rw [hUx, hStep]
    · rw [hUpx, hPos]; rfl
    · rw [hUpz, hPos]; rfl

/-- In the pillar scenes, the sliding player updated with `delta = 1/16` has horizontal
velocity (6, 6) after damping and input, whatever the direction of the pillar. -/
theorem sliding_afterInput (ahead : Vector3) :
    (afterInput (Scene.pillarWorld ahead) 0 (1 / 16) Scene.sliding).velocity = ⟨6, 0, 6⟩ ∧
    (afterInput (Scene.pillarWorld ahead) 0 (1 / 16) Scene.sliding).isCrouching = false ∧
    (afterInput (Scene.pillarWorld ahead) 0 (1 / 16) Scene.sliding).collidableObjects
      = [Scene.pillar] ∧
    (afterInput (Scene.pillarWorld ahead) 0 (1 / 16) Scene.sliding).controls.yawObject.quaternion
      = Scene.identity := by
  refine ⟨?_, ?_, ?_, ?_⟩
  all_goals
    simp [afterInput, applyInput, applyDamping, applyGravity, getGroundHeight,
      getCurrentPlayerHeight, stampTime, frameDelta, Scene.pillarWorld, Scene.engine,
      Scene.sliding, Scene.freshAt, Scene.noOptions, Scene.controlsAt, constructor,
      initEyeHeights, orDefault, boolToNumber]
  all_goals norm_num

/-- In the scene with the pillar along the axis `ahead`, the sliding player is blocked
along `ahead` and clear along the other horizontal axis. -/
theorem sliding_blocked :
    isBlocked (Scene.pillarWorld ⟨1, 0, 0⟩)
      (afterInput (Scene.pillarWorld ⟨1, 0, 0⟩) 0 (1 / 16) Scene.sliding)
      (xDirection (Scene.pillarWorld ⟨1, 0, 0⟩)
        (afterInput (Scene.pillarWorld ⟨1, 0, 0⟩) 0 (1 / 16) Scene.sliding)) = true ∧
    isBlocked (Scene.pillarWorld ⟨1, 0, 0⟩)
      (afterInput (Scene.pillarWorld ⟨1, 0, 0⟩) 0 (1 / 16) Scene.sliding)
      (zDirection (Scene.pillarWorld ⟨1, 0, 0⟩)
        (afterInput (Scene.pillarWorld ⟨1, 0, 0⟩) 0 (1 / 16) Scene.sliding)) = false ∧
    isBlocked (Scene.pillarWorld ⟨0, 0, 1⟩)
      (afterInput (Scene.pillarWorld ⟨0, 0, 1⟩) 0 (1 / 16) Scene.sliding)
      (zDirection (Scene.pillarWorld ⟨0, 0, 1⟩)
        (afterInput (Scene.pillarWorld ⟨0, 0, 1⟩) 0 (1 / 16) Scene.sliding)) = true ∧
    isBlocked (Scene.pillarWorld ⟨0, 0, 1⟩)
      (afterInput (Scene.pillarWorld ⟨0, 0, 1⟩) 0 (1 / 16) Scene.sliding)
      (xDirection (Scene.pillarWorld ⟨0, 0, 1⟩)
        (afterInput (Scene.pillarWorld ⟨0, 0, 1⟩) 0 (1 / 16) Scene.sliding)) = false := by
  refine ⟨?_, ?_, ?_, ?_⟩
  all_goals
    simp [isBlocked, xDirection, zDirection, checkCollision, probeDirections, checkCollisionRay,
      checkHeights, afterInput, applyInput, applyDamping, applyGravity, getGroundHeight,
      getCurrentPlayerHeight, stampTime, frameDelta, Scene.pillarWorld, Scene.engine,
      Scene.sliding, Scene.freshAt, Scene.noOptions, Scene.controlsAt, constructor,
      initEyeHeights, orDefault, boolToNumber, Scene.applyQuaternion, Scene.applyAxisAngle,
      Scene.identity, Math_PI]
  all_goals norm_num

/-- Witness of C6: the sliding player (horizontal velocity (6, 6) after damping, at
(0, 10, 0), not rotated) is updated with `delta = 1/16`.  With the pillar along
x it ends with `velocity.x = 0`, `velocity.z = 6` and has moved by 3/8 along z
only; with the pillar along z it ends with `velocity.z = 0`, `velocity.x = 6` and
has moved by 3/8 along x only. -/
theorem axis_independence_witness :
    ((update (Scene.pillarWorld ⟨1, 0, 0⟩) 0 (1 / 16) Scene.sliding).velocity.x = 0 ∧
      (update (Scene.pillarWorld ⟨1, 0, 0⟩) 0 (1 / 16) Scene.sliding).velocity.z = 6 ∧
      (afterHorizontal (Scene.pillarWorld ⟨1, 0, 0⟩) 0 (1 / 16)
        Scene.sliding).controls.yawObject.position = ⟨0, 10, 3 / 8⟩) ∧
    ((update (Scene.pillarWorld ⟨0, 0, 1⟩) 0 (1 / 16) Scene.sliding).velocity.z = 0 ∧
      (update (Scene.pillarWorld ⟨0, 0, 1⟩) 0 (1 / 16) Scene.sliding).velocity.x = 6 ∧
      (afterHorizontal (Scene.pillarWorld ⟨0, 0, 1⟩) 0 (1 / 16)
        Scene.sliding).controls.yawObject.position = ⟨3 / 8, 10, 0⟩) := by
  have hV1 := (sliding_afterInput ⟨1, 0, 0⟩).1
  have hV2 := (sliding_afterInput ⟨0, 0, 1⟩).1
  have hA := (axis_independence (Scene.pillarWorld ⟨1, 0, 0⟩) 0 (1 / 16) Scene.sliding
    (by rw [hV1]; norm_num) (by rw [hV1]; norm_num)).1 sliding_blocked.1 sliding_blocked.2.1
  have hB := (axis_independence (Scene.pillarWorld ⟨0, 0, 1⟩) 0 (1 / 16) Scene.sliding
    (by rw [hV2]; norm_num) (by rw [hV2]; norm_num)).2 sliding_blocked.2.2.1 sliding_blocked.2.2.2
  refine ⟨⟨hA.1, ?_, ?_⟩, ⟨hB.1, ?_, ?_⟩⟩
  · rw [hA.2.1, hV1]
  · rw [hA.2.2.1, hV1]
    simp [frameDelta, Scene.sliding, Scene.freshAt, Scene.controlsAt, Scene.pillarWorld,
      Scene.engine, Scene.applyQuaternion, Scene.identity, constructor, initEyeHeights,
      Vector3.add, Vector3.multiplyScalar]
    norm_num
  · rw [hB.2.1, hV2]
  · rw [hB.2.2.1, hV2]
    simp [frameDelta, Scene.sliding, Scene.freshAt, Scene.controlsAt, Scene.pillarWorld,
      Scene.engine, Scene.applyQuaternion, Scene.identity, constructor, initEyeHeights,
      Vector3.add, Vector3.multiplyScalar]
    norm_num

/-! ## Damping -/

/-- One update of a player with no movement key pressed and no blocked axis: each
horizontal velocity component loses the fraction `VELOCITY_DAMPING * delta`. -/
theorem update_velocity_idle (T : Engine) (now delta : ℚ) (s : UserMovementService)
    (hDelta : delta ≠ 0)
    (hF : s.moveForward = false) (hB : s.moveBackward = false)
    (hL : s.moveLeft = false) (hR : s.moveRight = false)
    (hFreeX : canMoveX T (afterInput T now delta s) = true)
    (hFreeZ : canMoveZ T (afterInput T now delta s) = true) :
    (update T now delta s).velocity.x
      = s.velocity.x * (1 - s.config.VELOCITY_DAMPING * delta) ∧
    (update T now delta s).velocity.z
      = s.velocity.z * (1 - s.config.VELOCITY_DAMPING * delta) := by
  have hIn : (afterInput T now delta s).velocity.x
        = s.velocity.x - s.velocity.x * s.config.VELOCITY_DAMPING * delta ∧
      (afterInput T now delta s).velocity.z
        = s.velocity.z - s.velocity.z * s.config.VELOCITY_DAMPING * delta := by
    simp [afterInput, applyInput, applyDamping, frameDelta, hDelta, hF, hB, hL, hR]
  have hHor : (afterHorizontal T now delta s).velocity = (afterInput T now delta s).velocity := by
    simp [afterHorizontal, moveHorizontal, hFreeX, hFreeZ]
  obtain ⟨hUx, hUz, _, _⟩ := update_after_horizontal T now delta s
  rw [hUx, hUz, hHor, hIn.1, hIn.2]
  constructor <;> ring

/-- The movement flags and the configuration are not changed by `update`. -/
theorem update_flags_config (T : Engine) (now delta : ℚ) (s : UserMovementService) :
    (update T now delta s).moveForward = s.moveForward ∧
    (update T now delta s).moveBackward = s.moveBackward ∧
    (update T now delta s).moveLeft = s.moveLeft ∧
    (update T now delta s).moveRight = s.moveRight ∧
    (update T now delta s).config = s.config := by
  simp [update, beforeLanding, afterHorizontal, afterInput]

/-- The movement flags and the configuration are not changed by repeated updates. -/
theorem iterate_flags_config (T : Engine) (now delta : ℚ) (s : UserMovementService) (n : ℕ) :
    ((update T now delta)^[n] s).moveForward = s.moveForward ∧
    ((update T now delta)^[n] s).moveBackward = s.moveBackward ∧
    ((update T now delta)^[n] s).moveLeft = s.moveLeft ∧
    ((update T now delta)^[n] s).moveRight = s.moveRight ∧
    ((update T now delta)^[n] s).config = s.config := by
  induction n with
  | zero => simp
  | succ n ih =>
    rw [Function.iterate_succ_apply']
    obtain ⟨h1, h2, h3, h4, h5⟩ := update_flags_config T now delta ((update T now delta)^[n] s)
    obtain ⟨i1, i2, i3, i4, i5⟩ := ih
    exact ⟨h1.trans i1, h2.trans i2, h3.trans i3, h4.trans i4, h5.trans i5⟩

/-- In the world without objects no ray of the general check is blocking. -/
theorem emptyWorld_ray_clear (s : UserMovementService) (heights : List ℚ) (dir : Vector3) :
    checkCollisionRay Scene.emptyWorld s dir heights = false := by
  induction heights generalizing dir with
  | nil => rfl
  | cons h rest ih =>
    unfold checkCollisionRay
    simpa [Scene.emptyWorld, Scene.engine] using ih dir

/-- In the world without objects no direction is blocked, standing or crouching. -/
theorem emptyWorld_not_blocked (s : UserMovementService) (dir : Vector3) :
    isBlocked Scene.emptyWorld s dir = false := by
  unfold isBlocked
  split_ifs
  · simp [checkCrouchCollision, Scene.emptyWorld, Scene.engine]
  · simp [checkCollision, probeDirections, emptyWorld_ray_clear]

/-- In the world without objects both horizontal axes are free. -/
theorem emptyWorld_canMove (s : UserMovementService) :
    canMoveX Scene.emptyWorld s = true ∧ canMoveZ Scene.emptyWorld s = true := by
  simp [canMoveX, canMoveZ, emptyWorld_not_blocked]

/-- C7, counterexample: the gliding player (horizontal velocity (16, 16), the default
`VELOCITY_DAMPING = 10`, no movement key pressed, no object in the world, so no
blocked axis) is updated with `delta = 1/4 > 0`.  Each horizontal component
becomes `16 * (1 - 10 * 1/4) = -24`: the sign is reversed and the magnitude has
grown from 16 to 24. -/
theorem damping_counterexample :
    (0 : ℚ) < 1 / 4 ∧
    Scene.gliding.config.VELOCITY_DAMPING = 10 ∧
    Scene.gliding.moveForward = false ∧ Scene.gliding.moveBackward = false ∧
    Scene.gliding.moveLeft = false ∧ Scene.gliding.moveRight = false ∧
    Scene.gliding.velocity = ⟨16, 0, 16⟩ ∧
    canMoveX Scene.emptyWorld (afterInput Scene.emptyWorld 0 (1 / 4) Scene.gliding) = true ∧
    canMoveZ Scene.emptyWorld (afterInput Scene.emptyWorld 0 (1 / 4) Scene.gliding) = true ∧
    (update Scene.emptyWorld 0 (1 / 4) Scene.gliding).velocity.x = -24 ∧
    (update Scene.emptyWorld 0 (1 / 4) Scene.gliding).velocity.z = -24 ∧
    ¬ (|(update Scene.emptyWorld 0 (1 / 4) Scene.gliding).velocity.x|
        < |Scene.gliding.velocity.x|) := by
  have hFree := emptyWorld_canMove (afterInput Scene.emptyWorld 0 (1 / 4) Scene.gliding)
  have hD : Scene.gliding.config.VELOCITY_DAMPING = 10 := by
    simp [Scene.gliding, Scene.freshAt, Scene.noOptions, constructor, initEyeHeights, orDefault]
    norm_num
  have hV : Scene.gliding.velocity = ⟨16, 0, 16⟩ := rfl
  have hU := update_velocity_idle Scene.emptyWorld 0 (1 / 4) Scene.gliding (by norm_num)
    rfl rfl rfl rfl hFree.1 hFree.2
  rw [hD, hV] at hU
  have hX : (update Scene.emptyWorld 0 (1 / 4) Scene.gliding).velocity.x = -24 := by
    rw [hU.1]; norm_num
  have hZ : (update Scene.emptyWorld 0 (1 / 4) Scene.gliding).velocity.z = -24 := by
    rw [hU.2]; norm_num
  refine ⟨by norm_num, hD, rfl, rfl, rfl, rfl, hV, hFree.1, hFree.2, hX, hZ, ?_⟩
  rw [hX, hV]
  norm_num [abs_of_neg, abs_of_pos]

/-- C7, as amended: let `delta > 0` and let all four movement flags be false.  At every
step `n` of a run of repeated `update(delta)` calls at which no axis is blocked,
each horizontal velocity component `v` becomes `v - v * VELOCITY_DAMPING * delta`,
the value the damping statement of the source assigns; the input step and the
horizontal step of that update do not change it.  Nothing is asserted about the
sign or the magnitude of the result. -/
theorem damping_formula (T : Engine) (now delta : ℚ) (s : UserMovementService)
    (hDelta : 0 < delta)
    (hF : s.moveForward = false) (hB : s.moveBackward = false)
    (hL : s.moveLeft = false) (hR : s.moveRight = false) (n : ℕ)
    (hFreeX : canMoveX T (afterInput T now delta ((update T now delta)^[n] s)) = true)
    (hFreeZ : canMoveZ T (afterInput T now delta ((update T now delta)^[n] s)) = true) :
    ((update T now delta)^[n + 1] s).velocity.x
      = ((update T now delta)^[n] s).velocity.x
        - ((update T now delta)^[n] s).velocity.x * s.config.VELOCITY_DAMPING * delta ∧
    ((update T now delta)^[n + 1] s).velocity.z
      = ((update T now delta)^[n] s).velocity.z
        - ((update T now delta)^[n] s).velocity.z * s.config.VELOCITY_DAMPING * delta := by
  obtain ⟨iF, iB, iL, iR, iC⟩ := iterate_flags_config T now delta s n
  have hStep := update_velocity_idle T now delta ((update T now delta)^[n] s) (ne_of_gt hDelta)
    (iF.trans hF) (iB.trans hB) (iL.trans hL) (iR.trans hR) hFreeX hFreeZ
  rw [iC] at hStep
  rw [Function.iterate_succ_apply', hStep.1, hStep.2]
  constructor <;> ring

/-- Witness of C7 as amended: the gliding player (horizontal velocity (16, 16), damping
10) in the world without objects, updated twice with `delta = 1/16`: the x
component is `16 - 16 * 10 * 1/16 = 6` after the first update and
`6 - 6 * 10 * 1/16 = 9/4` after the second. -/
theorem damping_formula_witness :
    ((update Scene.emptyWorld 0 (1 / 16))^[1] Scene.gliding).velocity.x = 6 ∧
    ((update Scene.emptyWorld 0 (1 / 16))^[2] Scene.gliding).velocity.x = 9 / 4 := by
  have hD : Scene.gliding.config.VELOCITY_DAMPING = 10 := by
    simp [Scene.gliding, Scene.freshAt, Scene.noOptions, constructor, initEyeHeights, orDefault]
    norm_num
  have hV : ((update Scene.emptyWorld 0 (1 / 16))^[0] Scene.gliding).velocity.x = 16 := rfl
  have h1 := (damping_formula Scene.emptyWorld 0 (1 / 16) Scene.gliding (by norm_num)
    rfl rfl rfl rfl 0 (emptyWorld_canMove _).1 (emptyWorld_canMove _).2).1
  rw [hV, hD] at h1
  have hV1 : ((update Scene.emptyWorld 0 (1 / 16))^[1] Scene.gliding).velocity.x = 6 := by
    rw [h1]; norm_num
  have h2 := (damping_formula Scene.emptyWorld 0 (1 / 16) Scene.gliding (by norm_num)
    rfl rfl rfl rfl 1 (emptyWorld_canMove _).1 (emptyWorld_canMove _).2).1
  rw [hV1, hD] at h2
  refine ⟨hV1, ?_⟩
  rw [h2]; norm_num

/-! ## Crouch-specific collision check -/

/-- The crouch-specific check on a nearest hit whose object declares a height. -/
theorem checkCrouchCollision_cons (T : Engine) (s : UserMovementService) (direction : Vector3)
    (hit : Intersection) (rest : List Intersection) (height : ℚ)
    (hHits : T.intersectObjects s.controls.yawObject.position (T.normalize direction)
      s.collidableObjects false = hit :: rest)
    (hHeight : hit.object.parameters = some ⟨some height⟩) :
    checkCrouchCollision T s direction
      = decide (hit.distance < s.config.PLAYER_RADIUS * 0.6 ∧
          ¬ (hit.object.position.y - height / 2
              - (s.controls.yawObject.position.y + s.config.CROUCH_HEIGHT / 2) > 0.3)) := by
  unfold checkCrouchCollision
  simp only [hHits, halfExtent, hHeight, Option.map, gtNum]
  by_cases hD : hit.distance < s.config.PLAYER_RADIUS * 0.6
  · by_cases hC : hit.object.position.y - height / 2
        - (s.controls.yawObject.position.y + s.config.CROUCH_HEIGHT / 2) > 0.3
    · simp [hD, hC]
    · simp [hD, hC]
  · simp [hD]

/-- C8: for every direction, `checkCrouchCollision` returns false when the single ray
from the player's position hits nothing; when the nearest hit is an obstacle with
a declared height, it returns true if and only if the hit distance is
`< 0.6 * PLAYER_RADIUS` and `objectBottom - (position.y + CROUCH_HEIGHT/2) ≤ 0.3`
with `objectBottom = obstacle.position.y - height/2`; and the result does not
depend on the `userData` of the obstacle: a world that reports the same hit with
other `userData` (flagged `isCrouchObstacle` or not) gives the same answer. -/
theorem crouch_clearance_rule (T : Engine) (s : UserMovementService) (direction : Vector3) :
    (T.intersectObjects s.controls.yawObject.position (T.normalize direction)
        s.collidableObjects false = [] →
      checkCrouchCollision T s direction = false) ∧
    (∀ (hit : Intersection) (rest : List Intersection) (height : ℚ),
      T.intersectObjects s.controls.yawObject.position (T.normalize direction)
        s.collidableObjects false = hit :: rest →
      hit.object.parameters = some ⟨some height⟩ →
      (checkCrouchCollision T s direction = true ↔
        hit.distance < 0.6 * s.config.PLAYER_RADIUS ∧
        (hit.object.position.y - height / 2)
          - (s.controls.yawObject.position.y + s.config.CROUCH_HEIGHT / 2) ≤ 0.3)) ∧
    (∀ (T1 : Engine) (hit : Intersection) (rest rest1 : List Intersection) (height : ℚ)
        (u : Option UserData),
      T.intersectObjects s.controls.yawObject.position (T.normalize direction)
        s.collidableObjects false = hit :: rest →
      hit.object.parameters = some ⟨some height⟩ →
      T1.intersectObjects s.controls.yawObject.position (T1.normalize direction)
        s.collidableObjects false
        = { hit with object := { hit.object with userData := u } } :: rest1 →
      checkCrouchCollision T1 s direction = checkCrouchCollision T s direction) := by
  refine ⟨?_, ?_, ?_⟩
  · intro hHits
    simp [checkCrouchCollision, hHits]
  · intro hit rest height hHits hHeight
    rw [checkCrouchCollision_cons T s direction hit rest height hHits hHeight,
      decide_eq_true_iff, not_lt, mul_comm]
  · intro T1 hit rest rest1 height u hHits hHeight hHits1
    rw [checkCrouchCollision_cons T s direction hit rest height hHits hHeight,
      checkCrouchCollision_cons T1 s direction _ rest1 height hHits1 hHeight]

/-- Witness of C8: crouch height 2, a crouched player whose top is at height 11, and a
barrier flagged `isCrouchObstacle` whose bottom is at height 14, three units
above, reported as nearest hit at distance 1: the check answers not blocked. -/
theorem crouch_clearance_rule_witness :
    checkCrouchCollision Scene.barrierWorld Scene.crouchedAtBarrier ⟨1, 0, 0⟩ = false := by
  have hState : Scene.crouchedAtBarrier.controls.yawObject.position = ⟨0, 10, 0⟩ ∧
      Scene.crouchedAtBarrier.collidableObjects = [Scene.barrier] ∧
      Scene.crouchedAtBarrier.config.CROUCH_HEIGHT = 2 ∧
      Scene.crouchedAtBarrier.config.PLAYER_RADIUS = 5 := by
    simp [Scene.crouchedAtBarrier, Scene.freshAt, Scene.noOptions, Scene.controlsAt,
      toggleCrouch, setCrouchMode, constructor, initEyeHeights, orDefault]
  obtain ⟨hP, hC, hH, hR⟩ := hState
  have h := (crouch_clearance_rule Scene.barrierWorld Scene.crouchedAtBarrier ⟨1, 0, 0⟩).2.1
    ⟨1, ⟨1, 10, 0⟩, Scene.barrier⟩ [] 6
    (by rw [hP, hC]; simp [Scene.barrierWorld, Scene.engine, Vector3.add])
    rfl
  rw [hP, hH, hR] at h
  cases hB : checkCrouchCollision Scene.barrierWorld Scene.crouchedAtBarrier ⟨1, 0, 0⟩
  · rfl
  · have hBad := (h.mp hB).2
    norm_num [Scene.barrier] at hBad

/-! ## Configuration -/

/-- C11, the code at the failing input: constructed with the options
`GRAVITY: 0, GROUND_HEIGHT: 0`, the service has `config.GRAVITY = 8` and
`config.GROUND_HEIGHT = 10`, the defaults, not the provided zeros (`0 || d` is
`d`); the same mapping passed to `updateConfig` is stored as given.  A provided
nonzero value is kept and an absent option takes its default, for each of the
eleven parameters. -/
theorem constructor_zero_options (controls : Controls) (collidableObjects landableObjects : List Mesh)
    (now : ℚ) :
    (constructor controls collidableObjects landableObjects Scene.zeroOptions now).config.GRAVITY
      = 8 ∧
    (constructor controls collidableObjects landableObjects
      Scene.zeroOptions now).config.GROUND_HEIGHT = 10 ∧
    (updateConfig Scene.zeroOptions
      (constructor controls collidableObjects landableObjects Scene.noOptions now)).config.GRAVITY
      = 0 ∧
    (updateConfig Scene.zeroOptions
      (constructor controls collidableObjects landableObjects
        Scene.noOptions now)).config.GROUND_HEIGHT = 0 ∧
    (∀ options : Options,
      (constructor controls collidableObjects landableObjects options now).config
        = { GRAVITY := orDefault options.GRAVITY 8
            JUMP_VELOCITY := orDefault options.JUMP_VELOCITY 250
            GROUND_HEIGHT := orDefault options.GROUND_HEIGHT 10
            WALK_SPEED := orDefault options.WALK_SPEED 450
            RUN_SPEED := orDefault options.RUN_SPEED 1000
            CROUCH_SPEED := orDefault options.CROUCH_SPEED 200
            PLAYER_RADIUS := orDefault options.PLAYER_RADIUS 5
            PLAYER_HEIGHT := orDefault options.PLAYER_HEIGHT 8
            CROUCH_HEIGHT := orDefault options.CROUCH_HEIGHT 2
            VELOCITY_DAMPING := orDefault options.VELOCITY_DAMPING 10
            MOUSE_SENSITIVITY := orDefault options.MOUSE_SENSITIVITY (2 / 1000) }) ∧
    (∀ v d : ℚ, v ≠ 0 → orDefault (some v) d = v) ∧
    (∀ d : ℚ, orDefault none d = d ∧ orDefault (some 0) d = d) := by
  refine ⟨?_, ?_, ?_, ?_, ?_, ?_, ?_⟩
  · simp [constructor, initEyeHeights, orDefault, Scene.zeroOptions, Scene.noOptions]
    norm_num
  · simp [constructor, initEyeHeights, orDefault, Scene.zeroOptions, Scene.noOptions]
  · simp [updateConfig, assignConfig, constructor, initEyeHeights, Scene.zeroOptions,
      Scene.noOptions]
  · simp [updateConfig, assignConfig, constructor, initEyeHeights, Scene.zeroOptions,
      Scene.noOptions]
  · intro options
    simp [constructor, initEyeHeights]
    norm_num
  · intro v d hv
    simp [orDefault, hv]
  · intro d
    simp [orDefault]

/-- C12: from a standing state, whatever the world, `toggleCrouch` succeeds: afterwards
`isCrouching` is true, `isRunning` is false and the eye offset is `eye.crouch`,
while the player's position, the velocity, `canJump` and `isJumping` are
unchanged. -/
theorem crouch_always_allowed (T : Engine) (s : UserMovementService)
    (hStand : s.isCrouching = false) :
    (toggleCrouch T s).isCrouching = true ∧
    (toggleCrouch T s).isRunning = false ∧
    (toggleCrouch T s).controls.pitchObject.position.y = s.eye.crouch ∧
    (toggleCrouch T s).eye = s.eye ∧
    (toggleCrouch T s).controls.yawObject = s.controls.yawObject ∧
    (toggleCrouch T s).velocity = s.velocity ∧
    (toggleCrouch T s).canJump = s.canJump ∧
    (toggleCrouch T s).isJumping = s.isJumping := by
  rw [toggleCrouch_of_standing T s hStand]
  simp [setCrouchMode]

/-- Witness of C12: a freshly constructed player under a ceiling 3 units above it
crouches; its eye goes from 7 to 7 - 2.5 * (8 - 2) = -8. -/
theorem crouch_always_allowed_witness :
    (toggleCrouch (Scene.ceilingWorld 13) (Scene.freshAt ⟨0, 10, 0⟩ [Scene.slabAt 13] [])).isCrouching
      = true ∧
    (toggleCrouch (Scene.ceilingWorld 13)
      (Scene.freshAt ⟨0, 10, 0⟩ [Scene.slabAt 13] [])).controls.pitchObject.position.y = -8 := by
  have h := crouch_always_allowed (Scene.ceilingWorld 13)
    (Scene.freshAt ⟨0, 10, 0⟩ [Scene.slabAt 13] [])
    (by simp [Scene.freshAt, constructor, initEyeHeights])
  refine ⟨h.1, ?_⟩
  rw [h.2.2.1]
  simp [Scene.freshAt, Scene.noOptions, Scene.controlsAt, constructor, initEyeHeights, orDefault]
  norm_num

/-- C15: after `updateConfig(p)`, every configuration field present in `p` has the value
given by `p` and every other field is unchanged; `eye.crouch` is
`eye.stand - 2.5 * (PLAYER_HEIGHT - CROUCH_HEIGHT)` computed with the merged
configuration; the eye offset `pitchObject.position.y` is `eye.crouch` when
crouching and `eye.stand` otherwise; `isCrouching`, the position and the velocity
are unchanged. -/
theorem updateConfig_spec (p : Options) (s : UserMovementService) :
    ((updateConfig p s).config.GRAVITY = p.GRAVITY.getD s.config.GRAVITY ∧
      (updateConfig p s).config.JUMP_VELOCITY = p.JUMP_VELOCITY.getD s.config.JUMP_VELOCITY ∧
      (updateConfig p s).config.GROUND_HEIGHT = p.GROUND_HEIGHT.getD s.config.GROUND_HEIGHT ∧
      (updateConfig p s).config.WALK_SPEED = p.WALK_SPEED.getD s.config.WALK_SPEED ∧
      (updateConfig p s).config.RUN_SPEED = p.RUN_SPEED.getD s.config.RUN_SPEED ∧
      (updateConfig p s).config.CROUCH_SPEED = p.CROUCH_SPEED.getD s.config.CROUCH_SPEED ∧
      (updateConfig p s).config.PLAYER_RADIUS = p.PLAYER_RADIUS.getD s.config.PLAYER_RADIUS ∧
      (updateConfig p s).config.PLAYER_HEIGHT = p.PLAYER_HEIGHT.getD s.config.PLAYER_HEIGHT ∧
      (updateConfig p s).config.CROUCH_HEIGHT = p.CROUCH_HEIGHT.getD s.config.CROUCH_HEIGHT ∧
      (updateConfig p s).config.VELOCITY_DAMPING
        = p.VELOCITY_DAMPING.getD s.config.VELOCITY_DAMPING ∧
      (updateConfig p s).config.MOUSE_SENSITIVITY
        = p.MOUSE_SENSITIVITY.getD s.config.MOUSE_SENSITIVITY) ∧
    (updateConfig p s).eye.crouch
      = (updateConfig p s).eye.stand
        - 2.5 * ((updateConfig p s).config.PLAYER_HEIGHT - (updateConfig p s).config.CROUCH_HEIGHT) ∧
    (updateConfig p s).controls.pitchObject.position.y
      = (if s.isCrouching = true then (updateConfig p s).eye.crouch
         else (updateConfig p s).eye.stand) ∧
    (updateConfig p s).isCrouching = s.isCrouching ∧
    (updateConfig p s).controls.yawObject = s.controls.yawObject ∧
    (updateConfig p s).velocity = s.velocity := by
  refine ⟨⟨rfl, rfl, rfl, rfl, rfl, rfl, rfl, rfl, rfl, rfl, rfl⟩, ?_, ?_, rfl, rfl, rfl⟩
  · simp only [updateConfig, initEyeHeights]
    ring
  · simp only [updateConfig, initEyeHeights]

/-- The crouch-specific check on a nearest hit whose geometry has no `parameters`: the
half-extent is the default 3. -/
theorem checkCrouchCollision_no_parameters (T : Engine) (s : UserMovementService)
    (direction : Vector3) (hit : Intersection) (rest : List Intersection)
    (hHits : T.intersectObjects s.controls.yawObject.position (T.normalize direction)
      s.collidableObjects false = hit :: rest)
    (hNone : hit.object.parameters = none) :
    checkCrouchCollision T s direction
      = decide (hit.distance < s.config.PLAYER_RADIUS * 0.6 ∧
          ¬ (hit.object.position.y - 3
              - (s.controls.yawObject.position.y + s.config.CROUCH_HEIGHT / 2) > 0.3)) := by
  unfold checkCrouchCollision
  simp only [hHits, halfExtent, hNone, Option.map, gtNum]
  by_cases hD : hit.distance < s.config.PLAYER_RADIUS * 0.6
  · by_cases hC : hit.object.position.y - 3
        - (s.controls.yawObject.position.y + s.config.CROUCH_HEIGHT / 2) > 0.3
    · simp [hD, hC]
    · simp [hD, hC]
  · simp [hD]

/-- The crouch-specific check on a nearest hit whose geometry has parameters without a
`height`: every hit closer than `0.6 * PLAYER_RADIUS` is blocking. -/
theorem checkCrouchCollision_no_height (T : Engine) (s : UserMovementService)
    (direction : Vector3) (hit : Intersection) (rest : List Intersection)
    (hHits : T.intersectObjects s.controls.yawObject.position (T.normalize direction)
      s.collidableObjects false = hit :: rest)
    (hNone : hit.object.parameters = some ⟨none⟩) :
    checkCrouchCollision T s direction
      = decide (hit.distance < s.config.PLAYER_RADIUS * 0.6) := by
  unfold checkCrouchCollision
  simp only [hHits, halfExtent, hNone, Option.map, gtNum]
  by_cases hD : hit.distance < s.config.PLAYER_RADIUS * 0.6 <;> simp [hD]

/-- C16, the code at the failing input: the nearest hit of the crouched player (top at
height 11) is a sphere at distance 1 whose geometry has parameters but no
`height`, centred at height 25.  The half-extent `height / 2` is `NaN`, not the
default 3, and the check answers blocked, although with the half-extent 3 the
clearance would be `25 - 3 - 11 = 11 > 0.3`.  For a mesh without `parameters` the
half-extent is 3. -/
theorem crouch_check_missing_height :
    halfExtent Scene.sphere = none ∧
    checkCrouchCollision Scene.sphereWorld Scene.crouchedAtSphere ⟨1, 0, 0⟩ = true ∧
    Scene.sphere.position.y - 3
      - (Scene.crouchedAtSphere.controls.yawObject.position.y
          + Scene.crouchedAtSphere.config.CROUCH_HEIGHT / 2) = 11 ∧
    halfExtent Scene.bareSphere = some 3 := by
  refine ⟨rfl, ?_, ?_, rfl⟩
  · simp [checkCrouchCollision, halfExtent, gtNum, Scene.sphereWorld, Scene.engine,
      Scene.crouchedAtSphere, Scene.sphere, Scene.freshAt, Scene.noOptions, Scene.controlsAt,
      toggleCrouch, setCrouchMode, constructor, initEyeHeights, orDefault]
    norm_num
  · simp [Scene.crouchedAtSphere, Scene.sphere, Scene.freshAt, Scene.noOptions, Scene.controlsAt,
      toggleCrouch, setCrouchMode, constructor, initEyeHeights, orDefault]
    norm_num

/-! ## Looking around -/

/-- C18: for a mouse-move sample handled while the controls are enabled (and the
game-started gate absent or open), with `movementX` and `movementY` the values the
handler reads from the event: the pitch `pitchObject.rotation.x` after
`onMouseMove` lies between `-Math.PI / 2` and `Math.PI / 2`, and equals the prior
angle minus `movementY * MOUSE_SENSITIVITY` whenever that value is inside the
interval; the yaw `yawObject.rotation.y` changes by exactly
`-movementX * MOUSE_SENSITIVITY` and is not clamped. -/
theorem look_clamped (T : Engine) (gameStarted : Option Bool) (event : MouseEvent)
    (s : UserMovementService)
    (hEnabled : s.controls.enabled = true) (hGate : gameStarted ≠ some false) :
    -Math_PI / 2 ≤ (onMouseMove T gameStarted event s).controls.pitchObject.rotation.x ∧
    (onMouseMove T gameStarted event s).controls.pitchObject.rotation.x ≤ Math_PI / 2 ∧
    (-Math_PI / 2 ≤ s.controls.pitchObject.rotation.x
        - orDefault event.movementY
            (orDefault event.mozMovementY (orDefault event.webkitMovementY 0))
          * s.config.MOUSE_SENSITIVITY →
      s.controls.pitchObject.rotation.x
        - orDefault event.movementY
            (orDefault event.mozMovementY (orDefault event.webkitMovementY 0))
          * s.config.MOUSE_SENSITIVITY ≤ Math_PI / 2 →
      (onMouseMove T gameStarted event s).controls.pitchObject.rotation.x
        = s.controls.pitchObject.rotation.x
          - orDefault event.movementY
              (orDefault event.mozMovementY (orDefault event.webkitMovementY 0))
            * s.config.MOUSE_SENSITIVITY) ∧
    (onMouseMove T gameStarted event s).controls.yawObject.rotation.y
      = s.controls.yawObject.rotation.y
        - orDefault event.movementX
            (orDefault event.mozMovementX (orDefault event.webkitMovementX 0))
          * s.config.MOUSE_SENSITIVITY := by
  have hPi : -Math_PI / 2 ≤ Math_PI / 2 := by norm_num [Math_PI]
  simp only [onMouseMove, hEnabled, Bool.not_true, Bool.false_eq_true, if_false, hGate]
  refine ⟨le_max_left _ _, max_le hPi (min_le_left _ _), ?_, trivial⟩
  intro hLow hHigh
  rw [min_eq_right hHigh, max_eq_right hLow]

/-- Witness of C18: a freshly constructed player with the default sensitivity 0.002
receives a movement of 100 to the right and 50 down: the pitch goes from 0 to
-0.1 and the yaw from 0 to -0.2. -/
theorem look_clamped_witness :
    (onMouseMove Scene.emptyWorld none Scene.mouseSample
      (Scene.freshAt ⟨0, 10, 0⟩ [] [])).controls.pitchObject.rotation.x = -(1 / 10) ∧
    (onMouseMove Scene.emptyWorld none Scene.mouseSample
      (Scene.freshAt ⟨0, 10, 0⟩ [] [])).controls.yawObject.rotation.y = -(1 / 5) := by
  have h := look_clamped Scene.emptyWorld none Scene.mouseSample (Scene.freshAt ⟨0, 10, 0⟩ [] [])
    (by simp [Scene.freshAt, Scene.controlsAt, constructor, initEyeHeights]) (by simp)
  have hVal : (Scene.freshAt ⟨0, 10, 0⟩ [] []).controls.pitchObject.rotation.x = 0 ∧
      (Scene.freshAt ⟨0, 10, 0⟩ [] []).controls.yawObject.rotation.y = 0 ∧
      (Scene.freshAt ⟨0, 10, 0⟩ [] []).config.MOUSE_SENSITIVITY = 2 / 1000 := by
    simp [Scene.freshAt, Scene.noOptions, Scene.controlsAt, constructor, initEyeHeights, orDefault]
    norm_num
  obtain ⟨hP, hY, hS⟩ := hVal
  have hX : orDefault Scene.mouseSample.movementX (orDefault Scene.mouseSample.mozMovementX
      (orDefault Scene.mouseSample.webkitMovementX 0)) = 100 := by
    simp [orDefault, Scene.mouseSample]
  have hM : orDefault Scene.mouseSample.movementY (orDefault Scene.mouseSample.mozMovementY
      (orDefault Scene.mouseSample.webkitMovementY 0)) = 50 := by
    simp [orDefault, Scene.mouseSample]
  rw [hP, hY, hS, hX, hM] at h
  refine ⟨?_, ?_⟩
  · rw [h.2.2.1 (by norm_num [Math_PI]) (by norm_num [Math_PI])]
    norm_num
  · rw [h.2.2.2]
    norm_num

/-! ## Running and crouching -/

/-- Every outcome of `onKeyDown` is one of eight states, the jump and the run being
reached under their guards only. -/
theorem onKeyDown_cases_guarded (P : UserMovementService → Prop) (T : Engine) (g : Option Bool)
    (code : String) (s : UserMovementService)
    (hSame : P s)
    (hForward : P { s with moveForward := true })
    (hLeft : P { s with moveLeft := true })
    (hBackward : P { s with moveBackward := true })
    (hRight : P { s with moveRight := true })
    (hJump : s.canJump = true → s.isCrouching = false →
      P { s with velocity.y := s.config.JUMP_VELOCITY, canJump := false, isJumping := true })
    (hRun : s.isCrouching = false → P { s with isRunning := true })
    (hCrouch : P (toggleCrouch T s)) :
    P (onKeyDown T g code s) := by
  unfold onKeyDown
  by_cases hg : g = some false
  · rw [if_pos hg]; exact hSame
  · rw [if_neg hg]
    split
    all_goals first
      | assumption
      | (split_ifs with h
         · first
           | exact hJump (by simp_all) (by simp_all)
           | exact hRun (by simp_all)
         · assumption)

/-- `toggleCrouch` never leaves the player both crouching and running. -/
theorem toggleCrouch_not_both (T : Engine) (s : UserMovementService)
    (h : ¬ (s.isCrouching = true ∧ s.isRunning = true)) :
    ¬ ((toggleCrouch T s).isCrouching = true ∧ (toggleCrouch T s).isRunning = true) := by
  unfold toggleCrouch setCrouchMode
  dsimp only
  split_ifs <;> simp_all

/-- In every state reachable with `updateConfig` allowed, the player is not both
crouching and running. -/
theorem reachable_not_both (T : Engine) (s : UserMovementService)
    (hR : ReachableWithConfig T s) :
    ¬ (s.isCrouching = true ∧ s.isRunning = true) := by
  induction hR with
  | init controls c l o now => simp [constructor, initEyeHeights]
  | keyDown g code _ ih =>
    apply onKeyDown_cases_guarded (fun s => ¬ (s.isCrouching = true ∧ s.isRunning = true))
    · exact ih
    · exact ih
    · exact ih
    · exact ih
    · exact ih
    · exact fun _ _ => ih
    · intro hStand h
      rw [hStand] at h
      exact Bool.false_ne_true h.1
    · exact toggleCrouch_not_both T _ ih
  | keyUp g code _ ih =>
    apply onKeyUp_cases (fun s => ¬ (s.isCrouching = true ∧ s.isRunning = true))
    all_goals first
      | exact ih
      | simp
  | toggleCrouch _ ih => exact toggleCrouch_not_both T _ ih
  | update now delta _ ih =>
    simpa [update, beforeLanding, afterHorizontal, afterInput] using ih
  | setPosition x y z _ ih => exact ih
  | updateConfig p _ ih => exact ih

/-- C19: in every state reachable from construction by any sequence of keydown events,
keyup events, `toggleCrouch`, `update`, `setPosition` and `updateConfig` calls,
`isCrouching` and `isRunning` are never both true; and the speed `update` uses is
`CROUCH_SPEED` when crouching, otherwise `RUN_SPEED` when running, otherwise
`WALK_SPEED`, so that a crouching player never moves at the run speed by its
flags. -/
theorem never_crouching_and_running (T : Engine) (s : UserMovementService)
    (hR : ReachableWithConfig T s) :
    ¬ (s.isCrouching = true ∧ s.isRunning = true) ∧
    (s.isCrouching = true → currentSpeed s = s.config.CROUCH_SPEED) ∧
    (s.isCrouching = false → s.isRunning = true → currentSpeed s = s.config.RUN_SPEED) ∧
    (s.isCrouching = false → s.isRunning = false → currentSpeed s = s.config.WALK_SPEED) ∧
    (s.isRunning = true → currentSpeed s = s.config.RUN_SPEED) := by
  have hInv := reachable_not_both T s hR
  refine ⟨hInv, ?_, ?_, ?_, ?_⟩
  · intro h; simp [currentSpeed, h]
  · intro h1 h2; simp [currentSpeed, h1, h2]
  · intro h1 h2; simp [currentSpeed, h1, h2]
  · intro h2
    have h1 : s.isCrouching = false := by
      cases hC : s.isCrouching
      · rfl
      · exact absurd ⟨hC, h2⟩ hInv
    simp [currentSpeed, h1, h2]

/-- Witness of C19: a freshly constructed player that presses Shift, then C, is crouching
and no longer running. -/
theorem never_crouching_and_running_witness :
    ¬ ((onKeyDown Scene.emptyWorld none "KeyC"
        (onKeyDown Scene.emptyWorld none "ShiftLeft"
          (Scene.freshAt ⟨0, 10, 0⟩ [] []))).isCrouching = true ∧
      (onKeyDown Scene.emptyWorld none "KeyC"
        (onKeyDown Scene.emptyWorld none "ShiftLeft"
          (Scene.freshAt ⟨0, 10, 0⟩ [] []))).isRunning = true) :=
  (never_crouching_and_running Scene.emptyWorld _
    (ReachableWithConfig.keyDown none "KeyC"
      (ReachableWithConfig.keyDown none "ShiftLeft" (ReachableWithConfig.init _ _ _ _ _)))).1

/-! ## General collision check -/

/-- One step of the inner loop of `checkCollision`: the ray at the first offset is tested
along the normalised direction, which is carried to the remaining offsets. -/
theorem checkCollisionRay_cons (T : Engine) (s : UserMovementService) (dir : Vector3)
    (heightOffset : ℚ) (rest : List ℚ) :
    checkCollisionRay T s dir (heightOffset :: rest)
      = (rayBlocks T s heightOffset (T.normalize dir)
          || checkCollisionRay T s (T.normalize dir) rest) := by
  rw [checkCollisionRay]
  unfold rayBlocks
  dsimp only
  generalize T.intersectObjects _ (T.normalize dir) s.collidableObjects false = hits
  cases hits with
  | nil => simp
  | cons hit tl =>
    by_cases hD : hit.distance
        < (if s.isCrouching = true then s.config.PLAYER_RADIUS * 0.7 else s.config.PLAYER_RADIUS)
    · by_cases hC : s.isCrouching = true
          ∧ hit.point.y > s.controls.yawObject.position.y + getCurrentPlayerHeight s / 2 + 1
      · simp [hD, hC]
      · simp [hD, hC]
    · simp [hD]

/-- The test on one ray, spelled out on the nearest hit. -/
theorem rayBlocks_iff (T : Engine) (s : UserMovementService) (heightOffset : ℚ) (dir : Vector3) :
    rayBlocks T s heightOffset dir = true ↔
      ∃ (hit : Intersection) (rest : List Intersection),
        T.intersectObjects
          ⟨s.controls.yawObject.position.x, s.controls.yawObject.position.y + heightOffset,
            s.controls.yawObject.position.z⟩ dir s.collidableObjects false = hit :: rest ∧
        hit.distance
          < (if s.isCrouching = true then 0.7 * s.config.PLAYER_RADIUS
             else s.config.PLAYER_RADIUS) ∧
        (s.isCrouching = true →
          hit.point.y ≤ s.controls.yawObject.position.y + getCurrentPlayerHeight s / 2 + 1) := by
  unfold rayBlocks
  dsimp only
  generalize T.intersectObjects _ dir s.collidableObjects false = hits
  cases hits with
  | nil => simp
  | cons hit tl =>
    simp only [decide_eq_true_iff, List.cons.injEq, not_and, not_lt]
    constructor
    · rintro ⟨h1, h2⟩
      exact ⟨hit, tl, ⟨rfl, rfl⟩, by rwa [mul_comm] at h1, h2⟩
    · rintro ⟨hit1, tl1, ⟨rfl, rfl⟩, h1, h2⟩
      exact ⟨by rwa [mul_comm], h2⟩

/-- The inner loop of `checkCollision`: some offset has a blocking ray, the ray at the
offset of index `k` being cast along the direction normalised `k + 1` times. -/
theorem checkCollisionRay_iff (T : Engine) (s : UserMovementService) (heights : List ℚ)
    (dir : Vector3) :
    checkCollisionRay T s dir heights = true ↔
      ∃ k, k < heights.length ∧ rayBlocks T s (heights.getD k 0) (T.normalize^[k + 1] dir) = true := by
  induction heights generalizing dir with
  | nil => simp [checkCollisionRay]
  | cons off rest ih =>
    rw [checkCollisionRay_cons, Bool.or_eq_true, ih]
    constructor
    · rintro (h | ⟨k, hk, h⟩)
      · exact ⟨0, by simp, by simpa using h⟩
      · exact ⟨k + 1, by simpa using hk, by simpa [Function.iterate_succ_apply] using h⟩
    · rintro ⟨k, hk, h⟩
      cases k with
      | zero => exact Or.inl (by simpa using h)
      | succ k =>
        exact Or.inr ⟨k, by simpa using hk, by simpa [Function.iterate_succ_apply] using h⟩

/-- The inner loop of `checkCollision` when normalising twice is normalising once: some
offset has a blocking ray along the normalised direction. -/
theorem checkCollisionRay_iff_of_idempotent (T : Engine) (s : UserMovementService)
    (hNorm : ∀ v, T.normalize (T.normalize v) = T.normalize v) (heights : List ℚ)
    (dir : Vector3) :
    checkCollisionRay T s dir heights = true ↔
      ∃ off ∈ heights, rayBlocks T s off (T.normalize dir) = true := by
  induction heights generalizing dir with
  | nil => simp [checkCollisionRay]
  | cons off rest ih =>
    rw [checkCollisionRay_cons, Bool.or_eq_true, ih, hNorm]
    simp

/-- C13: `checkCollision(d)` casts rays along `d`, `d` rotated by `Math.PI / 4` and `d`
rotated by `-Math.PI / 4` about the vertical axis, from the player's position raised
by the offsets `-0.3h, 0, +0.3h` when standing (`h = PLAYER_HEIGHT`) or `-0.3h, 0`
when crouching (`h = CROUCH_HEIGHT`).  It returns true if and only if for one of
these directions and one of these offsets the nearest hit of the ray has distance
less than the effective radius (`PLAYER_RADIUS` when standing,
`0.7 * PLAYER_RADIUS` when crouching) and, when crouching, its hit point's y is at
most `position.y + h/2 + 1`.  The direction is normalised in place before each
cast, so the ray at the offset of index `k` runs along the direction normalised
`k + 1` times; when normalising twice is normalising once, that is the normalised
direction for every offset. -/
theorem general_collision_rule (T : Engine) (s : UserMovementService) (d : Vector3) :
    probeDirections T d
      = [d, T.applyAxisAngle d ⟨0, 1, 0⟩ (Math_PI / 4),
          T.applyAxisAngle d ⟨0, 1, 0⟩ (-Math_PI / 4)] ∧
    checkHeights s
      = (if s.isCrouching = true then [-s.config.CROUCH_HEIGHT * 0.3, 0]
         else [-s.config.PLAYER_HEIGHT * 0.3, 0, s.config.PLAYER_HEIGHT * 0.3]) ∧
    (checkCollision T s d = true ↔
      ∃ dir ∈ probeDirections T d, ∃ k, k < (checkHeights s).length ∧
        ∃ (hit : Intersection) (rest : List Intersection),
          T.intersectObjects
            ⟨s.controls.yawObject.position.x,
              s.controls.yawObject.position.y + (checkHeights s).getD k 0,
              s.controls.yawObject.position.z⟩
            (T.normalize^[k + 1] dir) s.collidableObjects false = hit :: rest ∧
          hit.distance
            < (if s.isCrouching = true then 0.7 * s.config.PLAYER_RADIUS
               else s.config.PLAYER_RADIUS) ∧
          (s.isCrouching = true →
            hit.point.y
              ≤ s.controls.yawObject.position.y + getCurrentPlayerHeight s / 2 + 1)) ∧
    ((∀ v, T.normalize (T.normalize v) = T.normalize v) →
      (checkCollision T s d = true ↔
        ∃ dir ∈ probeDirections T d, ∃ off ∈ checkHeights s,
          ∃ (hit : Intersection) (rest : List Intersection),
            T.intersectObjects
              ⟨s.controls.yawObject.position.x, s.controls.yawObject.position.y + off,
                s.controls.yawObject.position.z⟩
              (T.normalize dir) s.collidableObjects false = hit :: rest ∧
            hit.distance
              < (if s.isCrouching = true then 0.7 * s.config.PLAYER_RADIUS
                 else s.config.PLAYER_RADIUS) ∧
            (s.isCrouching = true →
              hit.point.y
                ≤ s.controls.yawObject.position.y + getCurrentPlayerHeight s / 2 + 1))) := by
  refine ⟨rfl, ?_, ?_, ?_⟩
  · unfold checkHeights getCurrentPlayerHeight
    cases s.isCrouching <;> simp
  · unfold checkCollision
    rw [List.any_eq_true]
    constructor
    · rintro ⟨dir, hDir, h⟩
      obtain ⟨k, hk, hB⟩ := (checkCollisionRay_iff T s _ dir).mp h
      exact ⟨dir, hDir, k, hk, (rayBlocks_iff T s _ _).mp hB⟩
    · rintro ⟨dir, hDir, k, hk, hB⟩
      exact ⟨dir, hDir, (checkCollisionRay_iff T s _ dir).mpr ⟨k, hk, (rayBlocks_iff T s _ _).mpr hB⟩⟩
  · intro hNorm
    unfold checkCollision
    rw [List.any_eq_true]
    constructor
    · rintro ⟨dir, hDir, h⟩
      obtain ⟨off, hOff, hB⟩ := (checkCollisionRay_iff_of_idempotent T s hNorm _ dir).mp h
      exact ⟨dir, hDir, off, hOff, (rayBlocks_iff T s _ _).mp hB⟩
    · rintro ⟨dir, hDir, off, hOff, hB⟩
      exact ⟨dir, hDir, (checkCollisionRay_iff_of_idempotent T s hNorm _ dir).mpr
        ⟨off, hOff, (rayBlocks_iff T s _ _).mpr hB⟩⟩

/-- Witness of C13: a standing player at (0, 10, 0) with a pillar at distance 2 straight
ahead along x (radius 5): the ray along x at offset 0 is blocking, and
`checkCollision` returns true. -/
theorem general_collision_rule_witness :
    checkCollision (Scene.pillarWorld ⟨1, 0, 0⟩) (Scene.freshAt ⟨0, 10, 0⟩ [Scene.pillar] [])
      ⟨1, 0, 0⟩ = true := by
  have hS : (Scene.freshAt ⟨0, 10, 0⟩ [Scene.pillar] []).isCrouching = false ∧
      (Scene.freshAt ⟨0, 10, 0⟩ [Scene.pillar] []).config.PLAYER_RADIUS = 5 ∧
      (Scene.freshAt ⟨0, 10, 0⟩ [Scene.pillar] []).controls.yawObject.position = ⟨0, 10, 0⟩ ∧
      (Scene.freshAt ⟨0, 10, 0⟩ [Scene.pillar] []).collidableObjects = [Scene.pillar] := by
    simp [Scene.freshAt, Scene.noOptions, Scene.controlsAt, constructor, initEyeHeights, orDefault]
  obtain ⟨hC, hR, hP, hL⟩ := hS
  refine ((general_collision_rule (Scene.pillarWorld ⟨1, 0, 0⟩)
    (Scene.freshAt ⟨0, 10, 0⟩ [Scene.pillar] []) ⟨1, 0, 0⟩).2.2.2 (fun _ => rfl)).mpr
    ⟨⟨1, 0, 0⟩, by simp [probeDirections], 0, by simp [checkHeights, hC],
      ⟨2, ⟨2, 10, 0⟩, Scene.pillar⟩, [], ?_, ?_, ?_⟩
  · rw [hP, hL]
    simp [Scene.pillarWorld, Scene.engine, Vector3.add, Vector3.multiplyScalar]
  · rw [hC, hR]
    norm_num
  · rw [hC]
    intro h
    exact absurd h Bool.false_ne_true

/-! ## Gravity -/

/-- With a nonzero `delta`, `update` uses it as the timestep and leaves `prevTime`. -/
theorem frame_of_delta (now delta : ℚ) (s : UserMovementService) (hDelta : delta ≠ 0) :
    frameDelta now delta s = delta ∧ stampTime now delta s = s := by
  simp [frameDelta, stampTime, hDelta]

/-- C14: let `delta > 0` and let the player's local x and z axes be horizontal (the yaw
object is turned about the vertical axis only).  On a state where `isJumping` is
true or `position.y` is greater than the result of the ground-height probe, in a
frame without overhead block, in which the landing probe finds no surface and
which ends with `position.y` above `GROUND_HEIGHT`: `velocity.y` after the update
is the old `velocity.y` minus `GRAVITY * 100 * delta`, and `position.y` after the
update is the old `position.y` plus the new `velocity.y` times `delta`.  When
`isJumping` is false and `position.y` is not greater than the probed ground
height, the gravity step leaves `velocity.y` as it is. -/
theorem gravity_integration (T : Engine) (now delta : ℚ) (s : UserMovementService)
    (hDelta : 0 < delta)
    (hAxisX : (T.applyQuaternion ⟨1, 0, 0⟩ s.controls.yawObject.quaternion).y = 0)
    (hAxisZ : (T.applyQuaternion ⟨0, 0, 1⟩ s.controls.yawObject.quaternion).y = 0) :
    ((s.isJumping = true ∨ s.controls.yawObject.position.y > getGroundHeight T s) →
      ¬ ((applyGravity T delta s).velocity.y > 0
          ∧ checkOverheadCollision T (afterHorizontal T now delta s) = true) →
      checkTopCollision T (beforeLanding T now delta s) = none →
      (update T now delta s).controls.yawObject.position.y > s.config.GROUND_HEIGHT →
      (update T now delta s).velocity.y = s.velocity.y - s.config.GRAVITY * 100 * delta ∧
      (update T now delta s).controls.yawObject.position.y
        = s.controls.yawObject.position.y + (update T now delta s).velocity.y * delta) ∧
    (s.isJumping = false → ¬ (s.controls.yawObject.position.y > getGroundHeight T s) →
      (applyGravity T delta s).velocity.y = s.velocity.y ∧
      (afterHorizontal T now delta s).velocity.y = s.velocity.y) := by
  obtain ⟨hDt, hSt⟩ := frame_of_delta now delta s (ne_of_gt hDelta)
  have hAH : (afterHorizontal T now delta s).velocity.y = (applyGravity T delta s).velocity.y := by
    rw [afterHorizontal_velocity_y, hDt, hSt]
  have hY : (afterHorizontal T now delta s).controls.yawObject.position.y
      = s.controls.yawObject.position.y := by
    unfold afterHorizontal
    rw [moveHorizontal_position_y T _ _ (by simpa [afterInput] using hAxisX)
      (by simpa [afterInput] using hAxisZ)]
    simp [afterInput]
  constructor
  · intro hAir hNoBlock hNoLanding hAbove
    have hG : (applyGravity T delta s).velocity.y
        = s.velocity.y - s.config.GRAVITY * 100 * delta := by
      unfold applyGravity
      dsimp only
      rw [if_pos hAir]
    have hStop : stopAtCeiling T (afterHorizontal T now delta s) = afterHorizontal T now delta s := by
      unfold stopAtCeiling
      rw [if_neg]
      rw [hAH]
      exact hNoBlock
    have hBL : beforeLanding T now delta s
        = moveVertical delta (afterHorizontal T now delta s) := by
      unfold beforeLanding
      rw [hStop, hDt]
    have hUp : update T now delta s = clampToGround (beforeLanding T now delta s) :=
      update_of_no_landing T now delta s hNoLanding
    have hNoClamp : ¬ ((beforeLanding T now delta s).controls.yawObject.position.y
        ≤ (beforeLanding T now delta s).config.GROUND_HEIGHT) := by
      intro hLe
      rw [hUp] at hAbove
      unfold clampToGround at hAbove
      rw [if_pos hLe] at hAbove
      simp [landAt] at hAbove
    have hSame : update T now delta s = beforeLanding T now delta s := by
      rw [hUp]
      unfold clampToGround
      rw [if_neg hNoClamp]
    have hV : (update T now delta s).velocity.y
        = s.velocity.y - s.config.GRAVITY * 100 * delta := by
      rw [hSame, hBL]
      simp only [moveVertical]
      rw [hAH, hG]
    refine ⟨hV, ?_⟩
    rw [hV, hSame, hBL]
    simp only [moveVertical]
    rw [hY, hAH, hG]
  · intro hGround hNotAbove
    have hG : (applyGravity T delta s).velocity.y = s.velocity.y := by
      unfold applyGravity
      dsimp only
      rw [if_neg]
      rintro (h | h)
      · rw [hGround] at h
        exact Bool.false_ne_true h
      · exact hNotAbove h
    exact ⟨hG, by rw [hAH, hG]⟩

/-- Witness of C14: the player placed at height 100 in the world without objects, updated
with `delta = 1/16` and the default gravity 8: `velocity.y` goes from 0 to -50 and
`position.y` from 100 to 100 - 50/16. -/
theorem gravity_integration_witness :
    (update Scene.emptyWorld 0 (1 / 16) Scene.placedInAir).velocity.y = -50 ∧
    (update Scene.emptyWorld 0 (1 / 16) Scene.placedInAir).controls.yawObject.position.y
      = 100 - 50 / 16 := by
  have hS : Scene.placedInAir.velocity.y = 0 ∧ Scene.placedInAir.config.GRAVITY = 8 ∧
      Scene.placedInAir.controls.yawObject.position.y = 100 ∧
      Scene.placedInAir.config.GROUND_HEIGHT = 10 ∧
      getGroundHeight Scene.emptyWorld Scene.placedInAir = 10 := by
    simp [Scene.placedInAir, Scene.freshAt, Scene.noOptions, Scene.controlsAt, Scene.emptyWorld,
      Scene.engine, setPosition, getGroundHeight, constructor, initEyeHeights, orDefault]
    norm_num
  obtain ⟨hV, hG, hP, hGr, hGH⟩ := hS
  have hEval : (update Scene.emptyWorld 0 (1 / 16) Scene.placedInAir).controls.yawObject.position.y
      = 100 - 50 / 16 := by
    simp [update, resolveLanding, checkTopCollision, clampToGround, landAt, beforeLanding,
      afterHorizontal, moveVertical, stopAtCeiling, moveHorizontal, canMoveX, canMoveZ,
      afterInput, applyInput, applyDamping, applyGravity, getGroundHeight, stampTime, frameDelta,
      Scene.emptyWorld, Scene.engine, Scene.placedInAir, Scene.freshAt, Scene.noOptions,
      Scene.controlsAt, setPosition, constructor, initEyeHeights, orDefault, boolToNumber,
      Object3D.translateX, Object3D.translateZ, Object3D.translateOnAxis, Vector3.add,
      Vector3.multiplyScalar, Scene.applyQuaternion, Scene.identity]
    norm_num
  have h := (gravity_integration Scene.emptyWorld 0 (1 / 16) Scene.placedInAir (by norm_num)
    (by simp [Scene.emptyWorld, Scene.engine, Scene.applyQuaternion, Scene.placedInAir,
      Scene.freshAt, Scene.controlsAt, Scene.identity, setPosition, constructor, initEyeHeights])
    (by simp [Scene.emptyWorld, Scene.engine, Scene.applyQuaternion, Scene.placedInAir,
      Scene.freshAt, Scene.controlsAt, Scene.identity, setPosition, constructor,
      initEyeHeights])).1
    (Or.inr (by rw [hGH, hP]; norm_num))
    (by
      intro hB
      have hNeg : (applyGravity Scene.emptyWorld (1 / 16) Scene.placedInAir).velocity.y = -50 := by
        unfold applyGravity
        dsimp only
        rw [if_pos (Or.inr (by rw [hGH, hP]; norm_num)), hV, hG]
        norm_num
      rw [hNeg] at hB
      norm_num at hB)
    (by simp [checkTopCollision, Scene.emptyWorld, Scene.engine])
    (by rw [hEval, hGr]; norm_num)
  rw [hV, hG] at h
  refine ⟨by rw [h.1]; norm_num, hEval⟩

/-! ## Obstacle generator: landable entries are collidable -/

/-- The effect of `createObject` on the two collections. -/
theorem createObject_collections (g : ObjectGeneratorService) (type : String) (position : Vector3)
    (isLandable : Bool) :
    (g.createObject type position isLandable).1.collidableObjects
      = g.collidableObjects ++ [(g.createObject type position isLandable).2] ∧
    (g.createObject type position isLandable).1.landableObjects
      = (if isLandable = true then
          g.landableObjects ++ [(g.createObject type position isLandable).2]
         else g.landableObjects) ∧
    (g.createObject type position isLandable).1.geometries = g.geometries ∧
    (g.createObject type position isLandable).1.GROUND_HEIGHT = g.GROUND_HEIGHT ∧
    (g.createObject type position isLandable).1.crouchConfig = g.crouchConfig := by
  unfold ObjectGeneratorService.createObject
  cases isLandable <;> simp

/-- `createObject` keeps the landable collection inside the collidable one. -/
theorem createObject_subset (g : ObjectGeneratorService) (type : String) (position : Vector3)
    (isLandable : Bool) (h : g.landableObjects ⊆ g.collidableObjects) :
    (g.createObject type position isLandable).1.landableObjects
      ⊆ (g.createObject type position isLandable).1.collidableObjects := by
  obtain ⟨hC, hL, _⟩ := createObject_collections g type position isLandable
  rw [hC, hL]
  intro m hm
  cases isLandable
  · simp only [Bool.false_eq_true, if_false] at hm
    exact List.mem_append_left _ (h hm)
  · simp only [if_true, List.mem_append] at hm
    rcases hm with hm | hm
    · exact List.mem_append_left _ (h hm)
    · exact List.mem_append_right _ hm

/-- `createCrouchObstacle` keeps the landable collection inside the collidable one and
leaves the geometries, the ground height and the crouch configuration alone. -/
theorem createCrouchObstacle_subset (g : ObjectGeneratorService) (type : String)
    (x z rotation : ℚ) (isLandable : Bool) (r : ObjectGeneratorService × Mesh)
    (hr : g.createCrouchObstacle type x z rotation isLandable = some r)
    (h : g.landableObjects ⊆ g.collidableObjects) :
    r.1.landableObjects ⊆ r.1.collidableObjects ∧ r.1.geometries = g.geometries := by
  unfold ObjectGeneratorService.createCrouchObstacle at hr
  cases hy : g.calculateCrouchBarrierY type with
  | none => rw [hy] at hr; cases hr
  | some y =>
    rw [hy] at hr
    simp only [Option.some.injEq] at hr
    subst hr
    obtain ⟨hC, hL, hG, _⟩ := createObject_collections g type ⟨x, y, z⟩ isLandable
    refine ⟨?_, hG⟩
    simp only [ObjectGeneratorService.replaceLast, hC, hL, List.dropLast_concat]
    intro m hm
    cases isLandable
    · simp only [Bool.false_eq_true, if_false] at hm
      exact List.mem_append_left _ (h hm)
    · simp only [if_true, List.dropLast_concat, List.mem_append] at hm
      rcases hm with hm | hm
      · exact List.mem_append_left _ (h hm)
      · exact List.mem_append_right _ hm

/-- A property kept by each step is kept by a loop of steps. -/
theorem foldl_keeps {α : Type} (P : ObjectGeneratorService → Prop)
    (f : ObjectGeneratorService → α → ObjectGeneratorService)
    (hf : ∀ g a, P g → P (f g a)) (l : List α) (g : ObjectGeneratorService) (hg : P g) :
    P (l.foldl f g) := by
  induction l generalizing g with
  | nil => exact hg
  | cons a rest ih => exact ih (f g a) (hf g a hg)

/-- A property kept by each step that returns is kept by a loop of steps that returns. -/
theorem foldlM_keeps {α : Type} (P : ObjectGeneratorService → Prop)
    (f : ObjectGeneratorService → α → Option ObjectGeneratorService)
    (hf : ∀ g a g1, f g a = some g1 → P g → P g1) (l : List α)
    (g g1 : ObjectGeneratorService) (h : l.foldlM f g = some g1) (hg : P g) : P g1 := by
  induction l generalizing g with
  | nil =>
    simp only [List.foldlM, pure, Option.some.injEq] at h
    exact h ▸ hg
  | cons a rest ih =>
    simp only [List.foldlM, bind, Option.bind] at h
    cases hfa : f g a with
    | none => rw [hfa] at h; cases h
    | some g2 =>
      rw [hfa] at h
      exact ih g2 h (hf g a g2 hfa hg)

/-- `createObject` keeps consistency. -/
theorem createObject_consistent (table : List (String × ℚ)) (g : ObjectGeneratorService)
    (type : String) (position : Vector3) (isLandable : Bool)
    (h : ObjectGeneratorService.Consistent table g) :
    ObjectGeneratorService.Consistent table (g.createObject type position isLandable).1 :=
  ⟨createObject_subset g type position isLandable h.1,
    (createObject_collections g type position isLandable).2.2.1.trans h.2⟩

/-- `createCrouchObstacle` keeps consistency when it returns. -/
theorem createCrouchObstacle_consistent (table : List (String × ℚ)) (g : ObjectGeneratorService)
    (type : String) (x z rotation : ℚ) (isLandable : Bool) (r : ObjectGeneratorService × Mesh)
    (hr : g.createCrouchObstacle type x z rotation isLandable = some r)
    (h : ObjectGeneratorService.Consistent table g) :
    ObjectGeneratorService.Consistent table r.1 := by
  obtain ⟨hS, hG⟩ := createCrouchObstacle_subset g type x z rotation isLandable r hr h.1
  exact ⟨hS, hG.trans h.2⟩

/-- `createCrouchObstacle` returns for a type that has a geometry. -/
theorem createCrouchObstacle_returns (g : ObjectGeneratorService) (type : String)
    (x z rotation : ℚ) (isLandable : Bool) (height : ℚ)
    (hKey : g.geometries.lookup type = some height) :
    ∃ r, g.createCrouchObstacle type x z rotation isLandable = some r := by
  simp [ObjectGeneratorService.createCrouchObstacle,
    ObjectGeneratorService.calculateCrouchBarrierY, hKey]

/-- `createPlatformTower` keeps consistency. -/
theorem createPlatformTower_consistent (table : List (String × ℚ)) (M : JSMath)
    (g : ObjectGeneratorService) (baseX baseZ : ℚ) (levels : ℕ)
    (h : ObjectGeneratorService.Consistent table g) :
    ObjectGeneratorService.Consistent table (g.createPlatformTower M baseX baseZ levels) := by
  unfold ObjectGeneratorService.createPlatformTower
  exact foldl_keeps _ _ (fun g1 _ h1 => createObject_consistent table g1 _ _ _ h1) _ g h

/-- `createStaircase` keeps consistency. -/
theorem createStaircase_consistent (table : List (String × ℚ)) (g : ObjectGeneratorService)
    (startX startZ : ℚ) (direction : Vector3) (steps : ℕ)
    (h : ObjectGeneratorService.Consistent table g) :
    ObjectGeneratorService.Consistent table (g.createStaircase startX startZ direction steps) := by
  unfold ObjectGeneratorService.createStaircase
  exact foldl_keeps _ _ (fun g1 _ h1 => createObject_consistent table g1 _ _ _ h1) _ g h

/-- `scatterObjects` keeps consistency. -/
theorem scatterObjects_consistent (table : List (String × ℚ)) (M : JSMath)
    (g : ObjectGeneratorService) (area : Area) (count : ℕ) (types : List String)
    (heightRange : HeightRange) (h : ObjectGeneratorService.Consistent table g) :
    ObjectGeneratorService.Consistent table
      (g.scatterObjects M area count types heightRange) := by
  unfold ObjectGeneratorService.scatterObjects
  exact foldl_keeps _ _
    (fun g1 _ h1 => createObject_consistent table { g1 with randomCalls := g1.randomCalls + 4 }
      _ _ _ h1) _ g h

/-- `createJumpingChallenges` keeps consistency. -/
theorem createJumpingChallenges_consistent (table : List (String × ℚ)) (M : JSMath)
    (g : ObjectGeneratorService) (h : ObjectGeneratorService.Consistent table g) :
    ObjectGeneratorService.Consistent table (g.createJumpingChallenges M) := by
  unfold ObjectGeneratorService.createJumpingChallenges
  dsimp only
  refine foldl_keeps _ _ (fun g1 _ h1 => ?_) _ _ ?_
  · refine foldl_keeps _ _ (fun g2 _ h2 => ?_) _ _ h1
    refine foldl_keeps _ _ (fun g3 _ h3 => ?_) _ _ h2
    split_ifs
    · exact createObject_consistent table g3 _ _ _ h3
    · exact h3
  · refine foldl_keeps _ _ (fun g1 _ h1 => createObject_consistent table g1 _ _ _ h1) _ _ ?_
    exact foldl_keeps _ _ (fun g1 _ h1 => createObject_consistent table g1 _ _ _ h1) _ g h

/-- A loop whose steps, on the elements of the list, return and keep a property returns
and keeps it. -/
theorem foldlM_returns {α : Type} (P : ObjectGeneratorService → Prop)
    (f : ObjectGeneratorService → α → Option ObjectGeneratorService) (l : List α)
    (hf : ∀ a ∈ l, ∀ g, P g → ∃ g1, f g a = some g1 ∧ P g1)
    (g : ObjectGeneratorService) (hg : P g) : ∃ g1, l.foldlM f g = some g1 ∧ P g1 := by
  induction l generalizing g with
  | nil => exact ⟨g, rfl, hg⟩
  | cons a rest ih =>
    obtain ⟨g2, hfa, hg2⟩ := hf a (List.mem_cons_self a rest) g hg
    obtain ⟨g1, h1, hg1⟩ := ih (fun b hb => hf b (List.mem_cons_of_mem a hb)) g2 hg2
    refine ⟨g1, ?_, hg1⟩
    simp only [List.foldlM, bind, Option.bind, hfa]
    exact h1

/-- A step `Option.map Prod.fst (createCrouchObstacle ...)` keeps consistency. -/
theorem createCrouchObstacle_step (table : List (String × ℚ)) (g g1 : ObjectGeneratorService)
    (type : String) (x z rotation : ℚ) (isLandable : Bool)
    (hStep : (g.createCrouchObstacle type x z rotation isLandable).map Prod.fst = some g1)
    (h : ObjectGeneratorService.Consistent table g) :
    ObjectGeneratorService.Consistent table g1 := by
  cases hc : g.createCrouchObstacle type x z rotation isLandable with
  | none => rw [hc] at hStep; cases hStep
  | some r =>
    rw [hc] at hStep
    simp only [Option.map, Option.some.injEq] at hStep
    exact hStep ▸ createCrouchObstacle_consistent table g _ _ _ _ _ r hc h

/-- The body of the corridor loop keeps consistency when it returns. -/
theorem placeCorridorPair_consistent (table : List (String × ℚ)) (g g1 : ObjectGeneratorService)
    (i : ℕ) (hStep : g.placeCorridorPair i = some g1)
    (h : ObjectGeneratorService.Consistent table g) :
    ObjectGeneratorService.Consistent table g1 := by
  unfold ObjectGeneratorService.placeCorridorPair at hStep
  dsimp only at hStep
  split at hStep
  · cases hStep
  · rename_i first hFirst
    exact createCrouchObstacle_step table first.1 g1 _ _ _ _ _ hStep
      (createCrouchObstacle_consistent table g _ _ _ _ _ first hFirst h)

/-- `createCrouchObstacles` keeps consistency when it returns. -/
theorem createCrouchObstacles_consistent (table : List (String × ℚ))
    (g g1 : ObjectGeneratorService) (hr : g.createCrouchObstacles = some g1)
    (h : ObjectGeneratorService.Consistent table g) :
    ObjectGeneratorService.Consistent table g1 := by
  unfold ObjectGeneratorService.createCrouchObstacles at hr
  split at hr
  · cases hr
  · rename_i ga hA
    split at hr
    · cases hr
    · rename_i gb hB
      have hCa : ObjectGeneratorService.Consistent table ga :=
        foldlM_keeps _ _ (fun g2 a g3 hStep h2 =>
          createCrouchObstacle_step table g2 g3 _ _ _ _ _ hStep h2) _ g ga hA h
      have hCb : ObjectGeneratorService.Consistent table gb :=
        foldlM_keeps _ _ (fun g2 a g3 hStep h2 =>
          placeCorridorPair_consistent table g2 g3 a hStep h2) _ ga gb hB hCa
      exact foldlM_keeps _ _ (fun g2 a g3 hStep h2 =>
        createCrouchObstacle_step table g2 g3 _ _ _ _ _ hStep h2) _ gb g1 hr hCb

/-- With geometries for the low barrier and the tunnel, `createCrouchObstacle` of one of
these two types returns and keeps consistency. -/
theorem createCrouchObstacle_known (table : List (String × ℚ)) (barrierHeight tunnelHeight : ℚ)
    (hBarrier : table.lookup "lowBarrier" = some barrierHeight)
    (hTunnel : table.lookup "tunnel" = some tunnelHeight)
    (g : ObjectGeneratorService) (type : String) (x z rotation : ℚ) (isLandable : Bool)
    (hType : type = "lowBarrier" ∨ type = "tunnel")
    (h : ObjectGeneratorService.Consistent table g) :
    ∃ r, g.createCrouchObstacle type x z rotation isLandable = some r
      ∧ ObjectGeneratorService.Consistent table r.1 := by
  have hKey : ∃ height, g.geometries.lookup type = some height := by
    rw [h.2]
    rcases hType with rfl | rfl
    · exact ⟨_, hBarrier⟩
    · exact ⟨_, hTunnel⟩
  obtain ⟨height, hKey⟩ := hKey
  obtain ⟨r, hr⟩ := createCrouchObstacle_returns g type x z rotation isLandable height hKey
  exact ⟨r, hr, createCrouchObstacle_consistent table g _ _ _ _ _ r hr h⟩

/-- `createCrouchObstacles` returns, and keeps consistency, when the low barrier and the
tunnel have a geometry. -/
theorem createCrouchObstacles_returns (table : List (String × ℚ)) (g : ObjectGeneratorService)
    (barrierHeight tunnelHeight : ℚ)
    (hBarrier : table.lookup "lowBarrier" = some barrierHeight)
    (hTunnel : table.lookup "tunnel" = some tunnelHeight)
    (h : ObjectGeneratorService.Consistent table g) :
    ∃ g1, g.createCrouchObstacles = some g1 ∧ ObjectGeneratorService.Consistent table g1 := by
  have hKnown := createCrouchObstacle_known table barrierHeight tunnelHeight hBarrier hTunnel
  obtain ⟨ga, hA, hCa⟩ := foldlM_returns (ObjectGeneratorService.Consistent table)
    ObjectGeneratorService.placeBarrier ObjectGeneratorService.crouchBarriers
    (fun a _ g2 h2 => by
      obtain ⟨r, hr, hc⟩ := hKnown g2 "lowBarrier" a.1 a.2.1 a.2.2 true (Or.inl rfl) h2
      exact ⟨r.1, by unfold ObjectGeneratorService.placeBarrier; rw [hr]; rfl, hc⟩) g h
  obtain ⟨gb, hB, hCb⟩ := foldlM_returns (ObjectGeneratorService.Consistent table)
    ObjectGeneratorService.placeCorridorPair (List.range 5)
    (fun i _ g2 h2 => by
      obtain ⟨r1, hr1, hc1⟩ := hKnown g2 "lowBarrier" (400 + (i : ℚ) * 15) (-400 - 10)
        (Math_PI / 2) false (Or.inl rfl) h2
      obtain ⟨r2, hr2, hc2⟩ := hKnown r1.1 "lowBarrier" (400 + (i : ℚ) * 15) (-400 + 10)
        (Math_PI / 2) false (Or.inl rfl) hc1
      refine ⟨r2.1, ?_, hc2⟩
      unfold ObjectGeneratorService.placeCorridorPair
      dsimp only
      rw [hr1]
      dsimp only
      rw [hr2]
      rfl) ga hCa
  obtain ⟨gc, hC, hCc⟩ := foldlM_returns (ObjectGeneratorService.Consistent table)
    ObjectGeneratorService.placeTunnelObstacle ObjectGeneratorService.tunnelObstacles
    (fun a ha g2 h2 => by
      have hType : a.2.2 = "lowBarrier" ∨ a.2.2 = "tunnel" := by
        simp only [ObjectGeneratorService.tunnelObstacles, List.mem_cons, List.mem_singleton,
          List.not_mem_nil, or_false] at ha
        rcases ha with rfl | rfl | rfl <;> simp
      obtain ⟨r, hr, hc⟩ := hKnown g2 a.2.2 a.1 a.2.1 0 false hType h2
      exact ⟨r.1, by unfold ObjectGeneratorService.placeTunnelObstacle; rw [hr]; rfl, hc⟩) gb hCb
  refine ⟨gc, ?_, hCc⟩
  unfold ObjectGeneratorService.createCrouchObstacles
  rw [hA]
  dsimp only
  rw [hB]
  exact hC

/-- `generateWorldObjects` keeps consistency when it returns. -/
theorem generateWorldObjects_consistent (table : List (String × ℚ)) (T : Engine) (M : JSMath)
    (g g1 : ObjectGeneratorService) (hr : g.generateWorldObjects T M = some g1)
    (h : ObjectGeneratorService.Consistent table g) :
    ObjectGeneratorService.Consistent table g1 := by
  unfold ObjectGeneratorService.generateWorldObjects at hr
  refine createCrouchObstacles_consistent table _ g1 hr ?_
  apply createJumpingChallenges_consistent
  apply scatterObjects_consistent
  apply createStaircase_consistent
  apply createStaircase_consistent
  apply createStaircase_consistent
  apply createPlatformTower_consistent
  apply createPlatformTower_consistent
  apply createPlatformTower_consistent
  apply createPlatformTower_consistent
  apply scatterObjects_consistent
  exact h

/-- `generateWorldObjects` returns when the low barrier and the tunnel have a geometry. -/
theorem generateWorldObjects_returns (table : List (String × ℚ)) (T : Engine) (M : JSMath)
    (g : ObjectGeneratorService) (barrierHeight tunnelHeight : ℚ)
    (hBarrier : table.lookup "lowBarrier" = some barrierHeight)
    (hTunnel : table.lookup "tunnel" = some tunnelHeight)
    (h : ObjectGeneratorService.Consistent table g) :
    ∃ g1, g.generateWorldObjects T M = some g1 := by
  unfold ObjectGeneratorService.generateWorldObjects
  dsimp only
  refine Exists.imp (fun g1 h1 => h1.1)
    (createCrouchObstacles_returns table _ barrierHeight tunnelHeight hBarrier hTunnel ?_)
  apply createJumpingChallenges_consistent
  apply scatterObjects_consistent
  apply createStaircase_consistent
  apply createStaircase_consistent
  apply createStaircase_consistent
  apply createPlatformTower_consistent
  apply createPlatformTower_consistent
  apply createPlatformTower_consistent
  apply createPlatformTower_consistent
  apply scatterObjects_consistent
  exact h

/-- C17: starting from collections in which every landable entry is a collidable entry
(in particular from two empty collections), every generator operation keeps the
landable collection inside the collidable collection: `createObject`,
`createCrouchObstacle` (when it returns), `createPlatformTower`,
`createStaircase`, `scatterObjects` and `generateWorldObjects` (which returns
whenever the low barrier and the tunnel have a geometry, as they have after the
constructor).  `createObject` appends the new mesh to the collidable collection
always and to the landable collection exactly when `isLandable` is true, and
removes nothing. -/
theorem landable_subset_preserved (T : Engine) (M : JSMath) (g : ObjectGeneratorService)
    (h : g.landableObjects ⊆ g.collidableObjects) :
    (∀ (type : String) (position : Vector3) (isLandable : Bool),
      (g.createObject type position isLandable).1.collidableObjects
        = g.collidableObjects ++ [(g.createObject type position isLandable).2] ∧
      (g.createObject type position isLandable).1.landableObjects
        = (if isLandable = true then
            g.landableObjects ++ [(g.createObject type position isLandable).2]
           else g.landableObjects) ∧
      (g.createObject type position isLandable).1.landableObjects
        ⊆ (g.createObject type position isLandable).1.collidableObjects) ∧
    (∀ (type : String) (x z rotation : ℚ) (isLandable : Bool)
        (r : ObjectGeneratorService × Mesh),
      g.createCrouchObstacle type x z rotation isLandable = some r →
      r.1.landableObjects ⊆ r.1.collidableObjects) ∧
    (∀ (baseX baseZ : ℚ) (levels : ℕ),
      (g.createPlatformTower M baseX baseZ levels).landableObjects
        ⊆ (g.createPlatformTower M baseX baseZ levels).collidableObjects) ∧
    (∀ (startX startZ : ℚ) (direction : Vector3) (steps : ℕ),
      (g.createStaircase startX startZ direction steps).landableObjects
        ⊆ (g.createStaircase startX startZ direction steps).collidableObjects) ∧
    (∀ (area : Area) (count : ℕ) (types : List String) (heightRange : HeightRange),
      (g.scatterObjects M area count types heightRange).landableObjects
        ⊆ (g.scatterObjects M area count types heightRange).collidableObjects) ∧
    (∀ g1 : ObjectGeneratorService, g.generateWorldObjects T M = some g1 →
      g1.landableObjects ⊆ g1.collidableObjects) ∧
    (∀ barrierHeight tunnelHeight : ℚ,
      g.geometries.lookup "lowBarrier" = some barrierHeight →
      g.geometries.lookup "tunnel" = some tunnelHeight →
      ∃ g1, g.generateWorldObjects T M = some g1) ∧
    (∀ (scene : List Mesh) (groundHeight : ℚ),
      (ObjectGeneratorService.constructor scene [] [] groundHeight).landableObjects
        ⊆ (ObjectGeneratorService.constructor scene [] [] groundHeight).collidableObjects) := by
  have hC : ObjectGeneratorService.Consistent g.geometries g := ⟨h, rfl⟩
  refine ⟨?_, ?_, ?_, ?_, ?_, ?_, ?_, ?_⟩
  · intro type position isLandable
    obtain ⟨h1, h2, _⟩ := createObject_collections g type position isLandable
    exact ⟨h1, h2, createObject_subset g type position isLandable h⟩
  · intro type x z rotation isLandable r hr
    exact (createCrouchObstacle_subset g type x z rotation isLandable r hr h).1
  · intro baseX baseZ levels
    exact (createPlatformTower_consistent _ M g baseX baseZ levels hC).1
  · intro startX startZ direction steps
    exact (createStaircase_consistent _ g startX startZ direction steps hC).1
  · intro area count types heightRange
    exact (scatterObjects_consistent _ M g area count types heightRange hC).1
  · intro g1 hr
    exact (generateWorldObjects_consistent _ T M g g1 hr hC).1
  · intro barrierHeight tunnelHeight hB hT
    exact generateWorldObjects_returns _ T M g barrierHeight tunnelHeight hB hT hC
  · intro scene groundHeight
    exact List.nil_subset _

/-- Witness of C17: the generator constructed over two empty collections generates its
world, and afterwards every landable entry is a collidable entry. -/
theorem landable_subset_preserved_witness :
    ∃ g1, Scene.freshGenerator.generateWorldObjects Scene.emptyWorld Scene.math = some g1 ∧
      g1.landableObjects ⊆ g1.collidableObjects := by
  have h := landable_subset_preserved Scene.emptyWorld Scene.math Scene.freshGenerator
    (List.nil_subset _)
  obtain ⟨g1, hg1⟩ := h.2.2.2.2.2.2.1 6 8 (by rfl) (by rfl)
  exact ⟨g1, hg1, h.2.2.2.2.2.1 g1 hg1⟩

/-! ## Low barriers and the standing player -/

/-- C20, the code at the failing input: with the default configuration (ground height 10,
player height 8), the first low barrier of `createCrouchObstacles` is placed at
`y = 15.5` with height 6, so it spans the heights 12.5 to 18.5.  The standing
player at `position.y = 10` casts its horizontal probe rays at the heights 7.6,
10 and 12.4: all three are below the bottom 12.5 of the barrier, none lies
within its vertical extent. -/
theorem low_barrier_above_probes :
    Scene.freshGenerator.calculateCrouchBarrierY "lowBarrier" = some (31 / 2) ∧
    (Scene.freshGenerator.createCrouchObstacle "lowBarrier" (-150) 0 0 true).map
        (fun r => (r.2.position, r.2.parameters))
      = some (⟨-150, 31 / 2, 0⟩, some ⟨some 6⟩) ∧
    (Scene.freshAt ⟨0, 10, 0⟩ [] []).controls.yawObject.position.y
      = (Scene.freshAt ⟨0, 10, 0⟩ [] []).config.GROUND_HEIGHT ∧
    (Scene.freshAt ⟨0, 10, 0⟩ [] []).isCrouching = false ∧
    (checkHeights (Scene.freshAt ⟨0, 10, 0⟩ [] [])).map
        (fun heightOffset =>
          (Scene.freshAt ⟨0, 10, 0⟩ [] []).controls.yawObject.position.y + heightOffset)
      = [38 / 5, 10, 62 / 5] ∧
    (∀ probe ∈ ([38 / 5, 10, 62 / 5] : List ℚ), probe < 31 / 2 - 6 / 2) := by
  refine ⟨?_, ?_, ?_, ?_, ?_, ?_⟩
  · simp [Scene.freshGenerator, ObjectGeneratorService.constructor,
      ObjectGeneratorService.calculateCrouchBarrierY, List.lookup]
    norm_num
  · simp [Scene.freshGenerator, ObjectGeneratorService.constructor,
      ObjectGeneratorService.createCrouchObstacle, ObjectGeneratorService.createObject,
      ObjectGeneratorService.calculateCrouchBarrierY, List.lookup]
    norm_num
  · simp [Scene.freshAt, Scene.noOptions, Scene.controlsAt, constructor, initEyeHeights,
      orDefault]
  · simp [Scene.freshAt, constructor, initEyeHeights]
  · simp [checkHeights, getCurrentPlayerHeight, Scene.freshAt, Scene.noOptions, Scene.controlsAt,
      constructor, initEyeHeights, orDefault]
    norm_num
  · intro probe hp
    simp only [List.mem_cons, List.mem_singleton, List.not_mem_nil, or_false] at hp
    rcases hp with rfl | rfl | rfl <;> norm_num

/-! ## Generated crouch obstacles and the crouched player -/

/-- The mesh `createCrouchObstacle` returns: placed at the height computed by
`calculateCrouchBarrierY`, with the geometry of its type. -/
theorem createCrouchObstacle_mesh (g : ObjectGeneratorService) (type : String)
    (x z rotation : ℚ) (isLandable : Bool) (height : ℚ)
    (hKey : g.geometries.lookup type = some height) :
    ∃ r, g.createCrouchObstacle type x z rotation isLandable = some r ∧
      r.2.parameters = some ⟨some height⟩ ∧
      r.2.position
        = ⟨x, g.GROUND_HEIGHT + g.crouchConfig.PLAYER_CROUCH_HEIGHT
            + g.crouchConfig.MIN_CROUCH_CLEARANCE + height / 2, z⟩ ∧
      r.2.userData = some ⟨some true, some type⟩ ∧
      r.1.collidableObjects = g.collidableObjects ++ [r.2] := by
  simp [ObjectGeneratorService.createCrouchObstacle,
    ObjectGeneratorService.calculateCrouchBarrierY, ObjectGeneratorService.createObject,
    ObjectGeneratorService.replaceLast, hKey]
  cases isLandable <;> simp

/-- C21: in a generator with ground height `g`, the geometries and the crouch
configuration of the constructor, `createCrouchObstacle` of type lowBarrier or
tunnel returns an obstacle whose bottom `position.y - height/2` is `g + 2 + 0.5`.
Hence for a player with `CROUCH_HEIGHT` 2 whose `position.y` is `g`, whenever that
obstacle is the nearest hit of the crouch-specific check, at any distance, the
clearance `objectBottom - playerCrouchTop` is 1.5 and `checkCrouchCollision`
returns false. -/
theorem generated_obstacle_pass_under (gen : ObjectGeneratorService) (type : String)
    (x z rotation : ℚ) (isLandable : Bool)
    (hType : type = "lowBarrier" ∨ type = "tunnel")
    (hTable : gen.geometries = (ObjectGeneratorService.constructor [] [] [] 0).geometries)
    (hConfig : gen.crouchConfig = (ObjectGeneratorService.constructor [] [] [] 0).crouchConfig) :
    ∃ (r : ObjectGeneratorService × Mesh) (height : ℚ),
      gen.createCrouchObstacle type x z rotation isLandable = some r ∧
      r.2.parameters = some ⟨some height⟩ ∧
      r.2.position.y - height / 2 = gen.GROUND_HEIGHT + 2 + 0.5 ∧
      ∀ (T : Engine) (s : UserMovementService) (direction : Vector3) (hit : Intersection)
          (rest : List Intersection),
        s.config.CROUCH_HEIGHT = 2 →
        s.controls.yawObject.position.y = gen.GROUND_HEIGHT →
        T.intersectObjects s.controls.yawObject.position (T.normalize direction)
          s.collidableObjects false = hit :: rest →
        hit.object = r.2 →
        hit.object.position.y - height / 2
            - (s.controls.yawObject.position.y + s.config.CROUCH_HEIGHT / 2) = 1.5 ∧
        checkCrouchCollision T s direction = false := by
  have hKey : ∃ height, gen.geometries.lookup type = some height := by
    rw [hTable]
    rcases hType with rfl | rfl
    · exact ⟨6, by rfl⟩
    · exact ⟨8, by rfl⟩
  obtain ⟨height, hKey⟩ := hKey
  obtain ⟨r, hr, hPar, hPos, _, _⟩ :=
    createCrouchObstacle_mesh gen type x z rotation isLandable height hKey
  have hBottom : r.2.position.y - height / 2 = gen.GROUND_HEIGHT + 2 + 0.5 := by
    rw [hPos, hConfig]
    simp [ObjectGeneratorService.constructor]
  refine ⟨r, height, hr, hPar, hBottom, ?_⟩
  intro T s direction hit rest hCrouch hY hHits hObj
  have hClear : hit.object.position.y - height / 2
      - (s.controls.yawObject.position.y + s.config.CROUCH_HEIGHT / 2) = 1.5 := by
    rw [hObj, hY, hCrouch]
    have := hBottom
    norm_num at this ⊢
    linarith
  refine ⟨hClear, ?_⟩
  rw [checkCrouchCollision_cons T s direction hit rest height hHits (by rw [hObj]; exact hPar),
    hClear]
  norm_num

/-- Witness of C21: the generator with ground height 10 creates a low barrier at x = 2;
the crouched player at height 10 whose nearest hit, at distance 1, is that
barrier is not blocked. -/
theorem generated_obstacle_pass_under_witness :
    (Scene.freshGenerator.createCrouchObstacle "lowBarrier" 2 0 0 true).map Prod.snd
      = some Scene.generatedBarrier ∧
    checkCrouchCollision (Scene.meshWorld Scene.generatedBarrier 1) Scene.crouchedAtGenerated
      ⟨1, 0, 0⟩ = false := by
  have hMesh : (Scene.freshGenerator.createCrouchObstacle "lowBarrier" 2 0 0 true).map Prod.snd
      = some Scene.generatedBarrier := by
    simp [Scene.freshGenerator, Scene.generatedBarrier, ObjectGeneratorService.constructor,
      ObjectGeneratorService.createCrouchObstacle, ObjectGeneratorService.createObject,
      ObjectGeneratorService.calculateCrouchBarrierY, List.lookup]
    norm_num
  have hState : Scene.crouchedAtGenerated.controls.yawObject.position = ⟨0, 10, 0⟩ ∧
      Scene.crouchedAtGenerated.collidableObjects = [Scene.generatedBarrier] ∧
      Scene.crouchedAtGenerated.config.CROUCH_HEIGHT = 2 := by
    simp [Scene.crouchedAtGenerated, Scene.freshAt, Scene.noOptions, Scene.controlsAt,
      toggleCrouch, setCrouchMode, constructor, initEyeHeights, orDefault]
  obtain ⟨hP, hC, hH⟩ := hState
  obtain ⟨r, height, hr, _, _, hPass⟩ := generated_obstacle_pass_under Scene.freshGenerator
    "lowBarrier" 2 0 0 true (Or.inl rfl) rfl rfl
  rw [hr] at hMesh
  simp only [Option.map, Option.some.injEq] at hMesh
  refine ⟨by rw [hr]; simp only [Option.map, Option.some.injEq]; exact hMesh, ?_⟩
  exact (hPass (Scene.meshWorld Scene.generatedBarrier 1) Scene.crouchedAtGenerated ⟨1, 0, 0⟩
    ⟨1, ⟨1, 10, 0⟩, Scene.generatedBarrier⟩ [] hH (by rw [hP]; rfl)
    (by rw [hP, hC]; simp [Scene.meshWorld, Scene.engine, Vector3.add])
    hMesh.symm).2

/-! ## A grounded player at rest -/

/-- C22: for `delta > 0`, in a state with `position.y = GROUND_HEIGHT`, velocity
(0, 0, 0), all four movement flags false, `isJumping` false, `canJump` true and
no landable surface under the player (the downward ray hits nothing),
`update(delta)` leaves the position, the velocity, `canJump`, `isJumping`,
`isCrouching` and `isRunning` unchanged; the only field it writes a new value to
is `direction`.  At the point of the horizontal collision checks both
horizontal velocity components are 0, so the guards `velocity.x !== 0` and
`velocity.z !== 0` are false and neither collision check is called: no
horizontal ray is cast. -/
theorem grounded_rest_fixed_point (T : Engine) (now delta : ℚ) (s : UserMovementService)
    (hDelta : 0 < delta)
    (hGround : s.controls.yawObject.position.y = s.config.GROUND_HEIGHT)
    (hVelocity : s.velocity = ⟨0, 0, 0⟩)
    (hF : s.moveForward = false) (hB : s.moveBackward = false)
    (hL : s.moveLeft = false) (hR : s.moveRight = false)
    (hJumping : s.isJumping = false) (hCanJump : s.canJump = true)
    (hNothing : T.intersectObjects s.controls.yawObject.position ⟨0, -1, 0⟩
      s.landableObjects false = []) :
    (update T now delta s).controls.yawObject.position = s.controls.yawObject.position ∧
    (update T now delta s).velocity = s.velocity ∧
    (update T now delta s).canJump = s.canJump ∧
    (update T now delta s).isJumping = s.isJumping ∧
    (update T now delta s).isCrouching = s.isCrouching ∧
    (update T now delta s).isRunning = s.isRunning ∧
    update T now delta s = { s with direction := T.normalize ⟨0, s.direction.y, 0⟩ } ∧
    (afterInput T now delta s).velocity.x = 0 ∧
    (afterInput T now delta s).velocity.z = 0 ∧
    canMoveX T (afterInput T now delta s) = true ∧
    canMoveZ T (afterInput T now delta s) = true := by
  obtain ⟨hDt, hSt⟩ := frame_of_delta now delta s (ne_of_gt hDelta)
  have hGH : getGroundHeight T s = s.config.GROUND_HEIGHT := by
    simp [getGroundHeight, hNothing]
  have hGrav : applyGravity T delta s = s := by
    unfold applyGravity
    dsimp only
    rw [if_neg]
    rw [hGH, hGround, hJumping]
    simp
  have hIn : afterInput T now delta s
      = { s with direction := T.normalize ⟨0, s.direction.y, 0⟩ } := by
    unfold afterInput
    dsimp only
    rw [hDt, hSt, hGrav]
    cases s with
    | mk controls coll land mf mb ml mr run crouch cj ij velocity direction config prev eye =>
      simp only at hVelocity hF hB hL hR
      subst hVelocity hF hB hL hR
      simp [applyInput, applyDamping, boolToNumber]
  have hVx : (afterInput T now delta s).velocity.x = 0 := by rw [hIn]; simp [hVelocity]
  have hVz : (afterInput T now delta s).velocity.z = 0 := by rw [hIn]; simp [hVelocity]
  have hCX : canMoveX T (afterInput T now delta s) = true := by simp [canMoveX, hVx]
  have hCZ : canMoveZ T (afterInput T now delta s) = true := by simp [canMoveZ, hVz]
  have hEq : update T now delta s = { s with direction := T.normalize ⟨0, s.direction.y, 0⟩ } := by
    have hHor : afterHorizontal T now delta s = afterInput T now delta s := by
      unfold afterHorizontal moveHorizontal
      dsimp only
      rw [hCX, hCZ]
      simp only [if_true, hVx, hVz, zero_mul]
      cases hA : afterInput T now delta s with
      | mk controls coll land mf mb ml mr run crouch cj ij velocity direction config prev eye =>
        cases controls with
        | mk enabled yaw pitch =>
          cases yaw with
          | mk position rotation quaternion =>
            cases position
            simp [Object3D.translateX, Object3D.translateZ, Object3D.translateOnAxis,
              Vector3.add, Vector3.multiplyScalar]
    unfold update beforeLanding
    rw [hHor, hIn, hDt]
    cases s with
    | mk controls coll land mf mb ml mr run crouch cj ij velocity direction config prev eye =>
      cases controls with
      | mk enabled yaw pitch =>
        cases yaw with
        | mk position rotation quaternion =>
          cases position with
          | mk px py pz =>
            simp only at hVelocity hGround hJumping hCanJump hNothing
            subst hVelocity hGround hJumping hCanJump
            simp [stopAtCeiling, moveVertical, resolveLanding, checkTopCollision, clampToGround,
              landAt, hNothing]
  rw [hEq]
  exact ⟨rfl, rfl, rfl, rfl, rfl, rfl, rfl, hVx, hVz, hCX, hCZ⟩

/-- Witness of C22: a freshly constructed player at the ground height 10, in the world
without objects, is left where it is, at rest, by an update with
`delta = 1/16`. -/
theorem grounded_rest_fixed_point_witness :
    (update Scene.emptyWorld 0 (1 / 16) (Scene.freshAt ⟨0, 10, 0⟩ [] [])).controls.yawObject.position
      = ⟨0, 10, 0⟩ ∧
    (update Scene.emptyWorld 0 (1 / 16) (Scene.freshAt ⟨0, 10, 0⟩ [] [])).velocity = ⟨0, 0, 0⟩ ∧
    (update Scene.emptyWorld 0 (1 / 16) (Scene.freshAt ⟨0, 10, 0⟩ [] [])).canJump = true := by
  have h := grounded_rest_fixed_point Scene.emptyWorld 0 (1 / 16) (Scene.freshAt ⟨0, 10, 0⟩ [] [])
    (by norm_num)
    (by simp [Scene.freshAt, Scene.noOptions, Scene.controlsAt, constructor, initEyeHeights,
      orDefault])
    (by simp [Scene.freshAt, constructor, initEyeHeights])
    (by simp [Scene.freshAt, constructor, initEyeHeights])
    (by simp [Scene.freshAt, constructor, initEyeHeights])
    (by simp [Scene.freshAt, constructor, initEyeHeights])
    (by simp [Scene.freshAt, constructor, initEyeHeights])
    (by simp [Scene.freshAt, constructor, initEyeHeights])
    (by simp [Scene.freshAt, constructor, initEyeHeights])
    (by simp [Scene.emptyWorld, Scene.engine])
  refine ⟨?_, ?_, ?_⟩
  · rw [h.1]; simp [Scene.freshAt, Scene.controlsAt, constructor, initEyeHeights]
  · rw [h.2.1]; simp [Scene.freshAt, constructor, initEyeHeights]
  · rw [h.2.2.1]; simp [Scene.freshAt, constructor, initEyeHeights]

/-- On a standing player whose eye is at `eye.stand`, with `eye.crouch` the offset
`initEyeHeights` derives from it, `updateConfig` with the empty mapping changes
nothing. -/
theorem updateConfig_empty_standing (s : UserMovementService)
    (hStand : s.isCrouching = false)
    (hEye : s.controls.pitchObject.position.y = s.eye.stand)
    (hCrouch : s.eye.crouch
      = s.eye.stand - (s.config.PLAYER_HEIGHT - s.config.CROUCH_HEIGHT) * 2.5) :
    updateConfig Scene.noOptions s = s := by
  cases s with
  | mk controls coll land mf mb ml mr run crouch cj ij velocity direction config prev eye =>
    cases controls with
    | mk enabled yaw pitch =>
      cases pitch with
      | mk position rotation quaternion =>
        cases position
        cases eye
        cases config
        simp only at hStand hEye hCrouch
        subst hStand hEye hCrouch
        simp [updateConfig, assignConfig, initEyeHeights, Scene.noOptions]

/-- On a crouching player, `updateConfig` with the empty mapping lowers the eye by
`2.5 * (PLAYER_HEIGHT - CROUCH_HEIGHT)` and takes the former eye offset as
`eye.stand`. -/
theorem updateConfig_empty_crouching (s : UserMovementService)
    (hCrouching : s.isCrouching = true) :
    (updateConfig Scene.noOptions s).controls.pitchObject.position.y
      = s.controls.pitchObject.position.y
        - (s.config.PLAYER_HEIGHT - s.config.CROUCH_HEIGHT) * 2.5 ∧
    (updateConfig Scene.noOptions s).eye.stand = s.controls.pitchObject.position.y := by
  simp [updateConfig, assignConfig, initEyeHeights, Scene.noOptions, hCrouching]

/-! ## Repeated configuration updates -/

/-- C23, the code at the failing input: a freshly constructed player (eye offset 7,
default heights 8 and 2) crouches once; it then has `eye.stand = 7`,
`eye.crouch = -8` and eye offset -8.  `updateConfig` with the empty mapping
recomputes the eye heights from the current (crouched) eye offset: afterwards
`eye.stand = -8`, `eye.crouch = -23` and the eye offset is -23, and a second call
moves the eye to -38.  On the standing player the same call changes neither the
eye heights nor the eye offset. -/
theorem updateConfig_moves_crouched_eye :
    Scene.crouched.isCrouching = true ∧
    Scene.crouched.eye = ⟨7, -8⟩ ∧
    Scene.crouched.controls.pitchObject.position.y = -8 ∧
    (updateConfig Scene.noOptions Scene.crouched).config = Scene.crouched.config ∧
    (updateConfig Scene.noOptions Scene.crouched).eye = ⟨-8, -23⟩ ∧
    (updateConfig Scene.noOptions Scene.crouched).controls.pitchObject.position.y = -23 ∧
    (updateConfig Scene.noOptions
      (updateConfig Scene.noOptions Scene.crouched)).controls.pitchObject.position.y = -38 ∧
    (updateConfig Scene.noOptions (Scene.freshAt ⟨0, 10, 0⟩ [] [])).eye
      = (Scene.freshAt ⟨0, 10, 0⟩ [] []).eye ∧
    (updateConfig Scene.noOptions (Scene.freshAt ⟨0, 10, 0⟩ [] [])).controls.pitchObject.position.y
      = (Scene.freshAt ⟨0, 10, 0⟩ [] []).controls.pitchObject.position.y := by
  refine ⟨?_, ?_, ?_, ?_, ?_, ?_, ?_, ?_, ?_⟩
  all_goals
    simp [updateConfig, assignConfig, Scene.crouched, Scene.freshAt, Scene.noOptions,
      Scene.controlsAt, toggleCrouch, setCrouchMode, constructor, initEyeHeights, orDefault]
  all_goals norm_num
